import Mathlib

/-! ISAR streaming ABI and its Unreal adapter.

A shallow embedding of the ISAR C ABI headers (`isar/version.h`, `isar/types.h`,
`isar/input_types.h`, `isar/graphics_api_config.h`, the four `*_api.h` tables) and of
the parts of `FStreamHMD.cpp` and `FStreamInput.cpp` that drive them.

Conventions.
* `unsigned int` and `uint32_t` values are naturals reduced modulo `2 ^ 32` wherever an
  operation can wrap; `int64_t` values are integers. The macros of `version.h`, which
  carry no cast, are computed on integers in the type of their operands (`OperandType`).
* A `float` is carried as its bit pattern (`F32`); the code only ever copies floats on the
  paths embedded here.
* A pointer or handle is a natural number and `0` is the null pointer.
* The native library behind `m_serverApi` is not part of the repository: every call into
  it takes its answer from an explicit `ServerApi` record of responses.
-/

namespace Isar

/-! ## `isar/version.h` -/

/-- Width of `IsarVersion` (`typedef unsigned int IsarVersion`). -/
def versionBits : Nat := 32

/-- The C type the operands of a macro of `version.h` have: the macros carry no cast, so
an invocation on `int` literals (as `ISAR_LATEST_VERSION` is) computes in `int` and one on
`IsarVersion` values computes in `unsigned int`. -/
inductive OperandType where
  | int
  | unsignedInt
deriving DecidableEq, Repr

/-- The value of a 32-bit result of the given type: reduced modulo `2 ^ 32` into
`[0, 2^32)` for `unsigned int` and into `[-2^31, 2^31)` for `int`. -/
def OperandType.wrap (ty : OperandType) (x : Int) : Int :=
  match ty with
  | .unsignedInt => x % 2 ^ versionBits
  | .int => (x + 2 ^ (versionBits - 1)) % 2 ^ versionBits - 2 ^ (versionBits - 1)

/-- The bit pattern of a 32-bit value, signed or unsigned, as a natural number. -/
def bits32 (x : Int) : Nat := (x % 2 ^ versionBits).toNat

/-- `a | b` in the given type: the "or" of the two bit patterns, read back in that type. -/
def OperandType.or (ty : OperandType) (a b : Int) : Int :=
  ty.wrap (((bits32 a ||| bits32 b : Nat)) : Int)

/-- `a & mask` for a non-negative literal `mask`: the "and" of the two bit patterns, which
has the sign bit clear and so is the same value in either type. -/
def andMask (a : Int) (mask : Nat) : Int := ((bits32 a &&& mask : Nat) : Int)

/-- `ISAR_MAKE_PACKED_VERSION(major, minor, patch)`:
`(((major) << 20) | ((minor) << 10) | (patch))`, computed in the type of its operands. -/
def ISAR_MAKE_PACKED_VERSION (ty : OperandType) (major minor patch : Int) : Int :=
  ty.or (ty.or (ty.wrap (major * 2 ^ 20)) (ty.wrap (minor * 2 ^ 10))) patch

/-- `ISAR_LATEST_VERSION`: `ISAR_MAKE_PACKED_VERSION(2025, 0, 0)`, on `int` literals. -/
def ISAR_LATEST_VERSION : Int := ISAR_MAKE_PACKED_VERSION OperandType.int 2025 0 0

/-- `ISAR_INVALID_VERSION`. -/
def ISAR_INVALID_VERSION : Nat := 0

/-- `ISAR_GET_VERSION_MAJOR(version)`: `((version) >> 20)`. On an integer the shift is
the arithmetic one, which keeps the sign of a negative `int` and is the logical shift on
the non-negative value of an `unsigned int`. -/
def ISAR_GET_VERSION_MAJOR (version : Int) : Int := version >>> (20 : Nat)

/-- `ISAR_GET_VERSION_MINOR(version)`: `(((version) >> 10) & 0x3ff)`. -/
def ISAR_GET_VERSION_MINOR (version : Int) : Int := andMask (version >>> (10 : Nat)) 0x3ff

/-- `ISAR_GET_VERSION_PATCH(version)`: `((version) & 0x3FF)`. -/
def ISAR_GET_VERSION_PATCH (version : Int) : Int := andMask version 0x3FF

/-! ## Enum declarations of the ABI headers

An `enum` declaration is kept as written: the list of its enumerators, each with the
initialiser it has in the header (or none). `enumValues` assigns the values by the C rule:
an enumerator without initialiser is one more than its predecessor, the first one is `0`. -/

/-- The initialiser of one enumerator. -/
inductive EnumInit where
  /-- No initialiser. -/
  | auto
  /-- An integer constant expression. -/
  | lit (v : Int)
  /-- An earlier enumerator of the same enum plus a constant, as in `X_MAX = X_COUNT - 1`. -/
  | ofName (n : String) (delta : Int)
deriving DecidableEq, Repr

/-- One enumerator of an `enum` declaration. -/
structure Enumerator where
  name : String
  init : EnumInit
deriving DecidableEq, Repr

/-- An `enum` declaration: its tag and its enumerators in order. -/
structure EnumDecl where
  tag : String
  enumerators : List Enumerator
deriving DecidableEq, Repr

/-- Value of the enumerator named `n` among those already evaluated. -/
def lookupEnum (n : String) : List (String × Int) → Int
  | [] => 0
  | (m, v) :: rest => if m = n then v else lookupEnum n rest

/-- Values of the enumerators, `next` being the value an enumerator without initialiser
gets and `seen` the enumerators evaluated so far. -/
def enumValuesFrom (next : Int) (seen : List (String × Int)) :
    List Enumerator → List (String × Int)
  | [] => []
  | e :: rest =>
    let v : Int := match e.init with
      | .auto => next
      | .lit v => v
      | .ofName n d => lookupEnum n seen + d
    (e.name, v) :: enumValuesFrom (v + 1) ((e.name, v) :: seen) rest

/-- The enumerators of a declaration with their values. -/
def enumValues (d : EnumDecl) : List (String × Int) := enumValuesFrom 0 [] d.enumerators

/-- The constant expression `(a << k)` of an initialiser. -/
def shl (a k : Nat) : Int := ((a <<< k : Nat) : Int)

/-- `enum IsarColorSpaceType` (`types.h`). -/
def IsarColorSpaceType_decl : EnumDecl := ⟨"IsarColorSpaceType",
  [ ⟨"IsarColorSpaceType_Gamma", .auto⟩,
    ⟨"IsarColorSpaceType_Linear", .auto⟩,
    ⟨"IsarColorSpaceType_INTERNAL_FORCE_INT32_SIZE", .lit 0xFFFFFFFF⟩ ]⟩

/-- `enum IsarCodecType` (`types.h`). -/
def IsarCodecType_decl : EnumDecl := ⟨"IsarCodecType",
  [ ⟨"IsarCodecType_AUTO", .auto⟩,
    ⟨"IsarCodecType_H264", .auto⟩,
    ⟨"IsarCodecType_H265", .auto⟩,
    ⟨"IsarCodecType_VP8", .auto⟩,
    ⟨"IsarCodecType_VP9", .auto⟩,
    ⟨"IsarCodecType_AV1", .auto⟩,
    ⟨"IsarCodecType_H265_10Bit", .auto⟩,
    ⟨"IsarCodecType_AV1_10Bit", .auto⟩,
    ⟨"IsarCodecType_INTERNAL_FORCE_INT32_SIZE", .lit 0xFFFFFFFF⟩ ]⟩

/-- `enum IsarDiagnosticOptions` (`types.h`). -/
def IsarDiagnosticOptions_decl : EnumDecl := ⟨"IsarDiagnosticOptions",
  [ ⟨"IsarDiagnosticOptions_DISABLED", .lit 0⟩,
    ⟨"IsarDiagnosticOptions_ENABLE_TRACING", .lit (shl 1 0)⟩,
    ⟨"IsarDiagnosticOptions_ENABLE_EVENT_LOG", .lit (shl 1 1)⟩,
    ⟨"IsarDiagnosticOptions_ENABLE_STATS_COLLECTOR", .lit (shl 1 2)⟩,
    ⟨"IsarDiagnosticOptions_INTERNAL_FORCE_INT32_SIZE", .lit 0xFFFFFFFF⟩ ]⟩

/-- `enum IsarConnectionState` (`types.h`). -/
def IsarConnectionState_decl : EnumDecl := ⟨"IsarConnectionState",
  [ ⟨"IsarConnectionState_DISCONNECTED", .auto⟩,
    ⟨"IsarConnectionState_CONNECTING", .auto⟩,
    ⟨"IsarConnectionState_CONNECTED", .auto⟩,
    ⟨"IsarConnectionState_CLOSING", .auto⟩,
    ⟨"IsarConnectionState_FAILED", .auto⟩,
    ⟨"IsarConnectionState_INTERNAL_FORCE_INT32_SIZE", .lit 0xFFFFFFFF⟩ ]⟩

/-- `enum IsarChannelPriority` (`types.h`). -/
def IsarChannelPriority_decl : EnumDecl := ⟨"IsarChannelPriority",
  [ ⟨"IsarChannelPriority_LOW", .auto⟩,
    ⟨"IsarChannelPriority_MED", .auto⟩,
    ⟨"IsarChannelPriority_HIGH", .auto⟩,
    ⟨"IsarChannelPriority_INTERNAL_FORCE_INT32_SIZE", .lit 0xFFFFFFFF⟩ ]⟩

/-- `enum IsarDeviceType` (`types.h`). -/
def IsarDeviceType_decl : EnumDecl := ⟨"IsarDeviceType",
  [ ⟨"IsarDeviceType_UNDEFINED", .lit (-1)⟩,
    ⟨"IsarDeviceType_AR", .lit 0⟩,
    ⟨"IsarDeviceType_VR", .auto⟩,
    ⟨"IsarDeviceType_MR", .auto⟩,
    ⟨"IsarDeviceType_PC", .auto⟩,
    ⟨"IsarClientType_INTERNAL_FORCE_INT32_SIZE", .lit 0xFFFFFFFF⟩ ]⟩

/-- `enum IsarError` (`types.h`). -/
def IsarError_decl : EnumDecl := ⟨"IsarError",
  [ ⟨"eNone", .lit 0⟩,
    ⟨"eAlreadyInitialized", .auto⟩,
    ⟨"eInvalidHandle", .auto⟩,
    ⟨"ePeerConnectionFactory", .auto⟩,
    ⟨"ePeerConnection", .auto⟩,
    ⟨"eDataChannel_Creation", .auto⟩,
    ⟨"eDataChannel_AlreadyExists", .auto⟩,
    ⟨"eDataChannel_Unsupported", .auto⟩,
    ⟨"eDataChannel_Open", .auto⟩,
    ⟨"eDataChannel_Send", .auto⟩,
    ⟨"eDataChannel_MessageTooLong", .auto⟩,
    ⟨"eDataChannel_InvalidConnection", .auto⟩,
    ⟨"eAddTrack", .auto⟩,
    ⟨"eVideoSource", .auto⟩,
    ⟨"eVideoTrack", .auto⟩,
    ⟨"eStartRtcEventLog", .auto⟩,
    ⟨"eConfig_UnsupportedOrMissingRole", .auto⟩,
    ⟨"eConfig_UnsupportedOrMissingEncoder", .auto⟩,
    ⟨"eConfig_UnsupportedOrMissingDecoder", .auto⟩,
    ⟨"eConfig_UnsupportedOrMissingVideoSource", .auto⟩,
    ⟨"eConfig_SignalingInvalidOrMissing", .auto⟩,
    ⟨"eConfig_SignalingIpInvalidOrMissing", .auto⟩,
    ⟨"eConfig_SignalingPortInvalidOrMissing", .auto⟩,
    ⟨"eNotConnected", .auto⟩,
    ⟨"eFileOpen", .auto⟩,
    ⟨"eConfigParse", .auto⟩,
    ⟨"eSdpParse", .auto⟩,
    ⟨"eNoFrame", .auto⟩,
    ⟨"eUnsupportedVersion", .auto⟩,
    ⟨"eInvalidArgument", .auto⟩,
    ⟨"eAudioTrack", .auto⟩,
    ⟨"eAudioTrack_NotInitialized", .auto⟩,
    ⟨"eAlreadyConnected", .auto⟩,
    ⟨"eNoInput", .auto⟩,
    ⟨"eUnknown", .lit 0xFFFFFFFF⟩ ]⟩

/-- `enum IsarCameraPropertiesSupport` (`types.h`). -/
def IsarCameraPropertiesSupport_decl : EnumDecl := ⟨"IsarCameraPropertiesSupport",
  [ ⟨"IsarCameraPropertiesSupport_NONE", .lit 0⟩,
    ⟨"IsarCameraPropertiesSupport_AUTO_EXPOSURE", .lit (shl 1 0)⟩,
    ⟨"IsarCameraPropertiesSupport_EXPOSURE", .lit (shl 1 1)⟩,
    ⟨"IsarCameraPropertiesSupport_EXPOSURE_COMPENSATION", .lit (shl 1 2)⟩,
    ⟨"IsarCameraPropertiesSupport_WHITE_BALANCE", .lit (shl 1 3)⟩ ]⟩

/-- `enum IsarInputType` (`input_types.h`). -/
def IsarInputType_decl : EnumDecl := ⟨"IsarInputType",
  [ ⟨"IsarInputType_SOURCE_DETECTED", .lit 0⟩,
    ⟨"IsarInputType_SOURCE_LOST", .auto⟩,
    ⟨"IsarInputType_SOURCE_PRESSED", .auto⟩,
    ⟨"IsarInputType_SOURCE_UPDATED", .auto⟩,
    ⟨"IsarInputType_SOURCE_RELEASED", .auto⟩,
    ⟨"IsarInputType_COUNT", .auto⟩,
    ⟨"IsarInputType_MIN", .lit 0⟩,
    ⟨"IsarInputType_MAX", .ofName "IsarInputType_COUNT" (-1)⟩,
    ⟨"IsarInputType_UNKNOWN", .lit 0xFFFFFFFF⟩ ]⟩

/-- `enum IsarSpatialInteractionSourceHandedness` (`input_types.h`). -/
def IsarSpatialInteractionSourceHandedness_decl : EnumDecl :=
  ⟨"IsarSpatialInteractionSourceHandedness",
  [ ⟨"IsarSpatialInteractionSourceHandedness_UNSPECIFIED", .lit 0⟩,
    ⟨"IsarSpatialInteractionSourceHandedness_LEFT", .lit 1⟩,
    ⟨"IsarSpatialInteractionSourceHandedness_RIGHT", .lit 2⟩ ]⟩

/-- `enum IsarXRControllerFeatureKind` (`input_types.h`). -/
def IsarXRControllerFeatureKind_decl : EnumDecl := ⟨"IsarXRControllerFeatureKind",
  [ ⟨"IsarXRControllerFeatureKind_HAND_PALM", .lit 0⟩,
    ⟨"IsarXRControllerFeatureKind_HAND_WRIST", .lit 1⟩,
    ⟨"IsarXRControllerFeatureKind_HAND_THUMB_METACARPAL", .lit 2⟩,
    ⟨"IsarXRControllerFeatureKind_HAND_THUMB_PROXIMAL", .lit 3⟩,
    ⟨"IsarXRControllerFeatureKind_HAND_THUMB_DISTAL", .lit 4⟩,
    ⟨"IsarXRControllerFeatureKind_HAND_THUMB_TIP", .lit 5⟩,
    ⟨"IsarXRControllerFeatureKind_HAND_INDEX_METACARPAL", .lit 6⟩,
    ⟨"IsarXRControllerFeatureKind_HAND_INDEX_PROXIMAL", .lit 7⟩,
    ⟨"IsarXRControllerFeatureKind_HAND_INDEX_INTERMEDIATE", .lit 8⟩,
    ⟨"IsarXRControllerFeatureKind_HAND_INDEX_DISTAL", .lit 9⟩,
    ⟨"IsarXRControllerFeatureKind_HAND_INDEX_TIP", .lit 10⟩,
    ⟨"IsarXRControllerFeatureKind_HAND_MIDDLE_METACARPAL", .lit 11⟩,
    ⟨"IsarXRControllerFeatureKind_HAND_MIDDLE_PROXIMAL", .lit 12⟩,
    ⟨"IsarXRControllerFeatureKind_HAND_MIDDLE_INTERMEDIATE", .lit 13⟩,
    ⟨"IsarXRControllerFeatureKind_HAND_MIDDLE_DISTAL", .lit 14⟩,
    ⟨"IsarXRControllerFeatureKind_HAND_MIDDLE_TIP", .lit 15⟩,
    ⟨"IsarXRControllerFeatureKind_HAND_RING_METACARPAL", .lit 16⟩,
    ⟨"IsarXRControllerFeatureKind_HAND_RING_PROXIMAL", .lit 17⟩,
    ⟨"IsarXRControllerFeatureKind_HAND_RING_INTERMEDIATE", .lit 18⟩,
    ⟨"IsarXRControllerFeatureKind_HAND_RING_DISTAL", .lit 19⟩,
    ⟨"IsarXRControllerFeatureKind_HAND_RING_TIP", .lit 20⟩,
    ⟨"IsarXRControllerFeatureKind_HAND_LITTLE_METACARPAL", .lit 21⟩,
    ⟨"IsarXRControllerFeatureKind_HAND_LITTLE_PROXIMAL", .lit 22⟩,
    ⟨"IsarXRControllerFeatureKind_HAND_LITTLE_INTERMEDIATE", .lit 23⟩,
    ⟨"IsarXRControllerFeatureKind_HAND_LITTLE_DISTAL", .lit 24⟩,
    ⟨"IsarXRControllerFeatureKind_HAND_LITTLE_TIP", .lit 25⟩,
    ⟨"IsarXRControllerFeatureKind_BUTTON_HOME", .lit 26⟩,
    ⟨"IsarXRControllerFeatureKind_BUTTON_MENU", .lit 27⟩,
    ⟨"IsarXRControllerFeatureKind_BUTTON_SETTINGS", .lit 28⟩,
    ⟨"IsarXRControllerFeatureKind_BUTTON_A", .lit 29⟩,
    ⟨"IsarXRControllerFeatureKind_BUTTON_B", .lit 30⟩,
    ⟨"IsarXRControllerFeatureKind_BUTTON_X", .lit 31⟩,
    ⟨"IsarXRControllerFeatureKind_BUTTON_Y", .lit 32⟩,
    ⟨"IsarXRControllerFeatureKind_BUTTON_PRIMARY_BUMPER", .lit 33⟩,
    ⟨"IsarXRControllerFeatureKind_BUTTON_SECONDARY_BUMPER", .lit 34⟩,
    ⟨"IsarXRControllerFeatureKind_BUTTON_PRIMARY_ANALOG_STICK_PRESS", .lit 35⟩,
    ⟨"IsarXRControllerFeatureKind_BUTTON_SECONDARY_ANALOG_STICK_PRESS", .lit 36⟩,
    ⟨"IsarXRControllerFeatureKind_BUTTON_PRIMARY_THUMB_REST", .lit 37⟩,
    ⟨"IsarXRControllerFeatureKind_BUTTON_SECONDARY_THUMB_REST", .lit 38⟩,
    ⟨"IsarXRControllerFeatureKind_BUTTON_PRIMARY_TRIGGER_PRESS", .lit 39⟩,
    ⟨"IsarXRControllerFeatureKind_BUTTON_SECONDARY_TRIGGER_PRESS", .lit 40⟩,
    ⟨"IsarXRControllerFeatureKind_BUTTON_PRIMARY_SQUEEZE_PRESS", .lit 41⟩,
    ⟨"IsarXRControllerFeatureKind_BUTTON_SECONDARY_SQUEEZE_PRESS", .lit 42⟩,
    ⟨"IsarXRControllerFeatureKind_AXIS1D_PRIMARY_TRIGGER", .lit 43⟩,
    ⟨"IsarXRControllerFeatureKind_AXIS1D_SECONDARY_TRIGGER", .lit 44⟩,
    ⟨"IsarXRControllerFeatureKind_AXIS1D_PRIMARY_SQUEEZE", .lit 45⟩,
    ⟨"IsarXRControllerFeatureKind_AXIS1D_SECONDARY_SQUEEZE", .lit 46⟩,
    ⟨"IsarXRControllerFeatureKind_AXIS2D_PRIMARY_ANALOG_STICK", .lit 47⟩,
    ⟨"IsarXRControllerFeatureKind_AXIS2D_SECONDARY_ANALOG_STICK", .lit 48⟩,
    ⟨"IsarXRControllerFeatureKind_DOCKED", .lit 49⟩ ]⟩

/-- `enum IsarXRControllerType` (`input_types.h`). -/
def IsarXRControllerType_decl : EnumDecl := ⟨"IsarXRControllerType",
  [ ⟨"IsarXRControllerType_HoloLens_Hands", .lit 0⟩,
    ⟨"IsarXRControllerType_Meta_Quest_Hands", .lit 1⟩,
    ⟨"IsarXRControllerType_Meta_Quest_2_Controller", .lit 2⟩,
    ⟨"IsarXRControllerType_Magic_Leap_2_Hands", .lit 3⟩,
    ⟨"IsarXRControllerType_Magic_Leap_2_Controller", .lit 4⟩,
    ⟨"IsarXRControllerType_Meta_Quest_Pro_Controller", .lit 5⟩,
    ⟨"IsarXRControllerType_Meta_Quest_3_Controller", .lit 6⟩,
    ⟨"IsarXRControllerType_Lenovo_VRX_Hands", .lit 7⟩,
    ⟨"IsarXRControllerType_Lenovo_VRX_Controller", .lit 8⟩,
    ⟨"IsarXRControllerType_Logitech_MX_Ink_Stylus", .lit 9⟩,
    ⟨"IsarXRControllerType_Pico_4_Ultra_Hands", .lit 10⟩,
    ⟨"IsarXRControllerType_Pico_4_Ultra_Controller", .lit 11⟩,
    ⟨"IsarXRControllerType_HTC_Vive_Focus_Hands", .lit 12⟩,
    ⟨"IsarXRControllerType_HTC_Vive_Focus_3_Controller", .lit 13⟩,
    ⟨"IsarXRControllerType_HTC_Vive_Focus_Vision_Controller", .lit 14⟩,
    ⟨"IsarXRControllerType_Meta_Quest_3S_Controller", .lit 15⟩,
    ⟨"IsarXRControllerType_HTC_Vive_XR_Elite_Controller", .lit 16⟩,
    ⟨"IsarXRControllerType_Apple_Vision_Pro_Hands", .lit 17⟩,
    ⟨"IsarXRControllerType_COUNT", .auto⟩ ]⟩

/-- `enum IsarJointPoseAccuracy` (`input_types.h`). -/
def IsarJointPoseAccuracy_decl : EnumDecl := ⟨"IsarJointPoseAccuracy",
  [ ⟨"IsarJointPoseAccuracy_HIGH", .lit 0⟩,
    ⟨"IsarJointPoseAccuracy_APPROXIMATE", .lit 1⟩ ]⟩

/-- `enum IsarSpatialInteractionSourceStateFlags` (`input_types.h`). -/
def IsarSpatialInteractionSourceStateFlags_decl : EnumDecl :=
  ⟨"IsarSpatialInteractionSourceStateFlags",
  [ ⟨"IsarInteractionSourceStateFlags_NONE", .lit (shl 0 0)⟩,
    ⟨"IsarInteractionSourceStateFlags_GRASPED", .lit (shl 1 0)⟩,
    ⟨"IsarInteractionSourceStateFlags_ANY_PRESSED", .lit (shl 1 1)⟩,
    ⟨"IsarInteractionSourceStateFlags_TOUCHPAD_PRESSED", .lit (shl 1 2)⟩,
    ⟨"IsarInteractionSourceStateFlags_THUMBSTICK_PRESSED", .lit (shl 1 3)⟩,
    ⟨"IsarInteractionSourceStateFlags_SELECT_PRESSED", .lit (shl 1 4)⟩,
    ⟨"IsarInteractionSourceStateFlags_MENU_PRESSED", .lit (shl 1 5)⟩,
    ⟨"IsarInteractionSourceStateFlags_TOUCHPAD_TOUCHED", .lit (shl 1 6)⟩ ]⟩

/-- `enum IsarButtonType` (`input_types.h`). -/
def IsarButtonType_decl : EnumDecl := ⟨"IsarButtonType",
  [ ⟨"IsarButtonKind_HOME", .lit 0⟩,
    ⟨"IsarButtonKind_MENU", .lit 1⟩,
    ⟨"IsarButtonKind_SETTINGS", .lit 2⟩,
    ⟨"IsarButtonKind_A", .lit 3⟩,
    ⟨"IsarButtonKind_B", .lit 4⟩,
    ⟨"IsarButtonKind_X", .lit 5⟩,
    ⟨"IsarButtonKind_Y", .lit 6⟩,
    ⟨"IsarButtonKind_BUMPER_LEFT", .lit 7⟩,
    ⟨"IsarButtonKind_BUMPER_RIGHT", .lit 8⟩,
    ⟨"IsarButtonKind_LEFT_STICK_PRESS", .lit 9⟩,
    ⟨"IsarButtonKind_RIGHT_STICK_PRESS", .lit 10⟩,
    ⟨"IsarAxis2DKind_PRIMARY_THUMB_REST", .lit 11⟩,
    ⟨"IsarAxis2DKind_SECONDARY_THUMB_REST", .lit 12⟩,
    ⟨"IsarButtonKind_DOCKED_LEFT", .lit 13⟩,
    ⟨"IsarButtonKind_DOCKED_RIGHT", .lit 14⟩,
    ⟨"IsarButtonKind_COUNT", .auto⟩ ]⟩

/-- `enum IsarAxis1DType` (`input_types.h`). -/
def IsarAxis1DType_decl : EnumDecl := ⟨"IsarAxis1DType",
  [ ⟨"IsarAxis1DKind_PRIMARY_TRIGGER", .lit 0⟩,
    ⟨"IsarAxis1DKind_SECONARDY_TRIGGER", .lit 1⟩,
    ⟨"IsarAxis1DKind_PRIMARY_SQUEEZE", .lit 2⟩,
    ⟨"IsarAxis1DKind_SECONDARY_SQUEEZE", .lit 3⟩,
    ⟨"IsarAxis1DKind_COUNT", .auto⟩ ]⟩

/-- `enum IsarAxis2DType` (`input_types.h`). -/
def IsarAxis2DType_decl : EnumDecl := ⟨"IsarAxis2DType",
  [ ⟨"IsarAxis2DKind_PRIMARY_STICK", .lit 0⟩,
    ⟨"IsarAxis2DKind_SECONDARY_STICK", .lit 1⟩,
    ⟨"IsarAxis2DKind_PRIMARY_CONTROL_PAD", .lit 2⟩,
    ⟨"IsarAxis2DKind_SECONDARY_CONTROL_PAD", .lit 3⟩,
    ⟨"IsarAxis2DKind_COUNT", .auto⟩ ]⟩

/-- `enum IsarHapticType` (`input_types.h`). -/
def IsarHapticType_decl : EnumDecl := ⟨"IsarHapticType",
  [ ⟨"IsarHapticType_STOP", .lit 0⟩,
    ⟨"IsarHapticType_VIBRATION", .auto⟩,
    ⟨"IsarHapticType_PCM_VIBRATION", .auto⟩,
    ⟨"IsarHapticType_AMPLITUDE_ENVELOPE_VIBRATION", .auto⟩,
    ⟨"IsarHapticType_COUNT", .auto⟩,
    ⟨"IsarHapticType_MIN", .lit 0⟩,
    ⟨"IsarHapticType_MAX", .ofName "IsarHapticType_COUNT" (-1)⟩,
    ⟨"IsarHapticType_UNKNOWN", .lit 0xFFFFFFFF⟩ ]⟩

/-- `enum IsarHapticChannel` (`input_types.h`). -/
def IsarHapticChannel_decl : EnumDecl := ⟨"IsarHapticChannel",
  [ ⟨"IsarHapticChannel_BODY", .lit 0⟩,
    ⟨"IsarHapticChannel_TRIGGER", .auto⟩,
    ⟨"IsarHapticChannel_THUMB_REST", .auto⟩,
    ⟨"IsarHapticChannel_COUNT", .auto⟩,
    ⟨"IsarHapticChannel_MIN", .lit 0⟩,
    ⟨"IsarHapticChannel_MAX", .ofName "IsarHapticChannel_COUNT" (-1)⟩,
    ⟨"IsarHapticChannel_UNKNOWN", .lit 0xFFFFFFFF⟩ ]⟩

/-- `enum IsarGraphicsApiType` (`graphics_api_config.h`). -/
def IsarGraphicsApiType_decl : EnumDecl := ⟨"IsarGraphicsApiType",
  [ ⟨"IsarGraphicsApiType_D3D11", .auto⟩,
    ⟨"IsarGraphicsApiType_D3D12", .auto⟩,
    ⟨"IsarGraphicsApiType_COUNT", .auto⟩,
    ⟨"IsarGraphicsApiType_MAX", .lit 0xFFFFFFFF⟩ ]⟩

/-- `enum IsarTextureFormat` (`graphics_api_config.h`). -/
def IsarTextureFormat_decl : EnumDecl := ⟨"IsarTextureFormat",
  [ ⟨"IsarTextureFormat_RGBA32", .auto⟩,
    ⟨"IsarTextureFormat_NV12", .auto⟩,
    ⟨"IsarTextureFormat_P010", .auto⟩,
    ⟨"IsarTextureFormat_Count", .auto⟩,
    ⟨"IsarTextureFormat_MAX", .lit 0xFFFFFFFF⟩ ]⟩

/-- Every `enum` declared in `types.h`, `input_types.h` and `graphics_api_config.h`, in
the order of the headers. -/
def abiEnums : List EnumDecl :=
  [ IsarColorSpaceType_decl, IsarCodecType_decl, IsarDiagnosticOptions_decl,
    IsarConnectionState_decl, IsarChannelPriority_decl, IsarDeviceType_decl, IsarError_decl,
    IsarCameraPropertiesSupport_decl,
    IsarInputType_decl, IsarSpatialInteractionSourceHandedness_decl,
    IsarXRControllerFeatureKind_decl, IsarXRControllerType_decl, IsarJointPoseAccuracy_decl,
    IsarSpatialInteractionSourceStateFlags_decl, IsarButtonType_decl, IsarAxis1DType_decl,
    IsarAxis2DType_decl, IsarHapticType_decl, IsarHapticChannel_decl,
    IsarGraphicsApiType_decl, IsarTextureFormat_decl ]

/-- All enumerator values of `d` lie in the range of `int32_t`. -/
def fitsInt32 (d : EnumDecl) : Bool :=
  (enumValues d).all (fun p => decide (-(2 : Int) ^ 31 ≤ p.2 ∧ p.2 ≤ 2 ^ 31 - 1))

/-- All enumerator values of `d` lie in the range of `uint32_t`. -/
def fitsUInt32 (d : EnumDecl) : Bool :=
  (enumValues d).all (fun p => decide ((0 : Int) ≤ p.2 ∧ p.2 ≤ 2 ^ 32 - 1))

/-- Some single 32-bit integer type represents every enumerator of `d`. -/
def representable32 (d : EnumDecl) : Bool := fitsInt32 d || fitsUInt32 d

/-- An `IsarError` value, as the 32-bit pattern of its enumerator. -/
abbrev IsarError := Int

/-- Value of the `IsarError` enumerator called `n`. -/
def IsarError.ofName (n : String) : IsarError := lookupEnum n (enumValues IsarError_decl)

/-- `IsarError::eNone`. -/
def eNone : IsarError := IsarError.ofName "eNone"
/-- `IsarError::eNoFrame`. -/
def eNoFrame : IsarError := IsarError.ofName "eNoFrame"
/-- `IsarError::eNoInput`. -/
def eNoInput : IsarError := IsarError.ofName "eNoInput"
/-- `IsarError::eInvalidHandle`. -/
def eInvalidHandle : IsarError := IsarError.ofName "eInvalidHandle"
/-- `IsarError::eVideoTrack`. -/
def eVideoTrack : IsarError := IsarError.ofName "eVideoTrack"
/-- `IsarError::eNotConnected`. -/
def eNotConnected : IsarError := IsarError.ofName "eNotConnected"

/-- `ISAR_RETURN_ON_ERROR(expr)`: `if (IsarError const err = expr) return err`. The result
is `some err` when the enclosing function returns `err`, and `none` when control passes on
to the next statement. -/
def ISAR_RETURN_ON_ERROR (expr : IsarError) : Option IsarError :=
  if expr ≠ 0 then some expr else none

/-! ## The function-pointer tables (`client_api.h`, `server_api.h`, `data_channel_api.h`,
`signaling_api.h`)

A `struct` declaration is kept as the list of its members in order, each with the type
it is declared with. -/

/-- One member of a `struct` declaration. -/
structure FieldDecl where
  type : String
  name : String
deriving DecidableEq, Repr

/-- `struct IsarClientApi` (`client_api.h`). -/
def IsarClientApi_fields : List FieldDecl :=
  [ ⟨"IsarVersion", "version"⟩,
    ⟨"IsarCreateConnection", "createConnection"⟩,
    ⟨"IsarOpenConnection", "openConnection"⟩,
    ⟨"IsarCloseConnection", "closeConnection"⟩,
    ⟨"IsarDestroyConnection", "destroyConnection"⟩,
    ⟨"IsarRegisterConnectionStateHandler", "registerConnectionStateHandler"⟩,
    ⟨"IsarUnregisterConnectionStateHandler", "unregisterConnectionStateHandler"⟩,
    ⟨"IsarGetConnectionInfo", "getConnectionInfo"⟩,
    ⟨"IsarClientPullFrame", "pullFrame"⟩,
    ⟨"IsarClientInitCameraTrack", "initCameraTrack"⟩,
    ⟨"IsarClientPushCameraFrame", "pushCameraFrame"⟩,
    ⟨"IsarClientRegisterCameraCaptureEnabledHandler", "registerCameraCaptureEnabledHandler"⟩,
    ⟨"IsarClientUnregisterCameraCaptureEnabledHandler",
      "unregisterCameraCaptureEnabledHandler"⟩,
    ⟨"IsarClientPushViewPose_Deprecated", "pushViewPose_Deprecated"⟩,
    ⟨"IsarClientPushViewPose", "pushViewPose"⟩,
    ⟨"IsarClientPushSpatialInput", "pushSpatialInput"⟩,
    ⟨"IsarClientAcquireCpuImage", "acquireCpuImage"⟩ ]

/-- `struct IsarServerApi` (`server_api.h`). -/
def IsarServerApi_fields : List FieldDecl :=
  [ ⟨"IsarVersion", "version"⟩,
    ⟨"IsarCreateConnection", "createConnection"⟩,
    ⟨"IsarOpenConnection", "openConnection"⟩,
    ⟨"IsarCloseConnection", "closeConnection"⟩,
    ⟨"IsarDestroyConnection", "destroyConnection"⟩,
    ⟨"IsarRegisterConnectionStateHandler", "registerConnectionStateHandler"⟩,
    ⟨"IsarUnregisterConnectionStateHandler", "unregisterConnectionStateHandler"⟩,
    ⟨"IsarServerInitVideoTrack", "initVideoTrack"⟩,
    ⟨"IsarServerPushFrame", "pushFrame"⟩,
    ⟨"IsarServerSetCameraCaptureEnabled", "setCameraCaptureEnabled"⟩,
    ⟨"IsarServerPullCameraCaptureFrame", "pullCameraCaptureFrame"⟩,
    ⟨"IsarServerAcquireCameraCpuImage", "acquireCameraCpuImage"⟩,
    ⟨"IsarServerSetTrackEnabled", "setAudioTrackEnabled"⟩,
    ⟨"IsarServerPushAudioData", "pushAudioData"⟩,
    ⟨"IsarServerSetTrackEnabled", "setMicrophoneCaptureEnabled"⟩,
    ⟨"IsarServerRegisterMicrophoneCaptureHandler", "registerMicrophoneCaptureHandler"⟩,
    ⟨"IsarServerUnregisterMicrophoneCaptureHandler", "unregisterMicrophoneCaptureHandler"⟩,
    ⟨"IsarServerRegisterViewPoseHandler", "registerViewPoseHandler"⟩,
    ⟨"IsarServerUnregisterViewPoseHandler", "unregisterViewPoseHandler"⟩,
    ⟨"IsarServerRegisterSpatialInputHandler", "registerSpatialInputHandler"⟩,
    ⟨"IsarServerUnregisterSpatialInputHandler", "unregisterSpatialInputHandler"⟩,
    ⟨"IsarServerRegisterStatsHandler", "registerStatsHandler"⟩,
    ⟨"IsarServerUnregisterStatsHandler", "unregisterStatsHandler"⟩,
    ⟨"IsarServerGetStats", "getStats"⟩,
    ⟨"IsarGetConnectionInfo", "getConnectionInfo"⟩,
    ⟨"IsarSetBitrate", "setBitrate"⟩,
    ⟨"IsarPushHaptic", "pushHaptic"⟩,
    ⟨"IsarCameraSupported", "cameraSupported"⟩,
    ⟨"IsarServerPullViewPose", "pullViewPose"⟩,
    ⟨"IsarServerPullSpatialInput", "pullSpatialInput"⟩,
    ⟨"IsarConfigurePosePrediction", "configurePosePrediction"⟩,
    ⟨"IsarTrySetPassthroughMode", "trySetPassthroughMode"⟩,
    ⟨"IsarGetPassthroughMode", "getPassthroughMode"⟩ ]

/-- `struct IsarDataChannelApi` (`data_channel_api.h`). -/
def IsarDataChannelApi_fields : List FieldDecl :=
  [ ⟨"IsarDataChannelCreate", "create"⟩,
    ⟨"IsarDataChannelOpen", "open"⟩,
    ⟨"IsarDataChannelPushData", "pushData"⟩,
    ⟨"IsarDataChannelClose", "close"⟩,
    ⟨"IsarDataChannelDestroy", "destroy"⟩ ]

/-- `struct IsarSignalingApi` (`signaling_api.h`). -/
def IsarSignalingApi_fields : List FieldDecl :=
  [ ⟨"IsarRegisterProvider", "registerProvider"⟩,
    ⟨"IsarSetRemoteSdp", "setRemoteSdp"⟩,
    ⟨"IsarSetRemoteIceCandidate", "setRemoteIceCandidate"⟩,
    ⟨"IsarSetConnectionState", "setConnectionState"⟩ ]

/-- Declared type of the first member of a table. -/
def firstFieldType (fields : List FieldDecl) : Option String := fields.head?.map (·.type)

/-- Whether some member of a table is declared with type `IsarVersion`. -/
def hasVersionField (fields : List FieldDecl) : Bool :=
  fields.any (fun f => f.type == "IsarVersion")

/-! ## Data model (`input_types.h`, `types.h`, `graphics_api_config.h`) -/

/-- A `float`, by its IEEE-754 bit pattern. -/
abbrev F32 := Nat

/-- `struct IsarVector3`. -/
structure IsarVector3 where
  x : F32
  y : F32
  z : F32
deriving DecidableEq, Repr

/-- `struct IsarVector4`, also `IsarQuaternion`. -/
structure IsarVector4 where
  x : F32
  y : F32
  z : F32
  w : F32
deriving DecidableEq, Repr

/-- `typedef IsarVector4 IsarQuaternion`. -/
abbrev IsarQuaternion := IsarVector4

/-- `struct IsarPose`. -/
structure IsarPose where
  position : IsarVector3
  orientation : IsarQuaternion
deriving DecidableEq, Repr

/-- `struct IsarFov`. -/
structure IsarFov where
  left : F32
  right : F32
  up : F32
  down : F32
deriving DecidableEq, Repr

/-- `struct IsarXrPose`. -/
structure IsarXrPose where
  frameTimestamp : Int
  poseTimestamp : Int
  poseLeft : IsarPose
  poseRight : IsarPose
  fovLeft : IsarFov
  fovRight : IsarFov
deriving DecidableEq, Repr

/-- `struct IsarRenderConfig`. -/
structure IsarRenderConfig where
  width : Nat
  height : Nat
  numViews : Nat
  encoderBitrateKbps : Int
  framerate : Nat
  depthEnabled : Nat
  posePredictionEnabled : Nat
deriving DecidableEq, Repr

/-- `struct IsarConnectionInfo`. -/
structure IsarConnectionInfo where
  remoteName : String
  remoteVersion : Nat
  renderConfig : IsarRenderConfig
  remoteDeviceType : Int
  codecInUse : Int
deriving DecidableEq, Repr

/-- `struct IsarPortRange`. -/
structure IsarPortRange where
  minPort : Nat
  maxPort : Nat
deriving DecidableEq, Repr

/-- `struct IsarFocusPlane`. -/
structure IsarFocusPlane where
  position : IsarVector3
  normal : IsarVector3
  velocity : IsarVector3
deriving DecidableEq, Repr

/-- `struct IsarFrameInfo`. -/
structure IsarFrameInfo where
  pose : IsarXrPose
  textureFormat : Int
  zNear : F32
  zFar : F32
  hasFocusPlane : Nat
  focusPlane : IsarFocusPlane
  passthroughEnabled : Bool
deriving DecidableEq, Repr

/-- The anonymous union of `struct IsarGraphicsApiFrame`: `IsarD3D11GraphicsApiFrame` or
`IsarD3D12GraphicsApiFrame`. -/
inductive GraphicsApiPayload where
  | d3d11 (frame depthFrame subresourceIndex : Nat)
  | d3d12 (frame depthFrame subresourceIndex frameFenceValue : Nat)
deriving DecidableEq, Repr

/-- `struct IsarGraphicsApiFrame`. -/
structure IsarGraphicsApiFrame where
  info : IsarFrameInfo
  graphicsApiType : Int
  payload : GraphicsApiPayload
deriving DecidableEq, Repr

/-- Value of an enumerator of `IsarConnectionState`. -/
def IsarConnectionState.ofName (n : String) : Int :=
  lookupEnum n (enumValues IsarConnectionState_decl)

/-- `IsarConnectionState_DISCONNECTED`. -/
def IsarConnectionState_DISCONNECTED : Int :=
  IsarConnectionState.ofName "IsarConnectionState_DISCONNECTED"
/-- `IsarConnectionState_CONNECTING`. -/
def IsarConnectionState_CONNECTING : Int :=
  IsarConnectionState.ofName "IsarConnectionState_CONNECTING"
/-- `IsarConnectionState_CONNECTED`. -/
def IsarConnectionState_CONNECTED : Int :=
  IsarConnectionState.ofName "IsarConnectionState_CONNECTED"
/-- `IsarConnectionState_CLOSING`. -/
def IsarConnectionState_CLOSING : Int :=
  IsarConnectionState.ofName "IsarConnectionState_CLOSING"
/-- `IsarConnectionState_FAILED`. -/
def IsarConnectionState_FAILED : Int :=
  IsarConnectionState.ofName "IsarConnectionState_FAILED"

/-- `IsarTextureFormat_RGBA32`. -/
def IsarTextureFormat_RGBA32 : Int :=
  lookupEnum "IsarTextureFormat_RGBA32" (enumValues IsarTextureFormat_decl)
/-- `IsarGraphicsApiType_D3D11`. -/
def IsarGraphicsApiType_D3D11 : Int :=
  lookupEnum "IsarGraphicsApiType_D3D11" (enumValues IsarGraphicsApiType_decl)
/-- `IsarGraphicsApiType_D3D12`. -/
def IsarGraphicsApiType_D3D12 : Int :=
  lookupEnum "IsarGraphicsApiType_D3D12" (enumValues IsarGraphicsApiType_decl)

/-! ## Spatial input (`input_types.h`) -/

/-- `struct IsarVector2`. -/
structure IsarVector2 where
  x : F32
  y : F32
deriving DecidableEq, Repr

/-- `struct IsarHeadPose`. -/
structure IsarHeadPose where
  position : IsarVector3
  forwardDirection : IsarVector3
  upDirection : IsarVector3
deriving DecidableEq, Repr

/-- `struct IsarJointPose`. -/
structure IsarJointPose where
  orientation : IsarQuaternion
  position : IsarVector3
  radius : F32
  accuracy : Int
deriving DecidableEq, Repr

/-- `struct IsarHandPose`: `IsarJointPose jointPoses[26]`. -/
structure IsarHandPose where
  jointPoses : List IsarJointPose
deriving DecidableEq, Repr

/-- `struct IsarButton`. -/
structure IsarButton where
  identifier : Nat
  value : Bool
deriving DecidableEq, Repr

/-- `struct IsarAxis1D`. -/
structure IsarAxis1D where
  identifier : Nat
  value : F32
deriving DecidableEq, Repr

/-- `struct IsarAxis2D`. -/
structure IsarAxis2D where
  identifier : Nat
  value : IsarVector2
deriving DecidableEq, Repr

/-- `struct IsarControllerData`. `buttons`, `axis1D` and `axis2D` are the three pointers
to arrays the producer allocated. -/
structure IsarControllerData where
  controllerIdentifier : Nat
  handedness : Nat
  headPose : IsarHeadPose
  controllerPose : IsarPose
  pointerPose : IsarPose
  tipPose : IsarPose
  handData : IsarHandPose
  buttons : Nat
  buttonsLength : Nat
  axis1D : Nat
  axis1DLength : Nat
  axis2D : Nat
  axis2DLength : Nat
deriving DecidableEq, Repr

/-- `struct IsarInteractionSourceState`. -/
structure IsarInteractionSourceState where
  controllerData : IsarControllerData
deriving DecidableEq, Repr

/-- `struct IsarSpatialInput`: the tag and `union IsarSpatialInputData`, every member of
which wraps one `IsarInteractionSourceState`. -/
structure IsarSpatialInput where
  type : Int
  data : IsarInteractionSourceState
deriving DecidableEq, Repr

/-- Value of an enumerator of `IsarInputType`. -/
def IsarInputType.ofName (n : String) : Int := lookupEnum n (enumValues IsarInputType_decl)

/-- `IsarInputType_SOURCE_DETECTED`. -/
def IsarInputType_SOURCE_DETECTED : Int := IsarInputType.ofName "IsarInputType_SOURCE_DETECTED"
/-- `IsarInputType_SOURCE_LOST`. -/
def IsarInputType_SOURCE_LOST : Int := IsarInputType.ofName "IsarInputType_SOURCE_LOST"
/-- `IsarInputType_SOURCE_PRESSED`. -/
def IsarInputType_SOURCE_PRESSED : Int := IsarInputType.ofName "IsarInputType_SOURCE_PRESSED"
/-- `IsarInputType_SOURCE_UPDATED`. -/
def IsarInputType_SOURCE_UPDATED : Int := IsarInputType.ofName "IsarInputType_SOURCE_UPDATED"
/-- `IsarInputType_SOURCE_RELEASED`. -/
def IsarInputType_SOURCE_RELEASED : Int := IsarInputType.ofName "IsarInputType_SOURCE_RELEASED"
/-- `IsarInputType_UNKNOWN`. -/
def IsarInputType_UNKNOWN : Int := IsarInputType.ofName "IsarInputType_UNKNOWN"

/-- Value of an enumerator of `IsarXRControllerType`. -/
def IsarXRControllerType.ofName (n : String) : Nat :=
  (lookupEnum n (enumValues IsarXRControllerType_decl)).toNat

/-- `IsarSpatialInteractionSourceHandedness_LEFT`. -/
def IsarSpatialInteractionSourceHandedness_LEFT : Nat :=
  (lookupEnum "IsarSpatialInteractionSourceHandedness_LEFT"
    (enumValues IsarSpatialInteractionSourceHandedness_decl)).toNat
/-- `IsarSpatialInteractionSourceHandedness_RIGHT`. -/
def IsarSpatialInteractionSourceHandedness_RIGHT : Nat :=
  (lookupEnum "IsarSpatialInteractionSourceHandedness_RIGHT"
    (enumValues IsarSpatialInteractionSourceHandedness_decl)).toNat

/-! ## OpenXR value types used by `FStreamHMD` -/

/-- `XrVector3f`. -/
structure XrVector3f where
  x : F32
  y : F32
  z : F32
deriving DecidableEq, Repr

/-- `XrQuaternionf`. -/
structure XrQuaternionf where
  x : F32
  y : F32
  z : F32
  w : F32
deriving DecidableEq, Repr

/-- `XrPosef`. -/
structure XrPosef where
  orientation : XrQuaternionf
  position : XrVector3f
deriving DecidableEq, Repr

/-- `XrFovf`. -/
structure XrFovf where
  angleLeft : F32
  angleRight : F32
  angleUp : F32
  angleDown : F32
deriving DecidableEq, Repr

/-- `XrView`, reduced to the members the adapter reads and writes. -/
structure XrView where
  pose : XrPosef
  fov : XrFovf
deriving DecidableEq, Repr

/-- `XrViewConfigurationView`. -/
structure XrViewConfigurationView where
  recommendedImageRectWidth : Nat
  maxImageRectWidth : Nat
  recommendedImageRectHeight : Nat
  maxImageRectHeight : Nat
  recommendedSwapchainSampleCount : Nat
  maxSwapchainSampleCount : Nat
deriving DecidableEq, Repr

/-! ## `FStreamHMD` (`FStreamHMD.h`, `FStreamHMD.cpp`) -/

/-- `FStreamHMD::FPipelinedFrameState`. -/
structure FPipelinedFrameState where
  views : List XrView
  viewConfigs : List XrViewConfigurationView
  worldToMetersScale : F32
  pixelDensity : F32
  poseTimestamp : Int
  frameTimestamp : Int
deriving DecidableEq, Repr

/-- The thread a member function runs on. -/
inductive Thread where
  | game
  | rendering
  | rhi
deriving DecidableEq, Repr

/-- A registered `TScriptInterface<IStreamConnectionStateHandler>`, by object identity. -/
abbrev Handler := Nat

/-- One call through `m_serverApi`, with the arguments that matter and the `IsarError` the
library returned. -/
inductive ApiCall where
  | createConnection (portRange : IsarPortRange) (err : IsarError) (connection : Nat)
  | registerConnectionStateHandler (connection : Nat)
  | initVideoTrack (connection : Nat) (err : IsarError)
  | openConnection (connection : Nat) (err : IsarError)
  | closeConnection (connection : Nat) (err : IsarError)
  | getConnectionInfo (connection : Nat)
  | pullViewPose (connection : Nat) (err : IsarError)
  | pushFrame (connection : Nat) (frame : IsarGraphicsApiFrame) (err : IsarError)
  | setAudioTrackEnabled (connection : Nat) (enabled : Bool) (err : IsarError)
  /-- `pullSpatialInput(connection, spatialInput, inputCount, outputCount)`: `buffer` is
  `none` for a null `spatialInput` and otherwise the number of elements of the buffer
  passed; `wantsCount` tells whether `outputCount` is non-null. -/
  | pullSpatialInput (connection : Nat) (buffer : Option Nat) (inputCount : Nat)
      (wantsCount : Bool) (err : IsarError)
deriving DecidableEq, Repr

/-- Answers of the native library to the calls one adapter function makes through
`m_serverApi`. `getConnectionInfo` is what the call writes to its out parameter (`none`:
nothing is written); `createConnection` is the returned error and what the call writes to
`*isarConnection`; `pullSpatialInputCount` answers the call with a null buffer (error and
the value of `outputCount` after it); `pullSpatialInputFill` answers the call with a
buffer (error and the elements written to the front of the buffer). -/
structure ServerApi where
  createConnection : IsarError × Option Nat
  initVideoTrack : IsarError
  openConnection : IsarError
  closeConnection : IsarError
  getConnectionInfo : Option IsarConnectionInfo
  pullViewPose : IsarError × IsarXrPose
  pushFrame : IsarError
  setAudioTrackEnabled : IsarError
  pullSpatialInputCount : IsarError × Nat
  pullSpatialInputFill : IsarError × List IsarSpatialInput
deriving DecidableEq, Repr

/-- What the engine and the graphics runtime answer during one adapter function:
`IsRHID3D11()`, the native resource of the swapchain texture, the completed value of
`m_pD3D12Fence`, the two quotients `GNearClippingPlane_RenderThread /
GetWorldToMetersScale()` and `5000.0f / GetWorldToMetersScale()`, the pose
`ToXrPose(FTransform::Identity)`, the sample rate of the active audio device (`none`: no
device) and `FStreamAudioListener::SAMPLE_RATE`. -/
structure Engine where
  isRHID3D11 : Bool
  nativeResource : Nat
  fenceCompletedValue : Nat
  nearZ : F32
  farZ : F32
  identityPose : XrPosef
  audioDeviceSampleRate : Option Nat
  SAMPLE_RATE : Nat
deriving DecidableEq, Repr

/-- The members of `FStreamHMD` the embedded functions read or write. Smart pointers
(`m_renderBridge`, `m_streamSwapchain`, `m_microphoneCaptureStream`) are kept as the
boolean "is non-null"; `m_pipelinedLayerStateRendering` as the lengths of its two
arrays; `m_audioListener` as the flag `SetConnected` stores. -/
structure FStreamHMD where
  m_renderBridge : Bool
  m_streamSwapchain : Bool
  m_pipelinedFrameStateRendering : FPipelinedFrameState
  m_pipelinedFrameStateGame : FPipelinedFrameState
  m_pipelinedFrameStateRHI : FPipelinedFrameState
  m_isMobileMultiViewEnabled : Bool
  m_streamConnection : Nat
  m_gfxApiType : Int
  m_stereoEnabled : Bool
  m_width : Int
  m_height : Int
  m_nViews : Int
  colorImagesNum : Nat
  projectionLayersNum : Nat
  m_connected : Bool
  m_connectionInfo : IsarConnectionInfo
  audioListenerConnected : Bool
  m_microphoneCaptureStream : Bool
  m_minPort : Int
  m_maxPort : Int
  m_connectionCreated : Bool
  m_needsReallocation : Bool
  m_shouldEnableAudio : Bool
  m_audioEnabled : Bool
  m_connectionStateHandlers : List Handler
  fixedFrameRate : Nat
deriving DecidableEq, Repr

/-- `m_serverApi.getConnectionInfo(m_streamConnection, &m_connectionInfo)`, the returned
error being ignored at every call site. -/
def FStreamHMD.getConnectionInfo (api : ServerApi) (s : FStreamHMD) : FStreamHMD × List ApiCall :=
  (match api.getConnectionInfo with
   | some info => { s with m_connectionInfo := info }
   | none => s,
   [ApiCall.getConnectionInfo s.m_streamConnection])

/-- `FStreamHMD::GetPipelinedFrameStateForThread`: `check(!IsInRHIThread())`, the
rendering state on the rendering thread, the game state on the game thread. -/
def FStreamHMD.GetPipelinedFrameStateForThread (t : Thread) (s : FStreamHMD) :
    Option FPipelinedFrameState :=
  match t with
  | .rhi => none
  | .rendering => some s.m_pipelinedFrameStateRendering
  | .game => some s.m_pipelinedFrameStateGame

/-- Writing through the reference `GetPipelinedFrameStateForThread` returns. -/
def FStreamHMD.setPipelinedFrameStateForThread (t : Thread) (p : FPipelinedFrameState)
    (s : FStreamHMD) : FStreamHMD :=
  match t with
  | .rhi => s
  | .rendering => { s with m_pipelinedFrameStateRendering := p }
  | .game => { s with m_pipelinedFrameStateGame := p }

/-- `views[i]` as an lvalue: apply `f` to the element at index `i`; `none` when `i` is out
of range (`TArray::operator[]` range check). -/
def modifyView (views : List XrView) (i : Nat) (f : XrView → XrView) : Option (List XrView) :=
  match views.get? i with
  | some v => some (views.set i (f v))
  | none => none

/-- The assignments that copy one eye of the pulled pose into a view
(`FStreamHMD::UpdateDeviceLocations`). -/
def writeView (pose : IsarPose) (fov : IsarFov) (v : XrView) : XrView :=
  { v with
    pose := { position := ⟨pose.position.x, pose.position.y, pose.position.z⟩,
              orientation := ⟨pose.orientation.x, pose.orientation.y, pose.orientation.z,
                              pose.orientation.w⟩ },
    fov := { angleDown := fov.down, angleLeft := fov.left, angleRight := fov.right,
             angleUp := fov.up } }

/-- `FStreamHMD::UpdateDeviceLocations`, run on thread `t`. -/
def FStreamHMD.UpdateDeviceLocations (api : ServerApi) (t : Thread) (s : FStreamHMD) :
    Option (FStreamHMD × List ApiCall) :=
  if !s.m_connected then some (s, [])
  else
    match s.GetPipelinedFrameStateForThread t with
    | none => none
    | some pipelineState =>
      let (s1, tr1) := s.getConnectionInfo api
      let err := api.pullViewPose.1
      let inputPose := api.pullViewPose.2
      let tr := tr1 ++ [ApiCall.pullViewPose s.m_streamConnection err]
      if err == eNone && !pipelineState.views.isEmpty then
        let p1 := { pipelineState with poseTimestamp := inputPose.poseTimestamp,
                                       frameTimestamp := inputPose.frameTimestamp }
        if s1.m_connectionInfo.renderConfig.numViews == 1 && !pipelineState.views.isEmpty then
          match modifyView p1.views 0 (writeView inputPose.poseLeft inputPose.fovLeft) with
          | none => none
          | some vs => some (s1.setPipelinedFrameStateForThread t { p1 with views := vs }, tr)
        else
          match modifyView p1.views 0 (writeView inputPose.poseLeft inputPose.fovLeft) with
          | none => none
          | some vs0 =>
            match modifyView vs0 1 (writeView inputPose.poseRight inputPose.fovRight) with
            | none => none
            | some vs =>
              some (s1.setPipelinedFrameStateForThread t { p1 with views := vs }, tr)
      else some (s1, tr)

/-- `FStreamHMD::OnBeginRendering_RHIThread`: `m_pipelinedFrameStateRHI = inFrameState`. -/
def FStreamHMD.OnBeginRendering_RHIThread (inFrameState : FPipelinedFrameState)
    (s : FStreamHMD) : FStreamHMD :=
  { s with m_pipelinedFrameStateRHI := inFrameState }

/-- `FStreamHMD::OnBeginRendering_RenderThread`. The third component is the frame state
captured by the lambda handed to `EnqueueLambda` (`none`: nothing is enqueued); the RHI
thread later runs `OnBeginRendering_RHIThread` on it. -/
def FStreamHMD.OnBeginRendering_RenderThread (api : ServerApi) (s : FStreamHMD) :
    Option (FStreamHMD × List ApiCall × Option FPipelinedFrameState) :=
  if !s.m_renderBridge then some (s, [], none)
  else
    match (if s.m_connected then s.UpdateDeviceLocations api .rendering else some (s, [])) with
    | none => none
    | some (s1, tr) => some (s1, tr, some s1.m_pipelinedFrameStateRendering)

/-- The assignments that copy one view into one eye of `frameInfo.pose`
(`FStreamHMD::OnFinishRendering_RHIThread`). -/
def readViewPose (v : XrView) : IsarPose :=
  { orientation := ⟨v.pose.orientation.x, v.pose.orientation.y, v.pose.orientation.z,
                    v.pose.orientation.w⟩,
    position := ⟨v.pose.position.x, v.pose.position.y, v.pose.position.z⟩ }

/-- The assignments that copy the field of view of one view into `frameInfo.pose`. -/
def readViewFov (v : XrView) : IsarFov :=
  { left := v.fov.angleLeft, right := v.fov.angleRight, down := v.fov.angleDown,
    up := v.fov.angleUp }

/-- Content of the automatic variables `frameInfo` and `frame` of
`OnFinishRendering_RHIThread` before any assignment: both are declared without
initialiser. -/
structure Indeterminate where
  frameInfo : IsarFrameInfo
  subresourceIndex : Nat
deriving DecidableEq, Repr

/-- `FStreamHMD::OnFinishRendering_RHIThread`. -/
def FStreamHMD.OnFinishRendering_RHIThread (api : ServerApi) (eng : Engine)
    (stack : Indeterminate) (s : FStreamHMD) : Option (FStreamHMD × List ApiCall) :=
  if !s.m_renderBridge || !s.m_streamSwapchain || s.m_needsReallocation then some (s, [])
  else if s.m_connected && s.m_streamConnection != 0 then
    let pipelineState := s.m_pipelinedFrameStateRHI
    let frameInfo0 : IsarFrameInfo :=
      { stack.frameInfo with hasFocusPlane := 0, zFar := eng.farZ, zNear := eng.nearZ,
                             textureFormat := IsarTextureFormat_RGBA32 }
    let (s1, tr1) := s.getConnectionInfo api
    let posed : Option IsarXrPose :=
      if s1.m_connectionInfo.renderConfig.numViews == 1 && !pipelineState.views.isEmpty then
        match pipelineState.views.get? 0 with
        | none => none
        | some v0 =>
          some { frameInfo0.pose with poseLeft := readViewPose v0, fovLeft := readViewFov v0 }
      else if !pipelineState.views.isEmpty then
        match pipelineState.views.get? 0, pipelineState.views.get? 1 with
        | some v0, some v1 =>
          some { frameInfo0.pose with poseLeft := readViewPose v0, poseRight := readViewPose v1,
                                      fovLeft := readViewFov v0, fovRight := readViewFov v1 }
        | _, _ => none
      else some frameInfo0.pose
    match posed with
    | none => none
    | some pose1 =>
      let pose2 : IsarXrPose :=
        { pose1 with frameTimestamp := pipelineState.frameTimestamp,
                     poseTimestamp := pipelineState.poseTimestamp }
      let frameInfo : IsarFrameInfo := { frameInfo0 with pose := pose2 }
      let frame : IsarGraphicsApiFrame :=
        if eng.isRHID3D11 then
          { info := frameInfo, graphicsApiType := IsarGraphicsApiType_D3D11,
            payload := .d3d11 eng.nativeResource 0 stack.subresourceIndex }
        else
          { info := frameInfo, graphicsApiType := IsarGraphicsApiType_D3D12,
            payload := .d3d12 eng.nativeResource 0 0 eng.fenceCompletedValue }
      if s1.m_connected && s1.m_streamConnection != 0 then
        some (s1, tr1 ++ [ApiCall.pushFrame s1.m_streamConnection frame api.pushFrame])
      else some (s1, tr1)
  else some (s, [])

/-- The frames handed to `pushFrame` in a trace of calls. -/
def pushedFrames : List ApiCall → List IsarGraphicsApiFrame
  | [] => []
  | ApiCall.pushFrame _ frame _ :: rest => frame :: pushedFrames rest
  | _ :: rest => pushedFrames rest

/-- One frame of the render loop as the two threads run it:
`OnBeginRendering_RenderThread` on the render thread, the enqueued
`OnBeginRendering_RHIThread` on the captured frame state, then
`OnFinishRendering_RHIThread`. The result is the list of frames handed to `pushFrame`;
`api1` answers the calls of the first function, `api2` those of the last. -/
def renderOneFrame (api1 api2 : ServerApi) (eng : Engine) (stack : Indeterminate)
    (s : FStreamHMD) : Option (List IsarGraphicsApiFrame) :=
  match s.OnBeginRendering_RenderThread api1 with
  | none => none
  | some (s1, _, captured) =>
    let s2 := match captured with
      | some inFrameState => s1.OnBeginRendering_RHIThread inFrameState
      | none => s1
    match s2.OnFinishRendering_RHIThread api2 eng stack with
    | none => none
    | some (_, tr) => some (pushedFrames tr)

/-! ### Connection state (`FStreamHMD.cpp`) -/

/-- `TArray::SetNum(n)`: truncate, or grow with default-constructed elements `dflt`. -/
def setNum {α : Type} (n : Nat) (dflt : α) (l : List α) : List α :=
  (l ++ List.replicate n dflt).take n

/-- `a[i] = f(a[i])` for an index that is in range. -/
def modifyAt {α : Type} (f : α → α) : Nat → List α → List α
  | _, [] => []
  | 0, a :: l => f a :: l
  | i + 1, a :: l => a :: modifyAt f i l

/-- A default-constructed `XrViewConfigurationView`; its indeterminate members are taken
as zero. -/
def defaultViewConfig : XrViewConfigurationView := ⟨0, 0, 0, 0, 0, 0⟩

/-- A default-constructed `XrView`; its indeterminate members are taken as zero (both
loops of `EnumerateViews` overwrite them). -/
def defaultView : XrView := ⟨⟨⟨0, 0, 0, 0⟩, ⟨0, 0, 0⟩⟩, ⟨0, 0, 0, 0⟩⟩

/-- `PI / 4.0f`. -/
def quarterPi : F32 := 0x3F490FDB

/-- `-PI / 4.0f`. -/
def negQuarterPi : F32 := 0xBF490FDB

/-- The body of the two loops `for (XrView& view : pipelineState.views)` of
`EnumerateViews`. -/
def saneView (eng : Engine) : XrView :=
  { fov := ⟨negQuarterPi, quarterPi, quarterPi, negQuarterPi⟩, pose := eng.identityPose }

/-- An `int` converted to `unsigned int` for a mixed comparison. -/
def toU32 (i : Int) : Int := i % 2 ^ 32

/-- `FStreamHMD::EnumerateViews(pipelineState)`. -/
def FStreamHMD.EnumerateViews (api : ServerApi) (eng : Engine)
    (pipelineState : FPipelinedFrameState) (s : FStreamHMD) :
    FPipelinedFrameState × FStreamHMD × List ApiCall :=
  let viewConfigCount := 2
  if s.m_streamConnection != 0 && s.m_connected then
    let (s1, tr) := s.getConnectionInfo api
    let configWidth := s1.m_connectionInfo.renderConfig.width
    let configHeight := s1.m_connectionInfo.renderConfig.height
    let setRect := fun (c : XrViewConfigurationView) =>
      { c with recommendedImageRectHeight := configHeight,
               recommendedImageRectWidth := configWidth }
    let viewConfigs :=
      modifyAt setRect 1 (modifyAt setRect 0
        (setNum viewConfigCount defaultViewConfig pipelineState.viewConfigs))
    let views := (setNum viewConfigCount defaultView pipelineState.views).map
      (fun _ => saneView eng)
    ({ pipelineState with viewConfigs := viewConfigs, views := views },
     { s1 with colorImagesNum := viewConfigCount, projectionLayersNum := viewConfigCount }, tr)
  else
    let configWidth := 2064
    let configHeight := 2208
    let fill := fun (c : XrViewConfigurationView) =>
      { c with recommendedImageRectHeight := configHeight,
               recommendedImageRectWidth := configWidth,
               maxImageRectHeight := configHeight, maxImageRectWidth := configWidth,
               recommendedSwapchainSampleCount := 1, maxSwapchainSampleCount := 1 }
    let viewConfigs :=
      modifyAt fill 1 (modifyAt fill 0 (pipelineState.viewConfigs ++ [defaultViewConfig])
        ++ [defaultViewConfig])
    let views := (setNum viewConfigs.length defaultView pipelineState.views).map
      (fun _ => saneView eng)
    ({ pipelineState with viewConfigs := viewConfigs, views := views },
     { s with colorImagesNum := viewConfigCount }, [])

/-- `FStreamHMD::StartAudio`. -/
def FStreamHMD.StartAudio (api : ServerApi) (eng : Engine) (s : FStreamHMD) :
    Bool × FStreamHMD × List ApiCall :=
  match eng.audioDeviceSampleRate with
  | none => (false, s, [])
  | some sampleRate =>
    if sampleRate != eng.SAMPLE_RATE then (false, s, [])
    else
      let err := api.setAudioTrackEnabled
      let tr := [ApiCall.setAudioTrackEnabled s.m_streamConnection true err]
      if err != eNone then (false, s, tr)
      else (true, { s with m_audioEnabled := true }, tr)

/-- `FStreamHMD::RestartConnection`. -/
def FStreamHMD.RestartConnection (api : ServerApi) (s : FStreamHMD) : Bool × List ApiCall :=
  let connectStatus := true
  let err1 := api.closeConnection
  let connectStatus := if err1 != eNone then false else connectStatus
  let err2 := api.openConnection
  let connectStatus :=
    if err2 != eNone || s.m_streamConnection == 0 then false else connectStatus
  (connectStatus,
   [ApiCall.closeConnection s.m_streamConnection err1,
    ApiCall.openConnection s.m_streamConnection err2])

/-- The cast of a 32-bit enum value to an `enum class … : uint8`. -/
def toU8 (i : Int) : Nat := (i % 256).toNat

/-- The lambda `OnConnectionStateChanged` hands to `AsyncTask(ENamedThreads::GameThread,
...)`: the new state and a copy of `m_connectionStateHandlers`. -/
structure StateDispatch where
  newState : Int
  connectionStateHandlers : List Handler
deriving DecidableEq, Repr

/-- Running the dispatched lambda: one `Execute_OnConnectionStateChanged(handler,
(EStreamConnectionState)newState)` for every element of the captured array, in order;
`EStreamConnectionState` is an `enum class : uint8`. -/
def StateDispatch.run (d : StateDispatch) : List (Handler × Nat) :=
  d.connectionStateHandlers.map (fun h => (h, toU8 d.newState))

/-- The calls to handlers a state change leads to. -/
def notifications : Option StateDispatch → List (Handler × Nat)
  | none => []
  | some d => d.run

/-- `FStreamHMD::OnConnectionStateChanged`. The third component is the task handed to
`AsyncTask` (`none` when the function returns before reaching it). -/
def FStreamHMD.OnConnectionStateChanged (api : ServerApi) (eng : Engine) (newState : Int)
    (s : FStreamHMD) : FStreamHMD × List ApiCall × Option StateDispatch :=
  let finish := fun (s' : FStreamHMD) (tr : List ApiCall) =>
    ({ s' with audioListenerConnected := s'.m_connected }, tr,
     some (StateDispatch.mk newState s'.m_connectionStateHandlers))
  if newState == IsarConnectionState_CONNECTED then
    let (s1, tr1) := s.getConnectionInfo api
    if s1.m_connectionInfo.renderConfig.depthEnabled != 0 then
      let (_, tr2) := s1.RestartConnection api
      (s1, tr1 ++ tr2, none)
    else
      let s2 := { s1 with m_connected := true }
      let rc := s2.m_connectionInfo.renderConfig
      let (s3, tr3) :=
        if toU32 s2.m_width != ((rc.width * rc.numViews) % 2 ^ 32 : Nat) ||
           toU32 s2.m_height != (rc.height : Int) ||
           toU32 s2.m_nViews != (rc.numViews : Int) ||
           !s2.m_needsReallocation then
          let a := { s2 with fixedFrameRate := rc.framerate, m_needsReallocation := true,
                             colorImagesNum := 0 }
          let (g, a1, t1) := a.EnumerateViews api eng
            { a.m_pipelinedFrameStateGame with viewConfigs := [], views := [] }
          let a2 := { a1 with m_pipelinedFrameStateGame := g }
          let (r, a3, t2) := a2.EnumerateViews api eng
            { a2.m_pipelinedFrameStateRendering with viewConfigs := [], views := [] }
          let a4 := { a3 with m_pipelinedFrameStateRendering := r }
          let (h, a5, t3) := a4.EnumerateViews api eng
            { a4.m_pipelinedFrameStateRHI with viewConfigs := [], views := [] }
          ({ a5 with m_pipelinedFrameStateRHI := h }, t1 ++ t2 ++ t3)
        else (s2, [])
      let (s4, tr4) :=
        if s3.m_shouldEnableAudio then
          let r := s3.StartAudio api eng
          (r.2.1, r.2.2)
        else (s3, [])
      finish s4 (tr1 ++ tr3 ++ tr4)
  else
    -- CONNECTING, DISCONNECTED, CLOSING, FAILED and `default`
    finish { s with m_connected := false } []

/-- `FStreamHMD::RegisterConnectionStateHandler`: `m_connectionStateHandlers.Add`. -/
def FStreamHMD.RegisterConnectionStateHandler (h : Handler) (s : FStreamHMD) : FStreamHMD :=
  { s with m_connectionStateHandlers := s.m_connectionStateHandlers ++ [h] }

/-- `FStreamHMD::UnregisterConnectionStateHandler`: `m_connectionStateHandlers.Remove`,
which removes every element equal to the argument and keeps the order of the others. -/
def FStreamHMD.UnregisterConnectionStateHandler (h : Handler) (s : FStreamHMD) : FStreamHMD :=
  { s with m_connectionStateHandlers := s.m_connectionStateHandlers.filter (fun x => x != h) }

/-! ### Connection set-up (`FStreamHMD.cpp`) -/

/-- What `InitConnectionConfig` reads from `remoting-config.cfg`, reduced to the two
`GetIntegerField` results of `port-range` (`min-port`, `max-port`). -/
structure RemotingConfigFile where
  minPort : Int
  maxPort : Int
deriving DecidableEq, Repr

/-- `FStreamHMD::InitConnectionConfig`: `false` when the file cannot be loaded or parsed
(`file = none`), otherwise the members are set from the file. -/
def FStreamHMD.InitConnectionConfig (file : Option RemotingConfigFile) (s : FStreamHMD) :
    Bool × FStreamHMD :=
  match file with
  | none => (false, s)
  | some f => (true, { s with m_minPort := f.minPort, m_maxPort := f.maxPort })

/-- `FStreamHMD::CreateConnection`: fills an `IsarConfig` (of which the port range is
kept) and returns `m_serverApi.createConnection(&config, gfxConfig, connection)`. The
second component is the value of `*connection` after the call. -/
def FStreamHMD.CreateConnection (api : ServerApi) (portRange : IsarPortRange)
    (connection : Nat) : IsarError × Nat × List ApiCall :=
  let err := api.createConnection.1
  let handle := api.createConnection.2.getD connection
  (err, handle, [ApiCall.createConnection portRange err handle])

/-- `FStreamHMD::OnStereoStartup`. -/
def FStreamHMD.OnStereoStartup (api : ServerApi) (eng : Engine) (s : FStreamHMD) :
    Bool × FStreamHMD × List ApiCall :=
  let (g, s1, tr) := s.EnumerateViews api eng s.m_pipelinedFrameStateGame
  let s2 := { s1 with m_pipelinedFrameStateGame := g, m_pipelinedFrameStateRendering := g,
                      m_pipelinedFrameStateRHI := g }
  if s2.m_renderBridge then (true, s2, tr) else (false, s2, tr)

/-- `FStreamHMD::EnableStereo(iStereo)`. `file` is what `InitConnectionConfig` finds on
disk. Calls that only touch the engine (`GEngine`, `FApp`, the scene viewport), the audio
listener, the microphone stream or the input module's own state are not kept;
`m_inputModule->SetStreamApi` registers the input module's connection-state callback and
shows as the first `registerConnectionStateHandler`. -/
def FStreamHMD.EnableStereo (api : ServerApi) (eng : Engine)
    (file : Option RemotingConfigFile) (iStereo : Bool) (s : FStreamHMD) :
    Bool × FStreamHMD × List ApiCall :=
  if iStereo == s.m_stereoEnabled then (true, s, [])
  else
    let s := { s with m_isMobileMultiViewEnabled := false, m_stereoEnabled := iStereo }
    if !iStereo then
      if s.m_connectionCreated then
        (true, s, [ApiCall.closeConnection s.m_streamConnection api.closeConnection])
      else (true, s, [])
    else
      let openIt := fun (s : FStreamHMD) (tr : List ApiCall) =>
        let err := api.openConnection
        let tr := tr ++ [ApiCall.openConnection s.m_streamConnection err]
        if err != eNone || s.m_streamConnection == 0 then (false, s, tr) else (true, s, tr)
      if !s.m_connectionCreated then
        let (ok, s) := s.InitConnectionConfig file
        if !ok then (false, s, [])
        else
          let portRange : IsarPortRange :=
            { minPort := (toU32 s.m_minPort).toNat, maxPort := (toU32 s.m_maxPort).toNat }
          -- both arms of `if (m_gfxApiType == IsarGraphicsApiType_D3D12)` make this call
          let (err, handle, tr1) := FStreamHMD.CreateConnection api portRange s.m_streamConnection
          let s := { s with m_streamConnection := handle }
          if err != eNone || s.m_streamConnection == 0 then (false, s, tr1)
          else
            let s := { s with m_connectionCreated := true }
            let tr2 := tr1 ++ [ApiCall.registerConnectionStateHandler s.m_streamConnection,
                               ApiCall.registerConnectionStateHandler s.m_streamConnection]
            let err := api.initVideoTrack
            let tr3 := tr2 ++ [ApiCall.initVideoTrack s.m_streamConnection err]
            if err != eNone then (false, s, tr3)
            else
              let (s, tr4) :=
                if iStereo then
                  let r := s.OnStereoStartup api eng
                  (r.2.1, r.2.2)
                else (s, [])
              openIt s (tr3 ++ tr4)
      else openIt s []

/-- A sequence of `EnableStereo` calls, each with the answers the library and the disk
give during it; the result is the final object and the calls made through
`m_serverApi`, in order. -/
def enableStereoCalls (eng : Engine) :
    List (Bool × ServerApi × Option RemotingConfigFile) → FStreamHMD →
      FStreamHMD × List ApiCall
  | [], s => (s, [])
  | (iStereo, api, file) :: rest, s =>
    let r := s.EnableStereo api eng file iStereo
    let r2 := enableStereoCalls eng rest r.2.1
    (r2.1, r.2.2 ++ r2.2)

/-- The ordering C9 asks of a trace: every `openConnection` on a connection comes after an
`initVideoTrack` on it that returned `eNone`, which comes after the `createConnection`
that returned it with `eNone`. `created` and `inited` are the connections for which that
has happened so far. -/
def openAfterInit (created inited : List Nat) : List ApiCall → Bool
  | [] => true
  | ApiCall.createConnection _ err c :: rest =>
    openAfterInit (if err == eNone then c :: created else created) inited rest
  | ApiCall.initVideoTrack c err :: rest =>
    openAfterInit created (if err == eNone && created.contains c then c :: inited else inited)
      rest
  | ApiCall.openConnection c _ :: rest => inited.contains c && openAfterInit created inited rest
  | _ :: rest => openAfterInit created inited rest

/-! ## `FStreamInput` (`FStreamInput.h`, `FStreamInput.cpp`) -/

/-- `FStreamInput::ControllerTrackingState`. -/
inductive ControllerTrackingState where
  | Detected
  | Tracking
  | Lost
deriving DecidableEq, Repr

/-- `FStreamInput::TrackedDeviceType`. -/
inductive TrackedDeviceType where
  | Controller
  | Hand
deriving DecidableEq, Repr

/-- `FStreamInput::StreamControllerUpdateData`. -/
structure StreamControllerUpdateData where
  controllerPose : IsarPose
  pointerPose : IsarPose
  handData : IsarHandPose
  buttons : List IsarButton
  axis1D : List IsarAxis1D
  axis2D : List IsarAxis2D
deriving DecidableEq, Repr

/-- `FStreamInput::StreamController`, without the two key-mapping tables
`streamToKeyName` and `streamToEnhancedActions`. -/
structure StreamController where
  deviceId : Nat
  handedness : Nat
  controllerType : Nat
  deviceType : TrackedDeviceType
  updateData : StreamControllerUpdateData
  state : ControllerTrackingState
deriving DecidableEq, Repr

/-- The static table `DEVICE_NAMES`. -/
def DEVICE_NAMES : List (Nat × String) :=
  [ (IsarXRControllerType.ofName "IsarXRControllerType_HoloLens_Hands", "Hololens Hand"),
    (IsarXRControllerType.ofName "IsarXRControllerType_Meta_Quest_Hands", "Quest Hand"),
    (IsarXRControllerType.ofName "IsarXRControllerType_Meta_Quest_2_Controller",
      "Quest 2 Controller"),
    (IsarXRControllerType.ofName "IsarXRControllerType_Magic_Leap_2_Hands", "Magic Leap 2 Hand"),
    (IsarXRControllerType.ofName "IsarXRControllerType_Magic_Leap_2_Controller",
      "Magic Leap 2 Controller"),
    (IsarXRControllerType.ofName "IsarXRControllerType_Meta_Quest_Pro_Controller",
      "Quest Pro Controller"),
    (IsarXRControllerType.ofName "IsarXRControllerType_Meta_Quest_3_Controller",
      "Quest 3 Controller"),
    (IsarXRControllerType.ofName "IsarXRControllerType_Lenovo_VRX_Hands", "VRX Hand"),
    (IsarXRControllerType.ofName "IsarXRControllerType_Lenovo_VRX_Controller", "VRX Controller"),
    (IsarXRControllerType.ofName "IsarXRControllerType_Logitech_MX_Ink_Stylus", "MX Ink Stylus"),
    (IsarXRControllerType.ofName "IsarXRControllerType_Pico_4_Ultra_Hands", "Pico 4 Ultra Hand"),
    (IsarXRControllerType.ofName "IsarXRControllerType_Pico_4_Ultra_Controller",
      "Pico 4 Ultra Controller"),
    (IsarXRControllerType.ofName "IsarXRControllerType_HTC_Vive_Focus_Hands", "Vive Focus Hand"),
    (IsarXRControllerType.ofName "IsarXRControllerType_HTC_Vive_Focus_3_Controller",
      "Vive Focus 3 Controller"),
    (IsarXRControllerType.ofName "IsarXRControllerType_HTC_Vive_Focus_Vision_Controller",
      "Vive Focus Vision Controller"),
    (IsarXRControllerType.ofName "IsarXRControllerType_HTC_Vive_XR_Elite_Controller",
      "Vive XR Elite Controller"),
    (IsarXRControllerType.ofName "IsarXRControllerType_Meta_Quest_3S_Controller",
      "Quest 3S Controller"),
    (IsarXRControllerType.ofName "IsarXRControllerType_Apple_Vision_Pro_Hands",
      "Apple Vision Pro Hand") ]

/-- `DEVICE_NAMES.at(controllerType)`: `none` when `std::unordered_map::at` throws
`std::out_of_range`. -/
def DEVICE_NAMES_at (controllerType : Nat) : Option String := DEVICE_NAMES.lookup controllerType

/-- `MapToDeviceID`:
`(controllerIdentifier * 2) + (uint32_t)handedness + 1u`, in `uint32_t`. -/
def MapToDeviceID (sourceState : IsarInteractionSourceState) : Nat :=
  (sourceState.controllerData.controllerIdentifier * 2 + sourceState.controllerData.handedness
    + 1) % 2 ^ 32

/-- The float operations of `ApplyControlerOffset`, which are not computed here: float
addition and `RotateVectorByQuaternion`. -/
structure FloatOps where
  add : F32 → F32 → F32
  RotateVectorByQuaternion : IsarVector3 → IsarQuaternion → IsarVector3

/-- `ApplyControlerOffset`. -/
def ApplyControlerOffset (ops : FloatOps) (inputPose : IsarPose) (offsetVector : IsarVector3) :
    IsarVector3 :=
  let rotatedOffset := ops.RotateVectorByQuaternion offsetVector inputPose.orientation
  { x := ops.add inputPose.position.x rotatedOffset.x,
    y := ops.add inputPose.position.y rotatedOffset.y,
    z := ops.add inputPose.position.z rotatedOffset.z }

/-- The arrays the pointers of `IsarControllerData` point to. -/
structure Heap where
  buttons : Nat → List IsarButton
  axis1D : Nat → List IsarAxis1D
  axis2D : Nat → List IsarAxis2D

/-- An access to a producer-allocated array: `memcpy` reading `count` elements from `p`,
or `free(p)`. -/
inductive MemEvent where
  | read (p : Nat) (count : Nat)
  | free (p : Nat)
deriving DecidableEq, Repr

/-- `0.03f`. -/
def f0_03 : F32 := 0x3CF5C28F
/-- `-0.04f`. -/
def fNeg0_04 : F32 := 0xBD23D70A
/-- `-0.1f`. -/
def fNeg0_1 : F32 := 0xBDCCCCCD

/-- `FStreamInput::CreateUpdateData`, with the three `memcpy` it performs. -/
def CreateUpdateData (ops : FloatOps) (heap : Heap) (sourceState : IsarInteractionSourceState) :
    StreamControllerUpdateData × List MemEvent :=
  let cd := sourceState.controllerData
  let controllerPose := cd.controllerPose
  let ct := cd.controllerIdentifier
  let controllerPose : IsarPose :=
    if ct == IsarXRControllerType.ofName "IsarXRControllerType_Meta_Quest_2_Controller" ||
       ct == IsarXRControllerType.ofName "IsarXRControllerType_Meta_Quest_Pro_Controller" ||
       ct == IsarXRControllerType.ofName "IsarXRControllerType_Meta_Quest_3_Controller" ||
       ct == IsarXRControllerType.ofName "IsarXRControllerType_Meta_Quest_3S_Controller" then
      { controllerPose with
        position := ApplyControlerOffset ops controllerPose ⟨0, f0_03, fNeg0_04⟩ }
    else if ct == IsarXRControllerType.ofName "IsarXRControllerType_Logitech_MX_Ink_Stylus" then
      { controllerPose with
        position := ApplyControlerOffset ops controllerPose ⟨0, f0_03, fNeg0_1⟩ }
    else controllerPose
  ({ controllerPose := controllerPose, pointerPose := cd.pointerPose, handData := cd.handData,
     buttons := (heap.buttons cd.buttons).take cd.buttonsLength,
     axis1D := (heap.axis1D cd.axis1D).take cd.axis1DLength,
     axis2D := (heap.axis2D cd.axis2D).take cd.axis2DLength },
   [MemEvent.read cd.buttons cd.buttonsLength, MemEvent.read cd.axis1D cd.axis1DLength,
    MemEvent.read cd.axis2D cd.axis2DLength])

/-- `ETrackingStatus`. -/
inductive ETrackingStatus where
  | NotTracked
  | InertialOnly
  | Tracked
deriving DecidableEq, Repr

/-- `struct FStreamControllerStateInfo`. -/
structure FStreamControllerStateInfo where
  ControllerName : String
  NewTrackingStatus : ETrackingStatus
  /-- The member `Type` (`EXRVisualType`), cast from the `TrackedDeviceType`. -/
  VisualType : TrackedDeviceType
  Hand : Int
deriving DecidableEq, Repr

/-- The lambda handed to `AsyncTask` on a controller state change: the state info and a
copy of `m_controllerStateHandlers`. -/
structure ControllerDispatch where
  newStateInfo : FStreamControllerStateInfo
  controllerStateHandlers : List Handler
deriving DecidableEq, Repr

/-- The members of `FStreamInput` the embedded functions read or write. -/
structure FStreamInput where
  m_streamConnection : Nat
  m_connected : Bool
  m_xrControllers : List StreamController
  m_useEnhancedActions : Bool
  m_controllerStateHandlers : List Handler
deriving DecidableEq, Repr

/-- Outcome of a piece of `FStreamInput` code: the object afterwards, the accesses to
producer-allocated arrays, the tasks handed to the game thread, and whether the code was
left by the `std::out_of_range` that `DEVICE_NAMES.at` throws. -/
structure Ran where
  state : FStreamInput
  mem : List MemEvent
  dispatched : List ControllerDispatch
  threw : Bool
deriving DecidableEq, Repr

/-- `std::find_if` followed by an assignment through the iterator: apply `f` to the first
element satisfying `p`. -/
def updateFirst {α : Type} (p : α → Bool) (f : α → α) : List α → List α
  | [] => []
  | a :: l => if p a then f a :: l else a :: updateFirst p f l

/-- The `switch (controller.controllerType)` of `HandleInputSourceDetected`, as far as
`controller.deviceType` goes; a type outside the switch keeps the value-initialised
`TrackedDeviceType::Controller`. -/
def deviceTypeOf (controllerType : Nat) : TrackedDeviceType :=
  if controllerType == IsarXRControllerType.ofName "IsarXRControllerType_HoloLens_Hands" ||
     controllerType == IsarXRControllerType.ofName "IsarXRControllerType_Meta_Quest_Hands" ||
     controllerType == IsarXRControllerType.ofName "IsarXRControllerType_Magic_Leap_2_Hands" ||
     controllerType == IsarXRControllerType.ofName "IsarXRControllerType_Lenovo_VRX_Hands" ||
     controllerType == IsarXRControllerType.ofName "IsarXRControllerType_Pico_4_Ultra_Hands" ||
     controllerType == IsarXRControllerType.ofName "IsarXRControllerType_HTC_Vive_Focus_Hands" ||
     controllerType == IsarXRControllerType.ofName "IsarXRControllerType_Apple_Vision_Pro_Hands"
  then TrackedDeviceType.Hand
  else TrackedDeviceType.Controller

/-- `FStreamInput::HandleInputSourceDetected`. -/
def FStreamInput.HandleInputSourceDetected (ops : FloatOps) (heap : Heap)
    (sourceState : IsarInteractionSourceState) (s : FStreamInput) : Ran :=
  let deviceId := MapToDeviceID sourceState
  match s.m_xrControllers.find? (fun e => e.deviceId == deviceId) with
  | some _ =>
    let data := (CreateUpdateData ops heap sourceState).1
    let mem := (CreateUpdateData ops heap sourceState).2
    let controllers := updateFirst (fun e => e.deviceId == deviceId)
      (fun c => { c with updateData := data }) s.m_xrControllers
    { state := { s with m_xrControllers := controllers },
      mem := mem, dispatched := [], threw := false }
  | none =>
    let data := (CreateUpdateData ops heap sourceState).1
    let mem := (CreateUpdateData ops heap sourceState).2
    let controller : StreamController :=
      { deviceId := deviceId, state := ControllerTrackingState.Detected,
        handedness := sourceState.controllerData.handedness,
        controllerType := sourceState.controllerData.controllerIdentifier,
        updateData := data,
        deviceType := deviceTypeOf sourceState.controllerData.controllerIdentifier }
    let s1 := { s with m_xrControllers := s.m_xrControllers ++ [controller] }
    match DEVICE_NAMES_at controller.controllerType with
    | none => { state := s1, mem := mem, dispatched := [], threw := true }
    | some name =>
      { state := s1, mem := mem,
        dispatched := [⟨{ ControllerName := name, NewTrackingStatus := ETrackingStatus.Tracked,
                          VisualType := controller.deviceType,
                          Hand := (controller.handedness : Int) - 1 },
                        s.m_controllerStateHandlers⟩],
        threw := false }

/-- The three `free` calls that end the body of the loop of `FStreamInput::Tick`. -/
def freeArrays (sourceState : IsarInteractionSourceState) : List MemEvent :=
  [MemEvent.free sourceState.controllerData.buttons,
   MemEvent.free sourceState.controllerData.axis1D,
   MemEvent.free sourceState.controllerData.axis2D]

/-- The `switch (input.type)` of the loop of `FStreamInput::Tick`. -/
def FStreamInput.dispatchInput (ops : FloatOps) (heap : Heap) (input : IsarSpatialInput)
    (s : FStreamInput) : Ran :=
  let sourceState := input.data
  if input.type == IsarInputType_SOURCE_PRESSED || input.type == IsarInputType_SOURCE_RELEASED
      || input.type == IsarInputType_SOURCE_UPDATED then
    let deviceId := MapToDeviceID sourceState
    match s.m_xrControllers.find? (fun e => e.deviceId == deviceId) with
    | none => { state := s, mem := [], dispatched := [], threw := false }
    | some _ =>
      let data := (CreateUpdateData ops heap sourceState).1
      let mem := (CreateUpdateData ops heap sourceState).2
      let controllers := updateFirst (fun e => e.deviceId == deviceId)
        (fun c => { c with state := ControllerTrackingState.Tracking, updateData := data })
        s.m_xrControllers
      { state := { s with m_xrControllers := controllers },
        mem := mem, dispatched := [], threw := false }
  else if input.type == IsarInputType_SOURCE_DETECTED then
    s.HandleInputSourceDetected ops heap sourceState
  else if input.type == IsarInputType_SOURCE_LOST then
    let deviceId := MapToDeviceID sourceState
    match s.m_xrControllers.find? (fun e => e.deviceId == deviceId) with
    | none => { state := s, mem := [], dispatched := [], threw := false }
    | some controller =>
      match DEVICE_NAMES_at controller.controllerType with
      | none => { state := s, mem := [], dispatched := [], threw := true }
      | some name =>
        let controllers := s.m_xrControllers.eraseP (fun e => e.deviceId == deviceId)
        { state := { s with m_xrControllers := controllers },
          mem := [],
          dispatched := [⟨{ ControllerName := name,
                            NewTrackingStatus := ETrackingStatus.NotTracked,
                            VisualType := controller.deviceType,
                            Hand := (controller.handedness : Int) - 1 },
                          s.m_controllerStateHandlers⟩],
          threw := false }
  else { state := s, mem := [], dispatched := [], threw := false }

/-- One turn of the loop `for (auto& input : spatialInput)` of `FStreamInput::Tick`: the
switch, then the three `free` calls, which an exception thrown in the switch skips. -/
def FStreamInput.processInput (ops : FloatOps) (heap : Heap) (input : IsarSpatialInput)
    (s : FStreamInput) : Ran :=
  let r := s.dispatchInput ops heap input
  if r.threw then r else { r with mem := r.mem ++ freeArrays input.data }

/-- The loop `for (auto& input : spatialInput)` of `FStreamInput::Tick`; an exception ends
it. -/
def FStreamInput.processAll (ops : FloatOps) (heap : Heap) :
    List IsarSpatialInput → FStreamInput → Ran
  | [], s => { state := s, mem := [], dispatched := [], threw := false }
  | input :: rest, s =>
    let r := s.processInput ops heap input
    if r.threw then r
    else
      let r2 := FStreamInput.processAll ops heap rest r.state
      { r2 with mem := r.mem ++ r2.mem, dispatched := r.dispatched ++ r2.dispatched }

/-- A value-initialised `IsarSpatialInput`, as `spatialInput.resize(outputCount)` creates
them. -/
def zeroSpatialInput : IsarSpatialInput :=
  { type := 0,
    data := ⟨{ controllerIdentifier := 0, handedness := 0,
               headPose := ⟨⟨0, 0, 0⟩, ⟨0, 0, 0⟩, ⟨0, 0, 0⟩⟩,
               controllerPose := ⟨⟨0, 0, 0⟩, ⟨0, 0, 0, 0⟩⟩,
               pointerPose := ⟨⟨0, 0, 0⟩, ⟨0, 0, 0, 0⟩⟩,
               tipPose := ⟨⟨0, 0, 0⟩, ⟨0, 0, 0, 0⟩⟩,
               handData := ⟨List.replicate 26 ⟨⟨0, 0, 0, 0⟩, ⟨0, 0, 0⟩, 0, 0⟩⟩,
               buttons := 0, buttonsLength := 0, axis1D := 0, axis1DLength := 0,
               axis2D := 0, axis2DLength := 0 }⟩ }

/-- The vector `spatialInput` after the populating call: `count` value-initialised
elements, the front of which the library has overwritten with `written`. -/
def fillBuffer (count : Nat) (written : List IsarSpatialInput) : List IsarSpatialInput :=
  (written ++ List.replicate count zeroSpatialInput).take count

/-- `FStreamInput::Tick`. The first component is the list of calls made through
`m_serverApi`. -/
def FStreamInput.Tick (api : ServerApi) (ops : FloatOps) (heap : Heap) (s : FStreamInput) :
    List ApiCall × Ran :=
  let unchanged : Ran := { state := s, mem := [], dispatched := [], threw := false }
  if !s.m_connected then ([], unchanged)
  else
    let err := api.pullSpatialInputCount.1
    let outputCount := api.pullSpatialInputCount.2
    let call1 := ApiCall.pullSpatialInput s.m_streamConnection none 0 true err
    if err != 0 || outputCount == 0 then ([call1], unchanged)
    else
      let err2 := api.pullSpatialInputFill.1
      let call2 :=
        ApiCall.pullSpatialInput s.m_streamConnection (some outputCount) outputCount false err2
      if err2 != 0 then ([call1, call2], unchanged)
      else
        let spatialInput := fillBuffer outputCount api.pullSpatialInputFill.2
        ([call1, call2], s.processAll ops heap spatialInput)

/-- The loop `for (auto controller : m_xrControllers)` of
`FStreamInput::OnConnectionStateChanged`: one task per controller, until
`DEVICE_NAMES.at` throws. -/
def notifyNotTracked (handlers : List Handler) :
    List StreamController → List ControllerDispatch × Bool
  | [] => ([], false)
  | controller :: rest =>
    match DEVICE_NAMES_at controller.controllerType with
    | none => ([], true)
    | some name =>
      let r := notifyNotTracked handlers rest
      (⟨{ ControllerName := name, NewTrackingStatus := ETrackingStatus.NotTracked,
          VisualType := controller.deviceType, Hand := (controller.handedness : Int) - 1 },
        handlers⟩ :: r.1, r.2)

/-- `FStreamInput::OnConnectionStateChanged`. -/
def FStreamInput.OnConnectionStateChanged (newState : Int) (s : FStreamInput) : Ran :=
  let s1 := { s with m_connected := (newState == IsarConnectionState_CONNECTED) }
  if s1.m_connected then { state := s1, mem := [], dispatched := [], threw := false }
  else
    let r := notifyNotTracked s1.m_controllerStateHandlers s1.m_xrControllers
    if r.2 then { state := s1, mem := [], dispatched := r.1, threw := true }
    else { state := { s1 with m_xrControllers := [] }, mem := [], dispatched := r.1,
           threw := false }

/-- The pointers passed to `free`, in order. -/
def freed : List MemEvent → List Nat
  | [] => []
  | MemEvent.free p :: rest => p :: freed rest
  | MemEvent.read _ _ :: rest => freed rest

/-- The three array pointers of an element, in the order `Tick` frees them. -/
def arrayPointers (input : IsarSpatialInput) : List Nat :=
  [input.data.controllerData.buttons, input.data.controllerData.axis1D,
   input.data.controllerData.axis2D]

/-- The controller type is a key of `DEVICE_NAMES`. -/
def knownType (controllerType : Nat) : Bool := (DEVICE_NAMES_at controllerType).isSome

/-! ### Histories of an `FStreamHMD` -/

/-- One thing that happens to an `FStreamHMD`: a connection-state notification from the
library, an `EnableStereo` call, a handler registration or removal, or one frame of the
render loop. Each carries the answers the library, the disk and the engine give while it
runs. -/
inductive HMDEvent where
  | connectionState (api : ServerApi) (eng : Engine) (newState : Int)
  | enableStereo (api : ServerApi) (eng : Engine) (file : Option RemotingConfigFile)
      (iStereo : Bool)
  | registerHandler (h : Handler)
  | unregisterHandler (h : Handler)
  | beginRendering (api : ServerApi)
  | finishRendering (api : ServerApi) (eng : Engine) (stack : Indeterminate)

/-- The object after one event. A render function that indexes a view array out of range
leaves no defined state; the object is then kept as it was. -/
def HMDEvent.apply (e : HMDEvent) (s : FStreamHMD) : FStreamHMD :=
  match e with
  | .connectionState api eng newState => (s.OnConnectionStateChanged api eng newState).1
  | .enableStereo api eng file iStereo => (s.EnableStereo api eng file iStereo).2.1
  | .registerHandler h => s.RegisterConnectionStateHandler h
  | .unregisterHandler h => s.UnregisterConnectionStateHandler h
  | .beginRendering api =>
    match s.OnBeginRendering_RenderThread api with
    | some (s1, _, some inFrameState) => s1.OnBeginRendering_RHIThread inFrameState
    | some (s1, _, none) => s1
    | none => s
  | .finishRendering api eng stack =>
    match s.OnFinishRendering_RHIThread api eng stack with
    | some (s1, _) => s1
    | none => s

/-- The object after a history of events, oldest first. -/
def runHMD (events : List HMDEvent) (s : FStreamHMD) : FStreamHMD :=
  events.foldl (fun s e => e.apply s) s

/-- The state carried by a connection-state notification. -/
def HMDEvent.notified : HMDEvent → Option Int
  | .connectionState _ _ newState => some newState
  | _ => none

/-- The state carried by the most recent connection-state notification of a history. -/
def lastNotification (events : List HMDEvent) : Option Int :=
  (events.filterMap HMDEvent.notified).getLast?

/-! ### Connection info for blueprints (`StreamHMDBlueprintLibrary.h`) -/

/-- `FStreamRenderConfig`: five `int32` and two `bool`. -/
structure FStreamRenderConfig where
  Width : Int
  Height : Int
  NumViews : Int
  EncoderBitrateKbps : Int
  Framerate : Int
  bDepthEnabled : Bool
  bPosePredictionEnabled : Bool
deriving DecidableEq, Repr

/-- `FStreamConnectionInfo`; `EStreamDeviceType` and `EStreamCodecType` are
`enum class … : uint8`, kept by their underlying value. -/
structure FStreamConnectionInfo where
  RemoteName : String
  RemoteVersion : String
  RenderConfig : FStreamRenderConfig
  RemoteDeviceType : Nat
  CodecInUse : Nat
deriving DecidableEq, Repr

/-- The cast `(int32)` of a `uint32_t`. -/
def toI32 (n : Nat) : Int :=
  if n % 2 ^ 32 < 2 ^ 31 then ((n % 2 ^ 32 : Nat) : Int) else ((n % 2 ^ 32 : Nat) : Int) - 2 ^ 32

/-- `FString::Printf(TEXT("%d.%d.%d"), a, b, c)`: each argument is read as an `int`. -/
def printfVersion (a b c : Int) : String :=
  toString (OperandType.int.wrap a) ++ "." ++ toString (OperandType.int.wrap b) ++ "." ++
    toString (OperandType.int.wrap c)

/-- `FStreamHMD::GetConnectionInfo(ConnectionInfo)`: the returned `bool`, the output
argument after the call, the object after the call and the library calls made. -/
def FStreamHMD.GetConnectionInfo (api : ServerApi) (ConnectionInfo : FStreamConnectionInfo)
    (s : FStreamHMD) : Bool × FStreamConnectionInfo × FStreamHMD × List ApiCall :=
  if !s.m_connected then (false, ConnectionInfo, s, [])
  else
    let s1 := (s.getConnectionInfo api).1
    let tr := (s.getConnectionInfo api).2
    let info := s1.m_connectionInfo
    let out : FStreamConnectionInfo :=
      { RemoteName := info.remoteName,
        RemoteVersion := printfVersion (ISAR_GET_VERSION_MAJOR info.remoteVersion)
          (ISAR_GET_VERSION_MINOR info.remoteVersion)
          (ISAR_GET_VERSION_PATCH info.remoteVersion),
        RenderConfig :=
          { Width := toI32 info.renderConfig.width,
            Height := toI32 info.renderConfig.height,
            NumViews := toI32 info.renderConfig.numViews,
            EncoderBitrateKbps := info.renderConfig.encoderBitrateKbps,
            Framerate := toI32 info.renderConfig.framerate,
            bDepthEnabled := info.renderConfig.depthEnabled == 1,
            bPosePredictionEnabled := info.renderConfig.posePredictionEnabled == 1 },
        RemoteDeviceType := toU8 info.remoteDeviceType,
        CodecInUse := toU8 info.codecInUse }
    (true, out, s1, tr)

/-! ### The port-range check of the native `createConnection` -/

/-- Modelled from the spec: the configuration check of the native `createConnection`,
which accepts a port range only when `minPort <= maxPort` and both bounds lie in
[1024, 65535] (`types.h`: "The range must be between 1024 - 65535 or will be
unaccepted"). -/
def portRangeValid (p : IsarPortRange) : Bool :=
  decide (p.minPort ≤ p.maxPort) && decide (1024 ≤ p.minPort) && decide (p.minPort ≤ 65535) &&
    decide (1024 ≤ p.maxPort) && decide (p.maxPort ≤ 65535)

/-- Modelled from the spec: the answer of the native `createConnection` to a
configuration with port range `p`. A range that fails the check is rejected with
`rejectError` and `*connection` is not written; nothing is clamped. A range that passes
is answered with `accepted`, whatever the rest of the call decides. -/
def createConnectionChecked (rejectError : IsarError) (accepted : IsarError × Option Nat)
    (p : IsarPortRange) : IsarError × Option Nat :=
  if portRangeValid p then accepted else (rejectError, none)

/-- The `IsarPortRange` that `EnableStereo` builds from the `int32` members `m_minPort`
and `m_maxPort` (`portRange.minPort = m_minPort; portRange.maxPort = m_maxPort;`). -/
def portRangeOfFile (f : RemotingConfigFile) : IsarPortRange :=
  { minPort := (toU32 f.minPort).toNat, maxPort := (toU32 f.maxPort).toNat }

/-- A port range of `remoting-config.cfg` that breaks the documented constraints. -/
def violatesPortRange (f : RemotingConfigFile) : Prop :=
  f.minPort > f.maxPort ∨ f.minPort < 1024 ∨ 65535 < f.minPort ∨ f.maxPort < 1024 ∨
    65535 < f.maxPort

instance (f : RemotingConfigFile) : Decidable (violatesPortRange f) := by
  unfold violatesPortRange; infer_instance

/-- Size and alignment of a C type, in bytes. -/
structure Layout where
  size : Nat
  align : Nat
deriving DecidableEq, Repr

/-- `float`. -/
def c_float : Layout := ⟨4, 4⟩
/-- `uint32_t`. -/
def c_uint32 : Layout := ⟨4, 4⟩
/-- An `enum` of the ABI (`static_assert(sizeof(…) == sizeof(int32_t))`). -/
def c_enum : Layout := ⟨4, 4⟩
/-- `int64_t`. -/
def c_int64 : Layout := ⟨8, 8⟩
/-- A data pointer. -/
def c_pointer : Layout := ⟨8, 8⟩

/-- The least multiple of `a` that is at least `n`. -/
def alignUp (n a : Nat) : Nat := (n + a - 1) / a * a

/-- `T name[n]`. -/
def arrayOf (t : Layout) (n : Nat) : Layout := ⟨t.size * n, t.align⟩

/-- A `struct` with the given members in declaration order. -/
def structOf (members : List (String × Layout)) : Layout :=
  let align := members.foldl (fun a m => max a m.2.align) 1
  let used := members.foldl (fun offset m => alignUp offset m.2.align + m.2.size) 0
  ⟨alignUp used align, align⟩

/-- `struct IsarMatrix4x4`. -/
def IsarMatrix4x4_layout : Layout := structOf
  [ ("m00", c_float), ("m10", c_float), ("m20", c_float), ("m30", c_float),
    ("m01", c_float), ("m11", c_float), ("m21", c_float), ("m31", c_float),
    ("m02", c_float), ("m12", c_float), ("m22", c_float), ("m32", c_float),
    ("m03", c_float), ("m13", c_float), ("m23", c_float), ("m33", c_float) ]

/-- `struct IsarVector3`. -/
def IsarVector3_layout : Layout := structOf [("x", c_float), ("y", c_float), ("z", c_float)]

/-- `struct IsarVector4` (`IsarQuaternion`). -/
def IsarVector4_layout : Layout :=
  structOf [("x", c_float), ("y", c_float), ("z", c_float), ("w", c_float)]

/-- `struct IsarPose`. -/
def IsarPose_layout : Layout :=
  structOf [("position", IsarVector3_layout), ("orientation", IsarVector4_layout)]

/-- `struct IsarFov`. -/
def IsarFov_layout : Layout :=
  structOf [("left", c_float), ("right", c_float), ("up", c_float), ("down", c_float)]

/-- `struct IsarXrPose_Deprecated`. -/
def IsarXrPose_Deprecated_layout : Layout := structOf
  [ ("timestamp", c_int64), ("viewLeft", IsarMatrix4x4_layout),
    ("viewRight", IsarMatrix4x4_layout), ("projLeft", IsarMatrix4x4_layout),
    ("projRight", IsarMatrix4x4_layout) ]

/-- `struct IsarXrPose`. -/
def IsarXrPose_layout : Layout := structOf
  [ ("frameTimestamp", c_int64), ("poseTimestamp", c_int64), ("poseLeft", IsarPose_layout),
    ("poseRight", IsarPose_layout), ("fovLeft", IsarFov_layout), ("fovRight", IsarFov_layout) ]

/-- `struct IsarHeadPose`. -/
def IsarHeadPose_layout : Layout := structOf
  [ ("position", IsarVector3_layout), ("forwardDirection", IsarVector3_layout),
    ("upDirection", IsarVector3_layout) ]

/-- `struct IsarJointPose`. -/
def IsarJointPose_layout : Layout := structOf
  [ ("orientation", IsarVector4_layout), ("position", IsarVector3_layout),
    ("radius", c_float), ("accuracy", c_enum) ]

/-- `struct IsarHandPose`. -/
def IsarHandPose_layout : Layout := structOf [("jointPoses", arrayOf IsarJointPose_layout 26)]

/-- `struct IsarControllerData`. -/
def IsarControllerData_layout : Layout := structOf
  [ ("controllerIdentifier", c_uint32), ("handedness", c_enum),
    ("headPose", IsarHeadPose_layout), ("controllerPose", IsarPose_layout),
    ("pointerPose", IsarPose_layout), ("tipPose", IsarPose_layout),
    ("handData", IsarHandPose_layout),
    ("buttons", c_pointer), ("buttonsLength", c_uint32),
    ("axis1D", c_pointer), ("axis1DLength", c_uint32),
    ("axis2D", c_pointer), ("axis2DLength", c_uint32) ]

/-- `struct IsarInteractionSourceState`. -/
def IsarInteractionSourceState_layout : Layout :=
  structOf [("controllerData", IsarControllerData_layout)]

/-- The size each struct of `input_types.h` is documented with in the comment after its
closing brace, next to its layout. -/
def documentedSizes : List (String × Nat × Layout) :=
  [ ("IsarMatrix4x4", 64, IsarMatrix4x4_layout),
    ("IsarVector3", 12, IsarVector3_layout),
    ("IsarVector4", 16, IsarVector4_layout),
    ("IsarPose", 28, IsarPose_layout),
    ("IsarFov", 16, IsarFov_layout),
    ("IsarXrPose_Deprecated", 256, IsarXrPose_Deprecated_layout),
    ("IsarXrPose", 104, IsarXrPose_layout),
    ("IsarHeadPose", 36, IsarHeadPose_layout),
    ("IsarJointPose", 36, IsarJointPose_layout),
    ("IsarHandPose", 1040, IsarHandPose_layout),
    ("IsarInteractionSourceState", 1216, IsarInteractionSourceState_layout) ]

/-- The structs whose documented size differs from the size of their layout, with the
documented and the actual size. -/
def sizeMismatches : List (String × Nat × Nat) :=
  (documentedSizes.filter (fun d => d.2.1 != d.2.2.size)).map
    (fun d => (d.1, d.2.1, d.2.2.size))

/-! ## The client's frame slot (`client_api.h`)

`IsarClientPullFrame` is declared in `client_api.h`; the library that implements it is
not part of the repository. -/

/-- Modelled from the spec: the receiving side of a client connection. Frames are never
queued; the connection holds at most the latest frame that arrived and was not pulled
yet. Frames are named by a number. -/
structure ClientConnection where
  latest : Option Nat
deriving DecidableEq, Repr

/-- Modelled from the spec: a frame arrives from the server and replaces whatever the
slot held. -/
def ClientConnection.frameArrived (frame : Nat) (_c : ClientConnection) : ClientConnection :=
  { latest := some frame }

/-- Modelled from the spec: `pullFrame(connection, frame)`: `eNoFrame` when no frame
arrived since the last successful pull, otherwise `eNone` with the latest frame, which
is thereby consumed. -/
def ClientConnection.pullFrame (c : ClientConnection) :
    IsarError × Option Nat × ClientConnection :=
  match c.latest with
  | none => (eNoFrame, none, c)
  | some frame => (eNone, some frame, { latest := none })

/-- What happens on a client connection: a frame arrives or the application pulls. -/
inductive ClientEvent where
  | arrive (frame : Nat)
  | pull
deriving DecidableEq, Repr

/-- One event applied to the connection. -/
def ClientEvent.apply (e : ClientEvent) (c : ClientConnection) : ClientConnection :=
  match e with
  | .arrive frame => c.frameArrived frame
  | .pull => c.pullFrame.2.2

/-- The connection after a history of events, oldest first. -/
def runClient (events : List ClientEvent) (c : ClientConnection) : ClientConnection :=
  events.foldl (fun c e => e.apply c) c

/-- The frame of an arrival. -/
def ClientEvent.arrived : ClientEvent → Option Nat
  | .arrive frame => some frame
  | .pull => none

/-- The most recently arrived frame of a history. -/
def lastArrival (events : List ClientEvent) : Option Nat :=
  (events.filterMap ClientEvent.arrived).getLast?

/-- A new client connection: no frame has arrived. -/
def newClientConnection : ClientConnection := { latest := none }

/-! ### Histories of an `FStreamInput` -/

/-- One thing that happens to an `FStreamInput`: a `Tick`, with the answers the library,
the float unit and the heap give while it runs, or a connection-state notification. -/
inductive InputEvent where
  | tick (api : ServerApi) (ops : FloatOps) (heap : Heap)
  | connectionState (newState : Int)

/-- One event applied to the object. -/
def InputEvent.step (e : InputEvent) (s : FStreamInput) : Ran :=
  match e with
  | .tick api ops heap => (s.Tick api ops heap).2
  | .connectionState newState => s.OnConnectionStateChanged newState

/-- The object after a history of events, oldest first, and whether `DEVICE_NAMES.at`
threw during one of them. The history goes on from the object as the exception left
it. -/
def runInput (events : List InputEvent) (s : FStreamInput) : FStreamInput × Bool :=
  events.foldl (fun acc e => ((e.step acc.1).state, acc.2 || (e.step acc.1).threw)) (s, false)

/-- The device ids of the registered controllers, in order. -/
def FStreamInput.deviceIds (s : FStreamInput) : List Nat :=
  s.m_xrControllers.map (fun c => c.deviceId)

/-- How an existing entry `c` relates to the entry `c2` that stands in its place after a
SOURCE_DETECTED for device `deviceId`: the entry of that device has its update data
replaced by `data`, every other entry is unchanged. -/
def onlyUpdateDataReplaced (deviceId : Nat) (data : StreamControllerUpdateData)
    (c c2 : StreamController) : Prop :=
  (c.deviceId ≠ deviceId ∧ c2 = c) ∨ (c.deviceId = deviceId ∧ c2 = { c with updateData := data })

/-! ### `FStreamInput::SendControllerEvents` -/

/-- Value of an enumerator of `IsarXRControllerFeatureKind`. -/
def IsarXRControllerFeatureKind.ofName (n : String) : Nat :=
  (lookupEnum n (enumValues IsarXRControllerFeatureKind_decl)).toNat

/-- Value of an enumerator of `IsarButtonType`. -/
def IsarButtonType.ofName (n : String) : Nat :=
  (lookupEnum n (enumValues IsarButtonType_decl)).toNat

/-- `FEnhancedActionKeyMapping`, reduced to what `SendControllerEvents` reads of it:
the action, `Action->ValueType == EInputActionValueType::Axis2D` and
`Key.GetFName().ToString().Contains("_X")`. -/
structure FEnhancedActionKeyMapping where
  Action : Nat
  actionIsAxis2D : Bool
  keyContains_X : Bool
deriving DecidableEq, Repr

/-- The two tables `streamToKeyName` and `streamToEnhancedActions` of a
`StreamController`, keyed by `IsarXRControllerFeatureKind`. -/
structure ControllerKeyTables where
  streamToKeyName : List (Nat × String)
  streamToEnhancedActions : List (Nat × List FEnhancedActionKeyMapping)
deriving DecidableEq, Repr

/-- `FInputActionValue`, built from a `bool`, a `float` or an `FVector2D`. -/
inductive FInputActionValue where
  | boolean (b : Bool)
  | axis1D (x : F32)
  | axis2D (x y : F32)
deriving DecidableEq, Repr

/-- What `SendControllerEvents` hands to the engine: an injected enhanced-input action or
a call on `m_messageHandler`. -/
inductive ControllerEvent where
  | InjectInputForAction (mapping : FEnhancedActionKeyMapping) (inputValue : FInputActionValue)
  | OnControllerButtonPressed (key : String)
  | OnControllerButtonReleased (key : String)
  | OnControllerAnalog (key : String) (value : F32)
deriving DecidableEq, Repr

/-- `value > 0.9f` on the bit pattern of a `float`: false for a NaN and for a value with
the sign bit set, otherwise the comparison of the patterns with that of `0.9f`. -/
def gt0_9 (value : F32) : Bool :=
  decide (value % 2 ^ 32 < 0x80000000) && decide (0x3F666666 < value % 2 ^ 32) &&
    decide (value % 2 ^ 32 ≤ 0x7F800000)

/-- Value of an enumerator of `IsarAxis1DType`. -/
def IsarAxis1DType.ofName (n : String) : Nat :=
  (lookupEnum n (enumValues IsarAxis1DType_decl)).toNat

/-- Value of an enumerator of `IsarAxis2DType`. -/
def IsarAxis2DType.ofName (n : String) : Nat :=
  (lookupEnum n (enumValues IsarAxis2DType_decl)).toNat

/-- Enhanced-actions path, buttons (`FStreamInput.cpp:415-422`): the feature kind is
`IsarXRControllerFeatureKind_DOCKED` for the two docked buttons, otherwise
`identifier + IsarXRControllerFeatureKind_BUTTON_HOME`, in `uint32_t`. -/
def enhancedButtonFeatureKind (identifier : Nat) : Nat :=
  if identifier == IsarButtonType.ofName "IsarButtonKind_DOCKED_LEFT" ||
     identifier == IsarButtonType.ofName "IsarButtonKind_DOCKED_RIGHT" then
    IsarXRControllerFeatureKind.ofName "IsarXRControllerFeatureKind_DOCKED"
  else
    (identifier + IsarXRControllerFeatureKind.ofName "IsarXRControllerFeatureKind_BUTTON_HOME")
      % 2 ^ 32

/-- Enhanced-actions path, first feature kind of an axis1D element
(`FStreamInput.cpp:452-453`). -/
def enhancedAxis1DPressKind (identifier : Nat) : Nat :=
  (identifier + IsarXRControllerFeatureKind.ofName
    "IsarXRControllerFeatureKind_BUTTON_PRIMARY_TRIGGER_PRESS") % 2 ^ 32

/-- Enhanced-actions path, second feature kind of an axis1D element
(`FStreamInput.cpp:479-480`). -/
def enhancedAxis1DKind (identifier : Nat) : Nat :=
  (identifier + IsarXRControllerFeatureKind.ofName
    "IsarXRControllerFeatureKind_AXIS1D_PRIMARY_TRIGGER") % 2 ^ 32

/-- Enhanced-actions path, feature kind of an axis2D element
(`FStreamInput.cpp:509-510`). -/
def enhancedAxis2DKind (identifier : Nat) : Nat :=
  (identifier + IsarXRControllerFeatureKind.ofName
    "IsarXRControllerFeatureKind_AXIS2D_PRIMARY_ANALOG_STICK") % 2 ^ 32

/-- Legacy path, buttons (`FStreamInput.cpp:549-556`). -/
def legacyButtonFeatureKind (identifier : Nat) : Nat :=
  if identifier == IsarButtonType.ofName "IsarButtonKind_DOCKED_LEFT" ||
     identifier == IsarButtonType.ofName "IsarButtonKind_DOCKED_RIGHT" then
    IsarXRControllerFeatureKind.ofName "IsarXRControllerFeatureKind_DOCKED"
  else
    (identifier + IsarXRControllerFeatureKind.ofName "IsarXRControllerFeatureKind_BUTTON_HOME")
      % 2 ^ 32

/-- Legacy path, first feature kind of an axis1D element (`FStreamInput.cpp:575-576`). -/
def legacyAxis1DPressKind (identifier : Nat) : Nat :=
  (identifier + IsarXRControllerFeatureKind.ofName
    "IsarXRControllerFeatureKind_BUTTON_PRIMARY_TRIGGER_PRESS") % 2 ^ 32

/-- Legacy path, second feature kind of an axis1D element (`FStreamInput.cpp:594-595`). -/
def legacyAxis1DKind (identifier : Nat) : Nat :=
  (identifier + IsarXRControllerFeatureKind.ofName
    "IsarXRControllerFeatureKind_AXIS1D_PRIMARY_TRIGGER") % 2 ^ 32

/-- Legacy path, feature kind of an axis2D element (`FStreamInput.cpp:604-605`). -/
def legacyAxis2DKind (identifier : Nat) : Nat :=
  (identifier + IsarXRControllerFeatureKind.ofName
    "IsarXRControllerFeatureKind_AXIS2D_PRIMARY_ANALOG_STICK") % 2 ^ 32

/-- `for (auto& mapping : controller.streamToEnhancedActions[featureKind])` with one
injection per mapping; nothing when the table does not contain `featureKind`. -/
def injectAll (tables : ControllerKeyTables) (featureKind : Nat)
    (inputValue : FEnhancedActionKeyMapping → FInputActionValue) : List ControllerEvent :=
  match tables.streamToEnhancedActions.lookup featureKind with
  | none => []
  | some mappings => mappings.map (fun m => ControllerEvent.InjectInputForAction m (inputValue m))

/-- The enhanced-actions branch of the loop body of `SendControllerEvents`. -/
def enhancedEvents (tables : ControllerKeyTables) (sourceData : StreamControllerUpdateData) :
    List ControllerEvent :=
  let buttons := sourceData.buttons.flatMap (fun b =>
    injectAll tables (enhancedButtonFeatureKind b.identifier)
      (fun _ => FInputActionValue.boolean b.value))
  let axis1D := sourceData.axis1D.flatMap (fun a =>
    injectAll tables (enhancedAxis1DPressKind a.identifier)
      (fun _ => FInputActionValue.boolean (gt0_9 a.value)) ++
    injectAll tables (enhancedAxis1DKind a.identifier)
      (fun _ => FInputActionValue.axis1D a.value))
  let axis2D := sourceData.axis2D.flatMap (fun a =>
    injectAll tables (enhancedAxis2DKind a.identifier)
      (fun m =>
        if m.actionIsAxis2D then FInputActionValue.axis2D a.value.x a.value.y
        else if m.keyContains_X then FInputActionValue.axis1D a.value.x
        else FInputActionValue.axis1D a.value.y))
  buttons ++ axis1D ++ axis2D

/-- The legacy loop over `sourceData.axis2D`: `m_2DAxisMap[…]` is `TMap::operator[]`,
which asserts that the key is present; the flag reports a failed assertion, which ends
the function. -/
def legacyAxis2D (tables : ControllerKeyTables) (m_2DAxisMap : List (String × String × String)) :
    List IsarAxis2D → List ControllerEvent × Bool
  | [] => ([], false)
  | a :: rest =>
    match tables.streamToKeyName.lookup (legacyAxis2DKind a.identifier) with
    | none => legacyAxis2D tables m_2DAxisMap rest
    | some key =>
      match m_2DAxisMap.lookup key with
      | none => ([], true)
      | some keyPair =>
        let r := legacyAxis2D tables m_2DAxisMap rest
        (ControllerEvent.OnControllerAnalog keyPair.1 a.value.x ::
          ControllerEvent.OnControllerAnalog keyPair.2 a.value.y :: r.1, r.2)

/-- The legacy branch of the loop body of `SendControllerEvents`. -/
def legacyEvents (tables : ControllerKeyTables) (m_2DAxisMap : List (String × String × String))
    (sourceData : StreamControllerUpdateData) : List ControllerEvent × Bool :=
  let buttons := sourceData.buttons.flatMap (fun b =>
    match tables.streamToKeyName.lookup (legacyButtonFeatureKind b.identifier) with
    | none => []
    | some key =>
      if b.value then [ControllerEvent.OnControllerButtonPressed key]
      else [ControllerEvent.OnControllerButtonReleased key])
  let axis1D := sourceData.axis1D.flatMap (fun a =>
    (match tables.streamToKeyName.lookup (legacyAxis1DPressKind a.identifier) with
     | none => []
     | some key =>
       if gt0_9 a.value then [ControllerEvent.OnControllerButtonPressed key]
       else [ControllerEvent.OnControllerButtonReleased key]) ++
    (match tables.streamToKeyName.lookup (legacyAxis1DKind a.identifier) with
     | none => []
     | some key => [ControllerEvent.OnControllerAnalog key a.value]))
  let axis2D := legacyAxis2D tables m_2DAxisMap sourceData.axis2D
  (buttons ++ axis1D ++ axis2D.1, axis2D.2)

/-- The events of one controller: the body of the loop of `SendControllerEvents` after
the tracking-state test. -/
def controllerEvents (useEnhancedActions : Bool) (tables : ControllerKeyTables)
    (m_2DAxisMap : List (String × String × String)) (controller : StreamController) :
    List ControllerEvent × Bool :=
  if useEnhancedActions then (enhancedEvents tables controller.updateData, false)
  else legacyEvents tables m_2DAxisMap controller.updateData

/-- The loop `for (auto& controller : m_xrControllers)` of `SendControllerEvents`: a
controller whose state is not `Tracking` makes the function `return`. `tablesOf` gives
the key tables of a controller, which `StreamController` does not carry here. -/
def sendControllerEventsLoop (useEnhancedActions : Bool)
    (tablesOf : StreamController → ControllerKeyTables)
    (m_2DAxisMap : List (String × String × String)) :
    List StreamController → List ControllerEvent × Bool
  | [] => ([], false)
  | controller :: rest =>
    if controller.state != ControllerTrackingState.Tracking then ([], false)
    else
      let r := controllerEvents useEnhancedActions (tablesOf controller) m_2DAxisMap controller
      if r.2 then r
      else
        let r2 := sendControllerEventsLoop useEnhancedActions tablesOf m_2DAxisMap rest
        (r.1 ++ r2.1, r2.2)

/-- `FStreamInput::SendControllerEvents`: the events handed to the engine, in order, and
whether the assertion of `m_2DAxisMap[…]` failed. -/
def FStreamInput.SendControllerEvents (tablesOf : StreamController → ControllerKeyTables)
    (m_2DAxisMap : List (String × String × String)) (s : FStreamInput) :
    List ControllerEvent × Bool :=
  if !s.m_connected then ([], false)
  else sendControllerEventsLoop s.m_useEnhancedActions tablesOf m_2DAxisMap s.m_xrControllers

/-! ### The key tables of `HandleInputSourceDetected`

An `FName` is kept as the C++ expression of the `FKey` it is taken from; the keys of
`StreamKeys.h` are declared with their identifier as name. -/

/-- One `case` group of the `switch (controller.controllerType)` of
`HandleInputSourceDetected`: the controller types of the labels and, for each `case` of
the inner `switch (controller.handedness)`, the `insert_or_assign` calls in order. -/
structure KeyCase where
  controllerTypes : List String
  hands : List (String × List (String × String))
deriving DecidableEq, Repr

/-- The group of `case IsarXRControllerType_Meta_Quest_2_Controller`. -/
def keyCase_Meta_Quest_2_Controller : KeyCase :=
  { controllerTypes :=
      ["IsarXRControllerType_Meta_Quest_2_Controller",
       "IsarXRControllerType_Meta_Quest_Pro_Controller",
       "IsarXRControllerType_Meta_Quest_3_Controller",
       "IsarXRControllerType_Meta_Quest_3S_Controller"],
    hands :=
      [("IsarSpatialInteractionSourceHandedness_LEFT",
        [("IsarXRControllerFeatureKind_BUTTON_MENU", "EKeys::OculusTouch_Left_Menu_Click"),
         ("IsarXRControllerFeatureKind_BUTTON_X", "EKeys::OculusTouch_Left_X_Click"),
         ("IsarXRControllerFeatureKind_BUTTON_Y", "EKeys::OculusTouch_Left_Y_Click"),
         ("IsarXRControllerFeatureKind_BUTTON_PRIMARY_THUMB_REST", "OculusTouch_Left_Thumbrest_Touch"),
         ("IsarXRControllerFeatureKind_BUTTON_PRIMARY_ANALOG_STICK_PRESS", "EKeys::OculusTouch_Left_Thumbstick_Click"),
         ("IsarXRControllerFeatureKind_AXIS2D_PRIMARY_ANALOG_STICK", "EKeys::OculusTouch_Left_Thumbstick_2D"),
         ("IsarXRControllerFeatureKind_BUTTON_PRIMARY_TRIGGER_PRESS", "EKeys::OculusTouch_Left_Trigger_Click"),
         ("IsarXRControllerFeatureKind_AXIS1D_PRIMARY_TRIGGER", "EKeys::OculusTouch_Left_Trigger_Axis"),
         ("IsarXRControllerFeatureKind_BUTTON_PRIMARY_SQUEEZE_PRESS", "EKeys::OculusTouch_Left_Grip_Click"),
         ("IsarXRControllerFeatureKind_AXIS1D_PRIMARY_SQUEEZE", "EKeys::OculusTouch_Left_Grip_Axis")]),
       ("IsarSpatialInteractionSourceHandedness_RIGHT",
        [("IsarXRControllerFeatureKind_BUTTON_A", "EKeys::OculusTouch_Right_A_Click"),
         ("IsarXRControllerFeatureKind_BUTTON_B", "EKeys::OculusTouch_Right_B_Click"),
         ("IsarXRControllerFeatureKind_BUTTON_SECONDARY_THUMB_REST", "OculusTouch_Right_Thumbrest_Touch"),
         ("IsarXRControllerFeatureKind_BUTTON_SECONDARY_ANALOG_STICK_PRESS", "EKeys::OculusTouch_Right_Thumbstick_Click"),
         ("IsarXRControllerFeatureKind_AXIS2D_SECONDARY_ANALOG_STICK", "EKeys::OculusTouch_Right_Thumbstick_2D"),
         ("IsarXRControllerFeatureKind_BUTTON_SECONDARY_TRIGGER_PRESS", "EKeys::OculusTouch_Right_Trigger_Click"),
         ("IsarXRControllerFeatureKind_AXIS1D_SECONDARY_TRIGGER", "EKeys::OculusTouch_Right_Trigger_Axis"),
         ("IsarXRControllerFeatureKind_BUTTON_SECONDARY_SQUEEZE_PRESS", "EKeys::OculusTouch_Right_Grip_Click"),
         ("IsarXRControllerFeatureKind_AXIS1D_SECONDARY_SQUEEZE", "EKeys::OculusTouch_Right_Grip_Axis")])] }

/-- The group of `case IsarXRControllerType_Magic_Leap_2_Controller`. -/
def keyCase_Magic_Leap_2_Controller : KeyCase :=
  { controllerTypes :=
      ["IsarXRControllerType_Magic_Leap_2_Controller"],
    hands :=
      [("IsarSpatialInteractionSourceHandedness_LEFT",
        [("IsarXRControllerFeatureKind_BUTTON_MENU", "MagicLeapController_Left_Menu_Click"),
         ("IsarXRControllerFeatureKind_BUTTON_PRIMARY_ANALOG_STICK_PRESS", "MagicLeapController_Left_Trackpad_Click"),
         ("IsarXRControllerFeatureKind_AXIS2D_PRIMARY_ANALOG_STICK", "MagicLeapController_Left_Trackpad_2D"),
         ("IsarXRControllerFeatureKind_BUTTON_PRIMARY_TRIGGER_PRESS", "MagicLeapController_Left_Trigger_Click"),
         ("IsarXRControllerFeatureKind_AXIS1D_PRIMARY_TRIGGER", "MagicLeapController_Left_Trigger_Axis"),
         ("IsarXRControllerFeatureKind_BUTTON_PRIMARY_BUMPER", "MagicLeapController_Left_Shoulder_Click")]),
       ("IsarSpatialInteractionSourceHandedness_RIGHT",
        [("IsarXRControllerFeatureKind_BUTTON_MENU", "MagicLeapController_Right_Menu_Click"),
         ("IsarXRControllerFeatureKind_BUTTON_SECONDARY_ANALOG_STICK_PRESS", "MagicLeapController_Right_Trackpad_Click"),
         ("IsarXRControllerFeatureKind_AXIS2D_SECONDARY_ANALOG_STICK", "MagicLeapController_Right_Trackpad_2D"),
         ("IsarXRControllerFeatureKind_BUTTON_SECONDARY_TRIGGER_PRESS", "MagicLeapController_Right_Trigger_Click"),
         ("IsarXRControllerFeatureKind_AXIS1D_SECONDARY_TRIGGER", "MagicLeapController_Right_Trigger_Axis"),
         ("IsarXRControllerFeatureKind_BUTTON_SECONDARY_BUMPER", "MagicLeapController_Right_Shoulder_Click")])] }

/-- The group of `case IsarXRControllerType_Lenovo_VRX_Controller`. -/
def keyCase_Lenovo_VRX_Controller : KeyCase :=
  { controllerTypes :=
      ["IsarXRControllerType_Lenovo_VRX_Controller"],
    hands :=
      [("IsarSpatialInteractionSourceHandedness_LEFT",
        [("IsarXRControllerFeatureKind_BUTTON_MENU", "LenovoVRXController_Left_Menu_Click"),
         ("IsarXRControllerFeatureKind_BUTTON_X", "LenovoVRXController_Left_X_Click"),
         ("IsarXRControllerFeatureKind_BUTTON_Y", "LenovoVRXController_Left_Y_Click"),
         ("IsarXRControllerFeatureKind_BUTTON_PRIMARY_THUMB_REST", "LenovoVRXController_Left_Thumbrest_Touch"),
         ("IsarXRControllerFeatureKind_BUTTON_PRIMARY_ANALOG_STICK_PRESS", "LenovoVRXController_Left_Thumbstick_Click"),
         ("IsarXRControllerFeatureKind_AXIS2D_PRIMARY_ANALOG_STICK", "LenovoVRXController_Left_Thumbstick_2D"),
         ("IsarXRControllerFeatureKind_BUTTON_PRIMARY_TRIGGER_PRESS", "LenovoVRXController_Left_Trigger_Click"),
         ("IsarXRControllerFeatureKind_AXIS1D_PRIMARY_TRIGGER", "LenovoVRXController_Left_Trigger_Axis"),
         ("IsarXRControllerFeatureKind_BUTTON_PRIMARY_SQUEEZE_PRESS", "LenovoVRXController_Left_Grip_Click"),
         ("IsarXRControllerFeatureKind_AXIS1D_PRIMARY_SQUEEZE", "LenovoVRXController_Left_Grip_Axis")]),
       ("IsarSpatialInteractionSourceHandedness_RIGHT",
        [("IsarXRControllerFeatureKind_BUTTON_MENU", "LenovoVRXController_Right_Menu_Click"),
         ("IsarXRControllerFeatureKind_BUTTON_A", "LenovoVRXController_Right_A_Click"),
         ("IsarXRControllerFeatureKind_BUTTON_B", "LenovoVRXController_Right_B_Click"),
         ("IsarXRControllerFeatureKind_BUTTON_SECONDARY_THUMB_REST", "LenovoVRXController_Right_Thumbrest_Touch"),
         ("IsarXRControllerFeatureKind_BUTTON_SECONDARY_ANALOG_STICK_PRESS", "LenovoVRXController_Right_Thumbstick_Click"),
         ("IsarXRControllerFeatureKind_AXIS2D_SECONDARY_ANALOG_STICK", "LenovoVRXController_Right_Thumbstick_2D"),
         ("IsarXRControllerFeatureKind_BUTTON_SECONDARY_TRIGGER_PRESS", "LenovoVRXController_Right_Trigger_Click"),
         ("IsarXRControllerFeatureKind_AXIS1D_SECONDARY_TRIGGER", "LenovoVRXController_Right_Trigger_Axis"),
         ("IsarXRControllerFeatureKind_BUTTON_SECONDARY_SQUEEZE_PRESS", "LenovoVRXController_Right_Grip_Click"),
         ("IsarXRControllerFeatureKind_AXIS1D_SECONDARY_SQUEEZE", "LenovoVRXController_Right_Grip_Axis")])] }

/-- The group of `case IsarXRControllerType_Logitech_MX_Ink_Stylus`. -/
def keyCase_Logitech_MX_Ink_Stylus : KeyCase :=
  { controllerTypes :=
      ["IsarXRControllerType_Logitech_MX_Ink_Stylus"],
    hands :=
      [("IsarSpatialInteractionSourceHandedness_LEFT",
        [("IsarXRControllerFeatureKind_BUTTON_X", "LogitechMXInk_Left_ClusterBack_Click"),
         ("IsarXRControllerFeatureKind_BUTTON_Y", "LogitechMXInk_Left_ClusterBack_DoubleTap"),
         ("IsarXRControllerFeatureKind_BUTTON_PRIMARY_THUMB_REST", "LogitechMXInk_Left_ClusterFront_Click"),
         ("IsarXRControllerFeatureKind_BUTTON_PRIMARY_ANALOG_STICK_PRESS", "LogitechMXInk_Left_ClusterFront_DoubleTap"),
         ("IsarXRControllerFeatureKind_BUTTON_PRIMARY_TRIGGER_PRESS", "LogitechMXInk_Left_ClusterMiddle_Click"),
         ("IsarXRControllerFeatureKind_AXIS1D_PRIMARY_TRIGGER", "LogitechMXInk_Left_ClusterMiddle_Axis"),
         ("IsarXRControllerFeatureKind_BUTTON_PRIMARY_SQUEEZE_PRESS", "LogitechMXInk_Left_Tip_Click"),
         ("IsarXRControllerFeatureKind_AXIS1D_PRIMARY_SQUEEZE", "LogitechMXInk_Left_Tip_Axis"),
         ("IsarXRControllerFeatureKind_DOCKED", "LogitechMXInk_Left_Docked_Click")]),
       ("IsarSpatialInteractionSourceHandedness_RIGHT",
        [("IsarXRControllerFeatureKind_BUTTON_A", "LogitechMXInk_Right_ClusterBack_Click"),
         ("IsarXRControllerFeatureKind_BUTTON_B", "LogitechMXInk_Right_ClusterBack_DoubleTap"),
         ("IsarXRControllerFeatureKind_BUTTON_SECONDARY_THUMB_REST", "LogitechMXInk_Right_ClusterFront_Click"),
         ("IsarXRControllerFeatureKind_BUTTON_SECONDARY_ANALOG_STICK_PRESS", "LogitechMXInk_Right_ClusterFront_DoubleTap"),
         ("IsarXRControllerFeatureKind_BUTTON_SECONDARY_TRIGGER_PRESS", "LogitechMXInk_Right_ClusterMiddle_Click"),
         ("IsarXRControllerFeatureKind_AXIS1D_SECONDARY_TRIGGER", "LogitechMXInk_Right_ClusterMiddle_Axis"),
         ("IsarXRControllerFeatureKind_BUTTON_SECONDARY_SQUEEZE_PRESS", "LogitechMXInk_Right_Tip_Click"),
         ("IsarXRControllerFeatureKind_AXIS1D_SECONDARY_SQUEEZE", "LogitechMXInk_Right_Tip_Axis"),
         ("IsarXRControllerFeatureKind_DOCKED", "LogitechMXInk_Right_Docked_Click")])] }

/-- The group of `case IsarXRControllerType_Pico_4_Ultra_Controller`. -/
def keyCase_Pico_4_Ultra_Controller : KeyCase :=
  { controllerTypes :=
      ["IsarXRControllerType_Pico_4_Ultra_Controller"],
    hands :=
      [("IsarSpatialInteractionSourceHandedness_LEFT",
        [("IsarXRControllerFeatureKind_BUTTON_MENU", "PICOTouch_Left_Menu_Click"),
         ("IsarXRControllerFeatureKind_BUTTON_X", "PICOTouch_Left_X_Click"),
         ("IsarXRControllerFeatureKind_BUTTON_Y", "PICOTouch_Left_Y_Click"),
         ("IsarXRControllerFeatureKind_BUTTON_PRIMARY_THUMB_REST", "PICOTouch_Left_Thumbrest_Touch"),
         ("IsarXRControllerFeatureKind_BUTTON_PRIMARY_ANALOG_STICK_PRESS", "PICOTouch_Left_Thumbstick_Click"),
         ("IsarXRControllerFeatureKind_AXIS2D_PRIMARY_ANALOG_STICK", "PICOTouch_Left_Thumbstick_2D"),
         ("IsarXRControllerFeatureKind_BUTTON_PRIMARY_TRIGGER_PRESS", "PICOTouch_Left_Trigger_Click"),
         ("IsarXRControllerFeatureKind_AXIS1D_PRIMARY_TRIGGER", "PICOTouch_Left_Trigger_Axis"),
         ("IsarXRControllerFeatureKind_BUTTON_PRIMARY_SQUEEZE_PRESS", "PICOTouch_Left_Grip_Click"),
         ("IsarXRControllerFeatureKind_AXIS1D_PRIMARY_SQUEEZE", "PICOTouch_Left_Grip_Axis")]),
       ("IsarSpatialInteractionSourceHandedness_RIGHT",
        [("IsarXRControllerFeatureKind_BUTTON_A", "PICOTouch_Right_A_Click"),
         ("IsarXRControllerFeatureKind_BUTTON_B", "PICOTouch_Right_B_Click"),
         ("IsarXRControllerFeatureKind_BUTTON_SECONDARY_THUMB_REST", "PICOTouch_Right_Thumbrest_Touch"),
         ("IsarXRControllerFeatureKind_BUTTON_SECONDARY_ANALOG_STICK_PRESS", "PICOTouch_Right_Thumbstick_Click"),
         ("IsarXRControllerFeatureKind_AXIS2D_SECONDARY_ANALOG_STICK", "PICOTouch_Right_Thumbstick_2D"),
         ("IsarXRControllerFeatureKind_BUTTON_SECONDARY_TRIGGER_PRESS", "PICOTouch_Right_Trigger_Click"),
         ("IsarXRControllerFeatureKind_AXIS1D_SECONDARY_TRIGGER", "PICOTouch_Right_Trigger_Axis"),
         ("IsarXRControllerFeatureKind_BUTTON_SECONDARY_SQUEEZE_PRESS", "PICOTouch_Right_Grip_Click"),
         ("IsarXRControllerFeatureKind_AXIS1D_SECONDARY_SQUEEZE", "PICOTouch_Right_Grip_Axis")])] }

/-- The group of `case IsarXRControllerType_HTC_Vive_Focus_3_Controller`. -/
def keyCase_HTC_Vive_Focus_3_Controller : KeyCase :=
  { controllerTypes :=
      ["IsarXRControllerType_HTC_Vive_Focus_3_Controller",
       "IsarXRControllerType_HTC_Vive_Focus_Vision_Controller",
       "IsarXRControllerType_HTC_Vive_XR_Elite_Controller"],
    hands :=
      [("IsarSpatialInteractionSourceHandedness_LEFT",
        [("IsarXRControllerFeatureKind_BUTTON_MENU", "Focus3_Left_Menu_Click"),
         ("IsarXRControllerFeatureKind_BUTTON_X", "Focus3_Left_X_Click"),
         ("IsarXRControllerFeatureKind_BUTTON_Y", "Focus3_Left_Y_Click"),
         ("IsarXRControllerFeatureKind_BUTTON_PRIMARY_THUMB_REST", "Focus3_Left_Thumbrest_Touch"),
         ("IsarXRControllerFeatureKind_BUTTON_PRIMARY_ANALOG_STICK_PRESS", "Focus3_Left_Thumbstick_Click"),
         ("IsarXRControllerFeatureKind_AXIS2D_PRIMARY_ANALOG_STICK", "Focus3_Left_Thumbstick_2D"),
         ("IsarXRControllerFeatureKind_BUTTON_PRIMARY_TRIGGER_PRESS", "Focus3_Left_Trigger_Click"),
         ("IsarXRControllerFeatureKind_AXIS1D_PRIMARY_TRIGGER", "Focus3_Left_Trigger_Axis"),
         ("IsarXRControllerFeatureKind_BUTTON_PRIMARY_SQUEEZE_PRESS", "Focus3_Left_Grip_Click"),
         ("IsarXRControllerFeatureKind_AXIS1D_PRIMARY_SQUEEZE", "Focus3_Left_Grip_Axis")]),
       ("IsarSpatialInteractionSourceHandedness_RIGHT",
        [("IsarXRControllerFeatureKind_BUTTON_A", "Focus3_Right_A_Click"),
         ("IsarXRControllerFeatureKind_BUTTON_B", "Focus3_Right_B_Click"),
         ("IsarXRControllerFeatureKind_BUTTON_SECONDARY_THUMB_REST", "Focus3_Right_Thumbrest_Touch"),
         ("IsarXRControllerFeatureKind_BUTTON_SECONDARY_ANALOG_STICK_PRESS", "Focus3_Right_Thumbstick_Click"),
         ("IsarXRControllerFeatureKind_AXIS2D_SECONDARY_ANALOG_STICK", "Focus3_Right_Thumbstick_2D"),
         ("IsarXRControllerFeatureKind_BUTTON_SECONDARY_TRIGGER_PRESS", "Focus3_Right_Trigger_Click"),
         ("IsarXRControllerFeatureKind_AXIS1D_SECONDARY_TRIGGER", "Focus3_Right_Trigger_Axis"),
         ("IsarXRControllerFeatureKind_BUTTON_SECONDARY_SQUEEZE_PRESS", "Focus3_Right_Grip_Click"),
         ("IsarXRControllerFeatureKind_AXIS1D_SECONDARY_SQUEEZE", "Focus3_Right_Grip_Axis")])] }

/-- The group of `case IsarXRControllerType_HoloLens_Hands`. -/
def keyCase_HoloLens_Hands : KeyCase :=
  { controllerTypes :=
      ["IsarXRControllerType_HoloLens_Hands",
       "IsarXRControllerType_Meta_Quest_Hands",
       "IsarXRControllerType_Magic_Leap_2_Hands",
       "IsarXRControllerType_Lenovo_VRX_Hands",
       "IsarXRControllerType_Pico_4_Ultra_Hands",
       "IsarXRControllerType_HTC_Vive_Focus_Hands",
       "IsarXRControllerType_Apple_Vision_Pro_Hands"],
    hands :=
      [("IsarSpatialInteractionSourceHandedness_LEFT",
        [("IsarXRControllerFeatureKind_BUTTON_MENU", "HololightStreamHand_Left_Menu_Click"),
         ("IsarXRControllerFeatureKind_BUTTON_PRIMARY_TRIGGER_PRESS", "HololightStreamHand_Left_Select_Click"),
         ("IsarXRControllerFeatureKind_AXIS1D_PRIMARY_TRIGGER", "HololightStreamHand_Left_Select_Axis"),
         ("IsarXRControllerFeatureKind_BUTTON_PRIMARY_SQUEEZE_PRESS", "HololightStreamHand_Left_Grip_Click"),
         ("IsarXRControllerFeatureKind_AXIS1D_PRIMARY_SQUEEZE", "HololightStreamHand_Left_Grip_Axis")]),
       ("IsarSpatialInteractionSourceHandedness_RIGHT",
        [("IsarXRControllerFeatureKind_BUTTON_MENU", "HololightStreamHand_Right_Menu_Click"),
         ("IsarXRControllerFeatureKind_BUTTON_SECONDARY_TRIGGER_PRESS", "HololightStreamHand_Right_Select_Click"),
         ("IsarXRControllerFeatureKind_AXIS1D_SECONDARY_TRIGGER", "HololightStreamHand_Right_Select_Axis"),
         ("IsarXRControllerFeatureKind_BUTTON_SECONDARY_SQUEEZE_PRESS", "HololightStreamHand_Right_Grip_Click"),
         ("IsarXRControllerFeatureKind_AXIS1D_SECONDARY_SQUEEZE", "HololightStreamHand_Right_Grip_Axis")])] }

/-- The `case` groups of the `switch (controller.controllerType)`, in source order. -/
def keyCases : List KeyCase :=
  [keyCase_Meta_Quest_2_Controller, keyCase_Magic_Leap_2_Controller, keyCase_Lenovo_VRX_Controller, keyCase_Logitech_MX_Ink_Stylus,
   keyCase_Pico_4_Ultra_Controller, keyCase_HTC_Vive_Focus_3_Controller, keyCase_HoloLens_Hands]

/-- `featureToKeyMap.insert_or_assign(feature, key)`. -/
def insert_or_assign (m : List (Nat × String)) (feature : Nat) (key : String) :
    List (Nat × String) :=
  m.filter (fun e => e.1 != feature) ++ [(feature, key)]

/-- Value of an enumerator of `IsarSpatialInteractionSourceHandedness`. -/
def IsarSpatialInteractionSourceHandedness.ofName (n : String) : Nat :=
  (lookupEnum n (enumValues IsarSpatialInteractionSourceHandedness_decl)).toNat

/-- The table `streamToKeyName` that `HandleInputSourceDetected` builds for a controller
of the given type and handedness: empty when no `case` of the outer or of the inner
switch matches (`default: break;`). -/
def streamToKeyNameOf (controllerType handedness : Nat) : List (Nat × String) :=
  match keyCases.find? (fun c =>
      c.controllerTypes.any (fun n => IsarXRControllerType.ofName n == controllerType)) with
  | none => []
  | some c =>
    match c.hands.find? (fun h =>
        IsarSpatialInteractionSourceHandedness.ofName h.1 == handedness) with
    | none => []
    | some h =>
      h.2.foldl (fun m e => insert_or_assign m (IsarXRControllerFeatureKind.ofName e.1) e.2) []

/-- The key tables of a controller on the legacy input path, where `MapEnhancedActions`
is not called and `streamToEnhancedActions` stays empty. -/
def legacyTablesOf (controller : StreamController) : ControllerKeyTables :=
  { streamToKeyName := streamToKeyNameOf controller.controllerType controller.handedness,
    streamToEnhancedActions := [] }

/-- The map `m_2DAxisMap` as the constructor `FStreamInput::FStreamInput` fills it: the
2D key and its pair of 1D keys. -/
def m_2DAxisMap_initial : List (String × String × String) :=
  [ ("EKeys::OculusTouch_Left_Thumbstick_2D",
      "EKeys::OculusTouch_Left_Thumbstick_X", "EKeys::OculusTouch_Left_Thumbstick_Y"),
    ("EKeys::OculusTouch_Right_Thumbstick_2D",
      "EKeys::OculusTouch_Right_Thumbstick_X", "EKeys::OculusTouch_Right_Thumbstick_Y"),
    ("MagicLeapController_Left_Trackpad_2D",
      "MagicLeapController_Left_Trackpad_X", "MagicLeapController_Left_Trackpad_Y"),
    ("MagicLeapController_Right_Trackpad_2D",
      "MagicLeapController_Right_Trackpad_X", "MagicLeapController_Right_Trackpad_Y"),
    ("LenovoVRXController_Left_Thumbstick_2D",
      "LenovoVRXController_Left_Thumbstick_X", "LenovoVRXController_Left_Thumbstick_Y"),
    ("LenovoVRXController_Right_Thumbstick_2D",
      "LenovoVRXController_Right_Thumbstick_X", "LenovoVRXController_Right_Thumbstick_Y"),
    ("PICOTouch_Left_Thumbstick_2D", "PICOTouch_Left_Thumbstick_X", "PICOTouch_Left_Thumbstick_Y"),
    ("PICOTouch_Right_Thumbstick_2D",
      "PICOTouch_Right_Thumbstick_X", "PICOTouch_Right_Thumbstick_Y"),
    ("Focus3_Left_Thumbstick_2D", "Focus3_Left_Thumbstick_X", "Focus3_Left_Thumbstick_Y"),
    ("Focus3_Right_Thumbstick_2D", "Focus3_Right_Thumbstick_X", "Focus3_Right_Thumbstick_Y") ]

/-- The `IsarAxis2DType` identifiers below `IsarAxis2DKind_COUNT`. -/
def axis2DIdentifiers : List Nat :=
  List.range (IsarAxis2DType.ofName "IsarAxis2DKind_COUNT")

/-- The feature kinds named `IsarXRControllerFeatureKind_AXIS2D_…`. -/
def axis2DFeatureKinds : List Nat :=
  ((enumValues IsarXRControllerFeatureKind_decl).filter
    (fun e => "IsarXRControllerFeatureKind_AXIS2D_".data.isPrefixOf e.1.data)).map
    (fun e => e.2.toNat)

/-- The keys the legacy axis2D loop looks up in `m_2DAxisMap` for a controller of the
given type and handedness, over the identifiers below `IsarAxis2DKind_COUNT`. -/
def axis2DLookups (controllerType handedness : Nat) : List String :=
  axis2DIdentifiers.filterMap (fun identifier =>
    (streamToKeyNameOf controllerType handedness).lookup (legacyAxis2DKind identifier))

/-- The enumerators of `IsarButtonType` below `IsarButtonKind_COUNT`, each with the
feature kind of the same control in `IsarXRControllerFeatureKind` (the button enum says
LEFT and RIGHT where the feature enum says PRIMARY and SECONDARY). -/
def buttonFeatureNames : List (String × String) :=
  [ ("IsarButtonKind_HOME", "IsarXRControllerFeatureKind_BUTTON_HOME"),
    ("IsarButtonKind_MENU", "IsarXRControllerFeatureKind_BUTTON_MENU"),
    ("IsarButtonKind_SETTINGS", "IsarXRControllerFeatureKind_BUTTON_SETTINGS"),
    ("IsarButtonKind_A", "IsarXRControllerFeatureKind_BUTTON_A"),
    ("IsarButtonKind_B", "IsarXRControllerFeatureKind_BUTTON_B"),
    ("IsarButtonKind_X", "IsarXRControllerFeatureKind_BUTTON_X"),
    ("IsarButtonKind_Y", "IsarXRControllerFeatureKind_BUTTON_Y"),
    ("IsarButtonKind_BUMPER_LEFT", "IsarXRControllerFeatureKind_BUTTON_PRIMARY_BUMPER"),
    ("IsarButtonKind_BUMPER_RIGHT", "IsarXRControllerFeatureKind_BUTTON_SECONDARY_BUMPER"),
    ("IsarButtonKind_LEFT_STICK_PRESS",
      "IsarXRControllerFeatureKind_BUTTON_PRIMARY_ANALOG_STICK_PRESS"),
    ("IsarButtonKind_RIGHT_STICK_PRESS",
      "IsarXRControllerFeatureKind_BUTTON_SECONDARY_ANALOG_STICK_PRESS"),
    ("IsarAxis2DKind_PRIMARY_THUMB_REST", "IsarXRControllerFeatureKind_BUTTON_PRIMARY_THUMB_REST"),
    ("IsarAxis2DKind_SECONDARY_THUMB_REST",
      "IsarXRControllerFeatureKind_BUTTON_SECONDARY_THUMB_REST"),
    ("IsarButtonKind_DOCKED_LEFT", "IsarXRControllerFeatureKind_DOCKED"),
    ("IsarButtonKind_DOCKED_RIGHT", "IsarXRControllerFeatureKind_DOCKED") ]

/-- The enumerators of `IsarAxis1DType` below `IsarAxis1DKind_COUNT`, each with the
press button and the axis of the same control in `IsarXRControllerFeatureKind`. -/
def axis1DFeatureNames : List (String × String × String) :=
  [ ("IsarAxis1DKind_PRIMARY_TRIGGER",
      "IsarXRControllerFeatureKind_BUTTON_PRIMARY_TRIGGER_PRESS",
      "IsarXRControllerFeatureKind_AXIS1D_PRIMARY_TRIGGER"),
    ("IsarAxis1DKind_SECONARDY_TRIGGER",
      "IsarXRControllerFeatureKind_BUTTON_SECONDARY_TRIGGER_PRESS",
      "IsarXRControllerFeatureKind_AXIS1D_SECONDARY_TRIGGER"),
    ("IsarAxis1DKind_PRIMARY_SQUEEZE",
      "IsarXRControllerFeatureKind_BUTTON_PRIMARY_SQUEEZE_PRESS",
      "IsarXRControllerFeatureKind_AXIS1D_PRIMARY_SQUEEZE"),
    ("IsarAxis1DKind_SECONDARY_SQUEEZE",
      "IsarXRControllerFeatureKind_BUTTON_SECONDARY_SQUEEZE_PRESS",
      "IsarXRControllerFeatureKind_AXIS1D_SECONDARY_SQUEEZE") ]

/-! ## Coordinate conversions (`StreamCore.h`)

The conversions are written once, over any number type with the operations they use, so
that they can be read both on `float` bit patterns and in exact arithmetic. -/

/-- `XrVector3f` and `IsarVector3` over the number type `α`. -/
structure Vector3 (α : Type) where
  x : α
  y : α
  z : α
deriving DecidableEq, Repr

/-- `XrQuaternionf` and `IsarQuaternion` over the number type `α`. -/
structure Quaternion (α : Type) where
  x : α
  y : α
  z : α
  w : α
deriving DecidableEq, Repr

/-- `FVector` over the number type `α`. -/
structure FVector (α : Type) where
  X : α
  Y : α
  Z : α
deriving DecidableEq, Repr

/-- `FQuat` over the number type `α`. -/
structure FQuat (α : Type) where
  X : α
  Y : α
  Z : α
  W : α
deriving DecidableEq, Repr

/-- `ToFQuat(Quat)`: `FQuat(-Quat.z, Quat.x, Quat.y, -Quat.w)`. -/
def ToFQuat {α : Type} [Neg α] (Quat : Quaternion α) : FQuat α :=
  ⟨-Quat.z, Quat.x, Quat.y, -Quat.w⟩

/-- `ToXrQuat(Quat)`: `XrQuaternionf{ Quat.Y, Quat.Z, -Quat.X, -Quat.W }`. -/
def ToXrQuat {α : Type} [Neg α] (Quat : FQuat α) : Quaternion α :=
  ⟨Quat.Y, Quat.Z, -Quat.X, -Quat.W⟩

/-- `ToFVector(Vector, Scale)`:
`FVector(-Vector.z * Scale, Vector.x * Scale, Vector.y * Scale)`. -/
def ToFVector {α : Type} [Neg α] [Mul α] (Vector : Vector3 α) (Scale : α) : FVector α :=
  ⟨-Vector.z * Scale, Vector.x * Scale, Vector.y * Scale⟩

/-- `ToXrVector(Vector, Scale)`: the zero vector when `Vector.IsZero()`, otherwise
`XrVector3f{ Vector.Y / Scale, Vector.Z / Scale, -Vector.X / Scale }`. -/
def ToXrVector {α : Type} [Neg α] [Div α] [Zero α] [DecidableEq α] (Vector : FVector α)
    (Scale : α) : Vector3 α :=
  if Vector.X = 0 ∧ Vector.Y = 0 ∧ Vector.Z = 0 then ⟨0, 0, 0⟩
  else ⟨Vector.Y / Scale, Vector.Z / Scale, -Vector.X / Scale⟩

/-- The squared norm `x^2 + y^2 + z^2 + w^2` of a quaternion. -/
def Quaternion.normSq {α : Type} [Add α] [Mul α] (q : Quaternion α) : α :=
  q.x * q.x + q.y * q.y + q.z * q.z + q.w * q.w

/-- The squared norm `X^2 + Y^2 + Z^2 + W^2` of an `FQuat`. -/
def FQuat.normSq {α : Type} [Add α] [Mul α] (q : FQuat α) : α :=
  q.X * q.X + q.Y * q.Y + q.Z * q.Z + q.W * q.W

/-- Negation of a `float`, on its bit pattern: the sign bit is flipped. -/
def fneg (x : F32) : F32 :=
  if x % 2 ^ 32 < 2 ^ 31 then x % 2 ^ 32 + 2 ^ 31 else x % 2 ^ 32 - 2 ^ 31

/-- `1.0f`. -/
def f1_0 : F32 := 0x3F800000

/-- `ToFVector(isar::IsarVector3 Vector, float Scale = 1.0f)` on bit patterns; `mul` is the
`float` multiplication, which is not computed here. -/
def ToFVector_f32 (mul : F32 → F32 → F32) (Vector : IsarVector3) (Scale : F32) : FVector F32 :=
  @ToFVector F32 ⟨fneg⟩ ⟨mul⟩ ⟨Vector.x, Vector.y, Vector.z⟩ Scale

/-- `ToFQuat(isar::IsarQuaternion Quat)` on bit patterns. -/
def ToFQuat_f32 (Quat : IsarQuaternion) : FQuat F32 :=
  @ToFQuat F32 ⟨fneg⟩ ⟨Quat.x, Quat.y, Quat.z, Quat.w⟩

/-! ### `FStreamInput::GetAllKeypointStates` -/

/-- `EControllerHand::Left` of the engine, by its underlying value. -/
def EControllerHand_Left : Int := 0
/-- `EControllerHand::Right` of the engine, by its underlying value. -/
def EControllerHand_Right : Int := 1

/-- `IsarXRControllerFeatureKind_HAND_LITTLE_TIP`, the last index of the keypoint loop. -/
def IsarXRControllerFeatureKind_HAND_LITTLE_TIP : Nat :=
  IsarXRControllerFeatureKind.ofName "IsarXRControllerFeatureKind_HAND_LITTLE_TIP"

/-- The reads `jointPoses[i]` for the indices `i` in order; `none` when one of them lies
outside the array. -/
def readJoints (jointPoses : List IsarJointPose) : List Nat → Option (List IsarJointPose)
  | [] => some []
  | i :: rest =>
    match jointPoses[i]?, readJoints jointPoses rest with
    | some joint, some joints => some (joint :: joints)
    | _, _ => none

/-- The controller `GetAllKeypointStates` picks: the first tracked hand of the asked
side, `none` for `it == m_xrControllers.end()`. -/
def FStreamInput.findHand (hand : Int) (s : FStreamInput) : Option StreamController :=
  if hand = EControllerHand_Left then
    s.m_xrControllers.find? (fun controller =>
      controller.deviceType == TrackedDeviceType.Hand &&
        controller.handedness == IsarSpatialInteractionSourceHandedness_LEFT)
  else if hand = EControllerHand_Right then
    s.m_xrControllers.find? (fun controller =>
      controller.deviceType == TrackedDeviceType.Hand &&
        controller.handedness == IsarSpatialInteractionSourceHandedness_RIGHT)
  else none

/-- `FStreamInput::GetAllKeypointStates(hand, outPositions, outRotations, outRadii)`: the
returned `bool` and the three arrays after the call; `none` when the loop reads outside
`jointPoses`. `mul` is the `float` multiplication. -/
def FStreamInput.GetAllKeypointStates (mul : F32 → F32 → F32) (hand : Int)
    (outPositions : List (FVector F32)) (outRotations : List (FQuat F32)) (outRadii : List F32)
    (s : FStreamInput) :
    Option (Bool × List (FVector F32) × List (FQuat F32) × List F32) :=
  if !s.m_connected then some (false, outPositions, outRotations, outRadii)
  else
    match s.findHand hand with
    | none => some (false, outPositions, outRotations, outRadii)
    | some it =>
      if it.state != ControllerTrackingState.Tracking then
        some (false, outPositions, outRotations, outRadii)
      else
        match readJoints it.updateData.handData.jointPoses
            (List.range (IsarXRControllerFeatureKind_HAND_LITTLE_TIP + 1)) with
        | none => none
        | some joints =>
          some (true, joints.map (fun joint => ToFVector_f32 mul joint.position f1_0),
                joints.map (fun joint => ToFQuat_f32 joint.orientation),
                joints.map (fun joint => joint.radius))

/-! ## FStreamMicrophoneCaptureStream (`FStreamMicrophoneCaptureStream.cpp`) -/

/-- The members of `FStreamMicrophoneCaptureStream` the track logic reads and writes.
`m_onCaptureCallback` is kept as "set or null", `m_streamTime` as the number of
`m_streamTime += 0.01` steps taken. -/
structure FStreamMicrophoneCaptureStream where
  m_connected : Bool
  m_streamConnection : Nat
  m_isStreamOpen : Bool
  m_isCapturing : Bool
  m_isTrackOpen : Bool
  m_startMicrophoneOnConnection : Bool
  m_streamTime : Nat
  m_onCaptureCallback : Bool
deriving DecidableEq, Repr

/-- A call `m_serverApi->setMicrophoneCaptureEnabled(connection, enabled)` with the error
it returned. -/
structure MicCall where
  connection : Nat
  enabled : Bool
  err : IsarError
deriving DecidableEq, Repr

/-- The object after the member initialisers of the constructor, before the constructor
body runs. -/
def FStreamMicrophoneCaptureStream.initial : FStreamMicrophoneCaptureStream :=
  { m_connected := false, m_streamConnection := 0, m_isStreamOpen := false,
    m_isCapturing := false, m_isTrackOpen := false, m_startMicrophoneOnConnection := false,
    m_streamTime := 0, m_onCaptureCallback := false }

/-- `FStreamMicrophoneCaptureStream::OpenTrack`; `err` is what
`setMicrophoneCaptureEnabled` returns if it is called. -/
def FStreamMicrophoneCaptureStream.OpenTrack (err : IsarError)
    (s : FStreamMicrophoneCaptureStream) :
    Bool × FStreamMicrophoneCaptureStream × List MicCall :=
  if s.m_isTrackOpen then (true, s, [])
  else if !s.m_connected then (true, { s with m_startMicrophoneOnConnection := true }, [])
  else if err != eNone then (false, s, [⟨s.m_streamConnection, true, err⟩])
  else (true, { s with m_isTrackOpen := true }, [⟨s.m_streamConnection, true, err⟩])

/-- `FStreamMicrophoneCaptureStream::CloseTrack`. -/
def FStreamMicrophoneCaptureStream.CloseTrack (err : IsarError)
    (s : FStreamMicrophoneCaptureStream) :
    Bool × FStreamMicrophoneCaptureStream × List MicCall :=
  if !s.m_isTrackOpen then (true, s, [])
  else if err != eNone then (false, s, [⟨s.m_streamConnection, false, err⟩])
  else (true, { s with m_isTrackOpen := false, m_startMicrophoneOnConnection := false },
        [⟨s.m_streamConnection, false, err⟩])

/-- `FStreamMicrophoneCaptureStream::StartStream`. -/
def FStreamMicrophoneCaptureStream.StartStream (err : IsarError)
    (s : FStreamMicrophoneCaptureStream) :
    Bool × FStreamMicrophoneCaptureStream × List MicCall :=
  let r := s.OpenTrack err
  if !r.1 then (false, r.2.1, r.2.2)
  else (true, { r.2.1 with m_isCapturing := true }, r.2.2)

/-- `FStreamMicrophoneCaptureStream::StopStream`. -/
def FStreamMicrophoneCaptureStream.StopStream (err : IsarError)
    (s : FStreamMicrophoneCaptureStream) :
    Bool × FStreamMicrophoneCaptureStream × List MicCall :=
  let r := s.CloseTrack err
  if !r.1 then (false, r.2.1, r.2.2)
  else (true, { r.2.1 with m_isCapturing := false }, r.2.2)

/-- `FStreamMicrophoneCaptureStream::OnConnectionStateChanged`. -/
def FStreamMicrophoneCaptureStream.OnConnectionStateChanged (err : IsarError) (newState : Int)
    (s : FStreamMicrophoneCaptureStream) : FStreamMicrophoneCaptureStream × List MicCall :=
  if newState == IsarConnectionState_CONNECTED then
    let s := { s with m_connected := true }
    if !s.m_isTrackOpen && s.m_startMicrophoneOnConnection then
      if err != eNone then (s, [⟨s.m_streamConnection, true, err⟩])
      else ({ s with m_isTrackOpen := true }, [⟨s.m_streamConnection, true, err⟩])
    else (s, [])
  else
    let s := { s with m_connected := false }
    if newState == IsarConnectionState_DISCONNECTED || newState == IsarConnectionState_CLOSING then
      let s := if s.m_isTrackOpen then { s with m_startMicrophoneOnConnection := true } else s
      ({ s with m_isTrackOpen := false }, [])
    else (s, [])

/-- One thing that happens to an `FStreamMicrophoneCaptureStream`; each call carries the
error `setMicrophoneCaptureEnabled` returns if the call reaches it. -/
inductive MicEvent where
  | openTrack (err : IsarError)
  | closeTrack (err : IsarError)
  | startStream (err : IsarError)
  | stopStream (err : IsarError)
  | connectionState (err : IsarError) (newState : Int)
deriving DecidableEq, Repr

/-- One event applied to the object: the object after it and the library calls made. -/
def MicEvent.step (e : MicEvent) (s : FStreamMicrophoneCaptureStream) :
    FStreamMicrophoneCaptureStream × List MicCall :=
  match e with
  | .openTrack err => (s.OpenTrack err).2
  | .closeTrack err => (s.CloseTrack err).2
  | .startStream err => (s.StartStream err).2
  | .stopStream err => (s.StopStream err).2
  | .connectionState err newState => s.OnConnectionStateChanged err newState

/-- The object after a history of events, oldest first, and all library calls made. -/
def runMic (events : List MicEvent) (s : FStreamMicrophoneCaptureStream) :
    FStreamMicrophoneCaptureStream × List MicCall :=
  events.foldl (fun acc e => ((e.step acc.1).1, acc.2 ++ (e.step acc.1).2)) (s, [])

/-- The state carried by a connection-state notification. -/
def MicEvent.notified : MicEvent → Option Int
  | .connectionState _ newState => some newState
  | _ => none

/-- The state of the most recent connection-state notification of a history. -/
def lastMicNotification (events : List MicEvent) : Option Int :=
  (events.filterMap MicEvent.notified).getLast?

/-- `FStreamMicrophoneCaptureStream::SetStreamApi(connection, serverApi)` with a non-null
API, as far as the members kept here go (the callbacks it registers are not kept). -/
def FStreamMicrophoneCaptureStream.SetStreamApi (connection : Nat)
    (s : FStreamMicrophoneCaptureStream) : FStreamMicrophoneCaptureStream :=
  { s with m_streamConnection := connection }

/-- `FStreamMicrophoneCaptureStream::SetConnected`. -/
def FStreamMicrophoneCaptureStream.SetConnected (connected : Bool)
    (s : FStreamMicrophoneCaptureStream) : FStreamMicrophoneCaptureStream :=
  { s with m_connected := connected }

/-- The constructor of `FStreamMicrophoneCaptureStream`: the member initialisers, then
`streamHMD->SetMicrophoneCaptureStream(this)` on the engine's XR system if there is one
(`xrSystem`), which, once the connection has been created, runs `SetStreamApi` and
`SetConnected(m_connected)` on the new object (`FStreamHMD.cpp:2366-2369`). What the call
does to the XR system itself and to an earlier microphone stream is not kept. -/
def FStreamMicrophoneCaptureStream.construct (xrSystem : Option FStreamHMD) :
    FStreamMicrophoneCaptureStream :=
  match xrSystem with
  | none => FStreamMicrophoneCaptureStream.initial
  | some streamHMD =>
    if !streamHMD.m_connectionCreated then FStreamMicrophoneCaptureStream.initial
    else
      (FStreamMicrophoneCaptureStream.initial.SetStreamApi
        streamHMD.m_streamConnection).SetConnected streamHMD.m_connected

/-- What is known of the track in a state `s` reached by a history whose most recent
notification is `last`: the track is marked open only while the connection is marked
connected or after a notification that is neither CONNECTED, DISCONNECTED nor CLOSING. -/
def trackOpenInvariant (s : FStreamMicrophoneCaptureStream) (last : Option Int) : Prop :=
  s.m_isTrackOpen = true →
    s.m_connected = true ∨
    ∃ n, last = some n ∧ n ≠ IsarConnectionState_CONNECTED ∧
      n ≠ IsarConnectionState_DISCONNECTED ∧ n ≠ IsarConnectionState_CLOSING

/-! ### `FStreamMicrophoneCaptureStream::OnMicrophoneCapture` -/

/-- `struct IsarAudioData` (`types.h`); `data` is the memory behind the pointer, read as
16-bit words. -/
structure IsarAudioData where
  data : List Nat
  bitsPerSample : Int
  sampleRate : Int
  numberOfChannels : Nat
  samplesPerChannel : Nat
deriving DecidableEq, Repr

/-- The engine's `MAX_int16`. -/
def MAX_int16 : Nat := 0x7fff

/-- `FStreamMicrophoneCaptureStream::NUM_CHANNELS`. -/
def NUM_CHANNELS : Int := 1

/-- `FStreamMicrophoneCaptureStream::SAMPLE_RATE`. -/
def MIC_SAMPLE_RATE : Int := 48000

/-- A 16-bit word read as `int16_t`. -/
def toI16 (w : Nat) : Int :=
  if w % 2 ^ 16 < 2 ^ 15 then ((w % 2 ^ 16 : Nat) : Int) else ((w % 2 ^ 16 : Nat) : Int) - 2 ^ 16

/-- The integer part of the binary logarithm of `n`, by halving at most `fuel` times. -/
def log2Fuel : Nat → Nat → Nat
  | 0, _ => 0
  | fuel + 1, n => if 2 ≤ n then log2Fuel fuel (n / 2) + 1 else 0

/-- The integer part of the binary logarithm of `n / d`, for `n` and `d` positive. -/
def floorLog2 (n d : Nat) : Int :=
  let e0 : Int := (log2Fuel n n : Int) - (log2Fuel d d : Int)
  if n * 2 ^ (-e0).toNat < d * 2 ^ e0.toNat then e0 - 1 else e0

/-- The `float` nearest to `n / d` (ties to even), as a bit pattern: the result of the
IEEE-754 single-precision division of two integers that are themselves `float` values.
`d` is positive. -/
def divToF32 (n : Int) (d : Nat) : F32 :=
  if n = 0 then 0
  else
    let sign : Nat := if n < 0 then 2 ^ 31 else 0
    let e : Int := max (floorLog2 n.natAbs d) (-126)
    let N : Nat := n.natAbs * 2 ^ (23 - e).toNat
    let D : Nat := d * 2 ^ (e - 23).toNat
    let m0 : Nat := N / D
    let m : Nat :=
      if 2 * (N % D) < D then m0
      else if D < 2 * (N % D) then m0 + 1
      else if m0 % 2 = 0 then m0 else m0 + 1
    sign + min ((e + 126).toNat * 2 ^ 23 + m) 0x7F800000

/-- The value of the `float` with this bit pattern lies in [-1, 1]. -/
def inUnitRange (x : F32) : Bool := decide (x % 2 ^ 31 ≤ 0x3F800000)

/-- A call of `m_onCaptureCallback(inBuffer, inBufferFrames, NUM_CHANNELS, SAMPLE_RATE,
streamTime, overflow)`, `inBuffer` being kept by the `float` values behind it. -/
structure CaptureCall where
  inBuffer : List F32
  inBufferFrames : Nat
  numChannels : Int
  sampleRate : Int
  streamTime : Nat
  overflow : Bool
deriving DecidableEq, Repr

/-- `FStreamMicrophoneCaptureStream::OnAudioCapture`. -/
def FStreamMicrophoneCaptureStream.OnAudioCapture (inBuffer : List F32) (inBufferFrames : Nat)
    (streamTime : Nat) (overflow : Bool) (s : FStreamMicrophoneCaptureStream) :
    List CaptureCall :=
  if s.m_onCaptureCallback then
    [⟨inBuffer, inBufferFrames, NUM_CHANNELS, MIC_SAMPLE_RATE, streamTime, overflow⟩]
  else []

/-- `FStreamMicrophoneCaptureStream::OnMicrophoneCapture(audioData)`: the object after the
call and the calls of the capture callback; `none` when the loop reads behind the end of
`audioData->data`. -/
def FStreamMicrophoneCaptureStream.OnMicrophoneCapture (audioData : IsarAudioData)
    (s : FStreamMicrophoneCaptureStream) :
    Option (FStreamMicrophoneCaptureStream × List CaptureCall) :=
  if !s.m_isTrackOpen then some (s, [])
  else
    let size := (audioData.samplesPerChannel * audioData.numberOfChannels) % 2 ^ 64
    if audioData.data.length < size then none
    else
      let data := (audioData.data.take size).map (fun w => divToF32 (toI16 w) MAX_int16)
      let s1 := { s with m_streamTime := s.m_streamTime + 1 }
      some (s1, s1.OnAudioCapture data (audioData.samplesPerChannel % 2 ^ 32) s1.m_streamTime false)

/-! ### The diagnostic options of `InitConnectionConfig` -/

/-- Value of an enumerator of `IsarDiagnosticOptions`. -/
def IsarDiagnosticOptions.ofName (n : String) : Nat :=
  (lookupEnum n (enumValues IsarDiagnosticOptions_decl)).toNat

/-- `IsarDiagnosticOptions_DISABLED`. -/
def IsarDiagnosticOptions_DISABLED : Nat :=
  IsarDiagnosticOptions.ofName "IsarDiagnosticOptions_DISABLED"
/-- `IsarDiagnosticOptions_ENABLE_TRACING`. -/
def IsarDiagnosticOptions_ENABLE_TRACING : Nat :=
  IsarDiagnosticOptions.ofName "IsarDiagnosticOptions_ENABLE_TRACING"
/-- `IsarDiagnosticOptions_ENABLE_EVENT_LOG`. -/
def IsarDiagnosticOptions_ENABLE_EVENT_LOG : Nat :=
  IsarDiagnosticOptions.ofName "IsarDiagnosticOptions_ENABLE_EVENT_LOG"
/-- `IsarDiagnosticOptions_ENABLE_STATS_COLLECTOR`. -/
def IsarDiagnosticOptions_ENABLE_STATS_COLLECTOR : Nat :=
  IsarDiagnosticOptions.ofName "IsarDiagnosticOptions_ENABLE_STATS_COLLECTOR"

/-- The code of a character after the folding `FString` comparison applies: the letters
`A` to `Z` are mapped to `a` to `z`, every other character is kept. -/
def toLowerCode (c : Char) : Nat :=
  if 65 ≤ c.toNat ∧ c.toNat ≤ 90 then c.toNat + 32 else c.toNat

/-- The engine's `FString::operator==` against a `TEXT` literal: it compares with
`FCString::Stricmp`, character by character ignoring letter case. -/
def FString_eq (a b : String) : Bool :=
  a.data.map toLowerCode == b.data.map toLowerCode

/-- The body of the loop over `diagnostic-options`: three independent tests of
`diagnosticString` with `FString::operator==`. -/
def diagnosticStep (m_diagnosticOptions : Nat) (diagnosticString : String) : Nat :=
  let m1 :=
    if FString_eq diagnosticString "tracing" then
      m_diagnosticOptions ||| IsarDiagnosticOptions_ENABLE_TRACING
    else m_diagnosticOptions
  let m2 :=
    if FString_eq diagnosticString "event-log" then m1 ||| IsarDiagnosticOptions_ENABLE_EVENT_LOG
    else m1
  if FString_eq diagnosticString "stats-collector" then
    m2 ||| IsarDiagnosticOptions_ENABLE_STATS_COLLECTOR
  else m2

/-- The part of `FStreamHMD::InitConnectionConfig` that computes `m_diagnosticOptions`
(`FStreamHMD.cpp:1064-1090`): the member after it. `diagnosticsArray` is what
`TryGetArrayField("diagnostic-options")` finds (`none`: no such array), each element by
its `AsString()`; the second argument is the member before. -/
def diagnosticOptionsOf (diagnosticsArray : Option (List String))
    (_m_diagnosticOptions : Nat) : Nat :=
  let m := IsarDiagnosticOptions_DISABLED
  match diagnosticsArray with
  | none => m
  | some arr => if arr.length > 0 then arr.foldl diagnosticStep m else m

/-! ## UStreamHMDSettings (`StreamHMDSettings.cpp`) -/

/-- A JSON value as the engine's `FJsonValue`; numbers are kept as integers, which is what
the configuration holds. -/
inductive FJsonValue where
  | null
  | string (s : String)
  | number (n : Int)
  | boolean (b : Bool)
  | array (values : List FJsonValue)
  | object (fields : List (String × FJsonValue))

/-- The field `name` of a JSON object, `none` when the value is no object or has no such
field. -/
def FJsonValue.field (name : String) : FJsonValue → Option FJsonValue
  | .object fields => fields.lookup name
  | _ => none

/-- `FJsonObject::HasTypedField<EJson::Object>(name)`. -/
def HasTypedField_Object (fields : List (String × FJsonValue)) (name : String) : Bool :=
  match fields.lookup name with
  | some (.object _) => true
  | _ => false

/-- `FJsonObject::GetIntegerField(name)`: the number of the field, 0 when the field is
missing or no number. -/
def GetIntegerField (fields : List (String × FJsonValue)) (name : String) : Int :=
  match fields.lookup name with
  | some (.number n) => n
  | _ => 0

/-- `FJsonObject::GetObjectField(name)`, for a field that `HasTypedField` found. -/
def GetObjectField (fields : List (String × FJsonValue)) (name : String) :
    List (String × FJsonValue) :=
  match fields.lookup name with
  | some (.object inner) => inner
  | _ => []

/-- `FJsonObject::TryGetArrayField(name, out)`. -/
def TryGetArrayField (fields : List (String × FJsonValue)) (name : String) :
    Option (List FJsonValue) :=
  match fields.lookup name with
  | some (.array values) => some values
  | _ => none

/-- `FJsonValue::AsString()`. -/
def FJsonValue.AsString : FJsonValue → String
  | .string s => s
  | .number n => toString n
  | .boolean b => toString b
  | _ => ""

/-- The properties of `UStreamHMDSettings`. -/
structure UStreamHMDSettings where
  Port : Int
  MinPort : Int
  MaxPort : Int
  EncoderBandwidth : Int
  bEnableStatsLogging : Bool
deriving DecidableEq, Repr

/-- `UStreamHMDSettings::SaveSettingsToConfig`: the object after the call, the JSON object
handed to the serialiser and the message dialogs opened. -/
def UStreamHMDSettings.SaveSettingsToConfig (s : UStreamHMDSettings) :
    UStreamHMDSettings × FJsonValue × List String :=
  let iceServerObject := FJsonValue.object
    [("url", .string "stun:stun.l.google.com:19302"), ("username", .string ""),
     ("credential", .string "")]
  let diagnosticsArray :=
    if s.bEnableStatsLogging then [FJsonValue.string "stats-collector"] else []
  let signalingObject := FJsonValue.object [("ip", .string "0.0.0.0"), ("port", .number s.Port)]
  let zeroBandwidth := s.EncoderBandwidth == 0
  let s1 := if zeroBandwidth then { s with EncoderBandwidth := -1 } else s
  let swapped := decide (s1.MinPort > s1.MaxPort)
  let s2 := if swapped then { s1 with MinPort := s1.MaxPort } else s1
  let portRangeObject := FJsonValue.object
    [("min-port", .number s2.MinPort), ("max-port", .number s2.MaxPort)]
  let jsonObject := FJsonValue.object
    [("ice-servers", .array [iceServerObject]), ("diagnostic-options", .array diagnosticsArray),
     ("signaling", signalingObject), ("encoder-bandwidth-kbps", .number s1.EncoderBandwidth),
     ("port-range", portRangeObject)]
  let dialogs :=
    (if zeroBandwidth then ["Encoder Bandwidth cannot be 0, defaulting to -1."] else []) ++
    (if swapped then
      ["Minimum Port cannot be greater than Maximum Port, defaulting both to Maximum Port value."]
     else [])
  (s2, jsonObject, dialogs)

/-- `UStreamHMDSettings::LoadSettingsFromConfig`. `file` is `none` when
`FFileHelper::LoadFileToString` fails, `some none` when the content does not deserialise
to a valid JSON object, and otherwise the fields of the root object. `fstringEq` is the
engine's `FString::operator==`. -/
def UStreamHMDSettings.LoadSettingsFromConfig (fstringEq : String → String → Bool)
    (file : Option (Option (List (String × FJsonValue)))) (s : UStreamHMDSettings) :
    Bool × UStreamHMDSettings :=
  match file with
  | none => (false, s)
  | some none => (true, s)
  | some (some jsonObject) =>
    let s1 :=
      if HasTypedField_Object jsonObject "signaling" then
        { s with Port := GetIntegerField (GetObjectField jsonObject "signaling") "port" }
      else s
    let s2 :=
      if HasTypedField_Object jsonObject "port-range" then
        { s1 with
          MinPort := GetIntegerField (GetObjectField jsonObject "port-range") "min-port",
          MaxPort := GetIntegerField (GetObjectField jsonObject "port-range") "max-port" }
      else s1
    let s3 :=
      match TryGetArrayField jsonObject "diagnostic-options" with
      | none => s2
      | some diagnosticsArray =>
        if diagnosticsArray.length > 0 then
          { s2 with bEnableStatsLogging :=
              (diagnosticsArray.find? (fun diagnosticsObj =>
                fstringEq (FJsonValue.AsString diagnosticsObj) "stats-collector")).isSome }
        else { s2 with bEnableStatsLogging := false }
    (true, { s3 with EncoderBandwidth := GetIntegerField jsonObject "encoder-bandwidth-kbps" })

/-- The defaults the constructor assigns when loading fails. -/
def UStreamHMDSettings.defaults : UStreamHMDSettings :=
  { Port := 9999, MinPort := 50100, MaxPort := 50100, EncoderBandwidth := -1,
    bEnableStatsLogging := false }

/-- The constructor `UStreamHMDSettings::UStreamHMDSettings`, as far as the properties go;
`super` is the object as `Super(ObjectInitializer)` leaves it. -/
def UStreamHMDSettings.construct (fstringEq : String → String → Bool)
    (file : Option (Option (List (String × FJsonValue)))) (super : UStreamHMDSettings) :
    UStreamHMDSettings :=
  if !(super.LoadSettingsFromConfig fstringEq file).1 then
    { (super.LoadSettingsFromConfig fstringEq file).2 with
      Port := 9999, MinPort := 50100, MaxPort := 50100, EncoderBandwidth := -1,
      bEnableStatsLogging := false }
  else (super.LoadSettingsFromConfig fstringEq file).2

/-! ### Sample values -/

/-- A pose with pairwise different content in its six members. -/
def samplePose : IsarXrPose :=
  { frameTimestamp := 1000, poseTimestamp := 990,
    poseLeft := ⟨⟨1, 2, 3⟩, ⟨0, 0, 0, 1⟩⟩, poseRight := ⟨⟨4, 5, 6⟩, ⟨0, 0, 1, 0⟩⟩,
    fovLeft := ⟨11, 12, 13, 14⟩, fovRight := ⟨15, 16, 17, 18⟩ }

/-- A view with all members zero. -/
def zeroView : XrView := ⟨⟨⟨0, 0, 0, 0⟩, ⟨0, 0, 0⟩⟩, ⟨0, 0, 0, 0⟩⟩

/-- A frame state holding two zero views. -/
def twoViewState : FPipelinedFrameState :=
  { views := [zeroView, zeroView], viewConfigs := [], worldToMetersScale := 0,
    pixelDensity := 0, poseTimestamp := 0, frameTimestamp := 0 }

/-- Connection information negotiated for `numViews` views, `depthEnabled` as given, from
a peer of version 2025.0.0 (the value of `ISAR_LATEST_VERSION`). -/
def sampleInfo (numViews depthEnabled : Nat) : IsarConnectionInfo :=
  { remoteName := "client", remoteVersion := 2025 * 2 ^ 20,
    renderConfig := { width := 2064, height := 2208, numViews := numViews,
                      encoderBitrateKbps := 20000, framerate := 90,
                      depthEnabled := depthEnabled, posePredictionEnabled := 0 },
    remoteDeviceType := 1, codecInUse := 1 }

/-- A library that answers every call with `eNone`, reports `sampleInfo numViews
depthEnabled`, hands out `samplePose` and creates connection handle `7`. -/
def sampleApi (numViews depthEnabled : Nat) : ServerApi :=
  { createConnection := (eNone, some 7), initVideoTrack := eNone, openConnection := eNone,
    closeConnection := eNone, getConnectionInfo := some (sampleInfo numViews depthEnabled),
    pullViewPose := (eNone, samplePose), pushFrame := eNone, setAudioTrackEnabled := eNone,
    pullSpatialInputCount := (eNone, 0), pullSpatialInputFill := (eNone, []) }

/-- A D3D11 engine. -/
def sampleEngine : Engine :=
  { isRHID3D11 := true, nativeResource := 42, fenceCompletedValue := 0, nearZ := 0, farZ := 0,
    identityPose := ⟨⟨0, 0, 0, 1⟩, ⟨0, 0, 0⟩⟩, audioDeviceSampleRate := none, SAMPLE_RATE := 48000 }

/-- Automatic variables whose indeterminate content happens to be all zero. -/
def zeroStack : Indeterminate :=
  { frameInfo := { pose := ⟨0, 0, ⟨⟨0, 0, 0⟩, ⟨0, 0, 0, 0⟩⟩, ⟨⟨0, 0, 0⟩, ⟨0, 0, 0, 0⟩⟩,
                           ⟨0, 0, 0, 0⟩, ⟨0, 0, 0, 0⟩⟩,
                   textureFormat := 0, zNear := 0, zFar := 0, hasFocusPlane := 0,
                   focusPlane := ⟨⟨0, 0, 0⟩, ⟨0, 0, 0⟩, ⟨0, 0, 0⟩⟩, passthroughEnabled := false },
    subresourceIndex := 0 }

/-- An `FStreamHMD` as the constructor leaves it: not connected, no connection created,
no handler registered, `m_width = 4128`, `m_height = 2208`, `m_nViews = 2`; the members
the constructor does not initialise are taken as zero. -/
def initialHMD : FStreamHMD :=
  { m_renderBridge := true, m_streamSwapchain := false,
    m_pipelinedFrameStateRendering := { twoViewState with views := [] },
    m_pipelinedFrameStateGame := { twoViewState with views := [] },
    m_pipelinedFrameStateRHI := { twoViewState with views := [] },
    m_isMobileMultiViewEnabled := false, m_streamConnection := 0,
    m_gfxApiType := IsarGraphicsApiType_D3D11, m_stereoEnabled := false,
    m_width := 4128, m_height := 2208, m_nViews := 2, colorImagesNum := 0,
    projectionLayersNum := 0, m_connected := false, m_connectionInfo := sampleInfo 0 0,
    audioListenerConnected := false, m_microphoneCaptureStream := false,
    m_minPort := 0, m_maxPort := 0, m_connectionCreated := false,
    m_needsReallocation := false, m_shouldEnableAudio := false, m_audioEnabled := false,
    m_connectionStateHandlers := [], fixedFrameRate := 0 }

/-- A connected `FStreamHMD` with connection handle `7`, a swapchain and two views in
each frame state. -/
def connectedHMD : FStreamHMD :=
  { initialHMD with
    m_streamSwapchain := true, m_pipelinedFrameStateRendering := twoViewState,
    m_pipelinedFrameStateGame := twoViewState, m_pipelinedFrameStateRHI := twoViewState,
    m_streamConnection := 7, m_stereoEnabled := true, m_connected := true,
    m_connectionInfo := sampleInfo 2 0, m_connectionCreated := true }

/-- The ports of the shipped `remoting-config.cfg`. -/
def sampleFile : RemotingConfigFile := { minPort := 50100, maxPort := 50200 }

/-- Three `EnableStereo` calls: on, with `createConnection` succeeding and
`initVideoTrack` failing with `eVideoTrack`; off; on again. -/
def initVideoFailsThenRetry : List (Bool × ServerApi × Option RemotingConfigFile) :=
  [ (true, { sampleApi 2 0 with initVideoTrack := eVideoTrack }, some sampleFile),
    (false, sampleApi 2 0, some sampleFile),
    (true, sampleApi 2 0, some sampleFile) ]

/-- Float operations standing in for the real ones: they are never looked at. -/
def sampleOps : FloatOps := { add := fun a _ => a, RotateVectorByQuaternion := fun v _ => v }

/-- A heap that holds one button behind pointer `100` and nothing elsewhere. -/
def sampleHeap : Heap :=
  { buttons := fun p => if p = 100 then [⟨3, true⟩] else [], axis1D := fun _ => [],
    axis2D := fun _ => [] }

/-- An input event of the given type for controller type `controllerIdentifier` in the
left hand, with its three arrays behind pointers `100`, `200` and `300`. -/
def sampleInput (type : Int) (controllerIdentifier : Nat) : IsarSpatialInput :=
  { type := type,
    data := ⟨{ zeroSpatialInput.data.controllerData with
               controllerIdentifier := controllerIdentifier,
               handedness := IsarSpatialInteractionSourceHandedness_LEFT,
               buttons := 100, buttonsLength := 1, axis1D := 200, axis2D := 300 }⟩ }

/-- A connected `FStreamInput` without controllers. -/
def connectedInput : FStreamInput :=
  { m_streamConnection := 7, m_connected := true, m_xrControllers := [],
    m_useEnhancedActions := false, m_controllerStateHandlers := [] }

/-- A library whose input queue holds `queue`: the counting call reports its length, the
populating call hands it out. -/
def inputApi (queue : List IsarSpatialInput) : ServerApi :=
  { sampleApi 2 0 with pullSpatialInputCount := (eNone, queue.length),
                       pullSpatialInputFill := (eNone, queue) }

/-- A library whose counting call reports one pending input and whose populating call
fails with `eInvalidHandle`. -/
def fillFailsApi : ServerApi :=
  { sampleApi 2 0 with
    pullSpatialInputCount := (eNone, 1),
    pullSpatialInputFill := (eInvalidHandle, [sampleInput IsarInputType_SOURCE_DETECTED 17]) }

/-- `IsarError::eInvalidArgument`. -/
def eInvalidArgument : IsarError := IsarError.ofName "eInvalidArgument"

/-- A `remoting-config.cfg` whose lower port bound is one below the allowed range. -/
def lowPortFile : RemotingConfigFile := { minPort := 1023, maxPort := 50200 }

/-- A library whose `createConnection` applies the port-range check to the range of
`f` and otherwise behaves like `sampleApi 2 0`. -/
def checkingApi (f : RemotingConfigFile) : ServerApi :=
  { sampleApi 2 0 with
    createConnection := createConnectionChecked eInvalidArgument (eNone, some 7)
      (portRangeOfFile f) }

/-- A history of an `FStreamInput`: controller types 1 and 2 are detected and the second
one sends an update, which makes it `Tracking`; the first one stays `Detected`. -/
def oneTrackingHistory : List InputEvent :=
  [ InputEvent.tick (inputApi [sampleInput IsarInputType_SOURCE_DETECTED 1,
                               sampleInput IsarInputType_SOURCE_DETECTED 2,
                               sampleInput IsarInputType_SOURCE_UPDATED 2])
      sampleOps sampleHeap ]

/-- Key tables that map button A (feature kind 29) to a key, for every controller. -/
def sampleTables : StreamController → ControllerKeyTables :=
  fun _ => { streamToKeyName := [(29, "A_Click")], streamToEnhancedActions := [] }

/-- `IsarXRControllerType_Logitech_MX_Ink_Stylus`. -/
def stylusType : Nat := IsarXRControllerType.ofName "IsarXRControllerType_Logitech_MX_Ink_Stylus"

/-- A heap that holds one axis2D element with identifier
`IsarAxis2DKind_PRIMARY_CONTROL_PAD` behind pointer `300`. -/
def controlPadHeap : Heap :=
  { buttons := fun _ => [], axis1D := fun _ => [],
    axis2D := fun p =>
      if p = 300 then [⟨IsarAxis2DType.ofName "IsarAxis2DKind_PRIMARY_CONTROL_PAD", ⟨0, 0⟩⟩]
      else [] }

/-- An input event of the given type for the stylus in the left hand, with one axis2D
element behind pointer `300`. -/
def stylusInput (type : Int) : IsarSpatialInput :=
  { type := type,
    data := ⟨{ zeroSpatialInput.data.controllerData with
               controllerIdentifier := stylusType,
               handedness := IsarSpatialInteractionSourceHandedness_LEFT,
               axis2D := 300, axis2DLength := 1 }⟩ }

/-- A history of an `FStreamInput`: the stylus is detected in the left hand and sends an
update that carries a control-pad axis. -/
def stylusHistory : List InputEvent :=
  [ InputEvent.tick (inputApi [stylusInput IsarInputType_SOURCE_DETECTED,
                               stylusInput IsarInputType_SOURCE_UPDATED])
      sampleOps controlPadHeap ]

/-- The controller types that have a `case` in `HandleInputSourceDetected`. -/
def supportedControllerTypes : List Nat :=
  keyCases.flatMap (fun c => c.controllerTypes.map IsarXRControllerType.ofName)

/-- A history of an `FStreamInput`: a HoloLens hand is detected in the left hand and sends
an update, which makes it `Tracking`. -/
def trackedHandHistory : List InputEvent :=
  [ InputEvent.tick (inputApi [sampleInput IsarInputType_SOURCE_DETECTED 0,
                               sampleInput IsarInputType_SOURCE_UPDATED 0])
      sampleOps sampleHeap ]

/-- A multiplication standing in for the real one: it returns its first argument. -/
def sampleMul : F32 → F32 → F32 := fun a _ => a

/-- A capturing microphone stream: connected, track open, callback set. -/
def capturingMic : FStreamMicrophoneCaptureStream :=
  { FStreamMicrophoneCaptureStream.initial with
    m_connected := true, m_streamConnection := 7, m_isStreamOpen := true,
    m_isCapturing := true, m_isTrackOpen := true, m_onCaptureCallback := true }

/-- Four mono samples: -32768, 32767, 0 and -32767. -/
def extremeSamples : IsarAudioData :=
  { data := [0x8000, 0x7FFF, 0, 0x8001], bitsPerSample := 16, sampleRate := 48000,
    numberOfChannels := 1, samplesPerChannel := 4 }

/-- A connected `FStreamHMD` whose `m_connectionInfo` still holds the record of an earlier
peer, "previous client". -/
def staleInfoHMD : FStreamHMD :=
  { connectedHMD with
    m_connectionInfo := { sampleInfo 2 0 with remoteName := "previous client" } }

/-- A library whose `getConnectionInfo` fails and writes nothing. -/
def noInfoApi : ServerApi := { sampleApi 2 0 with getConnectionInfo := none }

/-! # Theorems -/

/-- The bitwise "or" of the three shifted components is their positional sum when minor
and patch fit their bit fields. -/
theorem or_eq_sum (major minor patch : Nat) (hm : minor < 1024) (hp : patch < 1024) :
    ((major * 2 ^ 20) ||| (minor * 2 ^ 10)) ||| patch
      = major * 1048576 + minor * 1024 + patch := by
  have hlt1 : minor * 2 ^ 10 < 2 ^ 20 := by omega
  have e1 : major * 2 ^ 20 = 2 ^ 20 * major := by ring
  rw [e1, ← Nat.mul_add_lt_is_or hlt1]
  have hlt : patch < 2 ^ 10 := by omega
  have e2 : 2 ^ 20 * major + minor * 2 ^ 10 = 2 ^ 10 * (major * 2 ^ 10 + minor) := by ring
  rw [e2, ← Nat.mul_add_lt_is_or hlt]
  omega

theorem bits32_cast (n : Nat) (h : n < 2 ^ 32) : bits32 (n : Int) = n := by
  unfold bits32 versionBits
  have : ((n : Int) % 2 ^ 32) = (n : Int) := by omega
  rw [this]
  exact Int.toNat_natCast n

theorem wrap_cast (ty : OperandType) (n : Nat) (h : n < 2 ^ 32)
    (hty : ty = OperandType.int → n < 2 ^ 31) : ty.wrap (n : Int) = (n : Int) := by
  cases ty with
  | int =>
    have := hty rfl
    simp only [OperandType.wrap, versionBits]
    omega
  | unsignedInt =>
    simp only [OperandType.wrap, versionBits]
    omega

/-- The packed word is the positional sum `major * 2^20 + minor * 2^10 + patch` when the
three components fit their bit fields and, on `int` operands, the sum fits an `int`. -/
theorem packed_eq_sum (ty : OperandType) (major minor patch : Nat)
    (hM : major < 4096) (hty : ty = OperandType.int → major < 2048)
    (hm : minor < 1024) (hp : patch < 1024) :
    ISAR_MAKE_PACKED_VERSION ty major minor patch
      = ((major * 1048576 + minor * 1024 + patch : Nat) : Int) := by
  have c1 : ((major : Int) * 2 ^ 20) = ((major * 2 ^ 20 : Nat) : Int) := by push_cast; ring
  have c2 : ((minor : Int) * 2 ^ 10) = ((minor * 2 ^ 10 : Nat) : Int) := by push_cast; ring
  have hlt1 : minor * 2 ^ 10 < 2 ^ 20 := by omega
  have hlt : patch < 2 ^ 10 := by omega
  have o1 : (major * 2 ^ 20) ||| (minor * 2 ^ 10) = major * 2 ^ 20 + minor * 2 ^ 10 := by
    have e1 : major * 2 ^ 20 = 2 ^ 20 * major := by ring
    rw [e1, ← Nat.mul_add_lt_is_or hlt1]
  have o2 : (major * 2 ^ 20 + minor * 2 ^ 10) ||| patch
      = major * 1048576 + minor * 1024 + patch := by
    have e2 : major * 2 ^ 20 + minor * 2 ^ 10 = 2 ^ 10 * (major * 2 ^ 10 + minor) := by ring
    rw [e2, ← Nat.mul_add_lt_is_or hlt]
    omega
  have hA : ty.wrap ((major : Int) * 2 ^ 20) = ((major * 2 ^ 20 : Nat) : Int) := by
    rw [c1]
    exact wrap_cast ty _ (by omega) (fun h => by have := hty h; omega)
  have hB : ty.wrap ((minor : Int) * 2 ^ 10) = ((minor * 2 ^ 10 : Nat) : Int) := by
    rw [c2]
    exact wrap_cast ty _ (by omega) (fun _ => by omega)
  have hor1 : ty.or ((major * 2 ^ 20 : Nat) : Int) ((minor * 2 ^ 10 : Nat) : Int)
      = ((major * 2 ^ 20 + minor * 2 ^ 10 : Nat) : Int) := by
    unfold OperandType.or
    rw [bits32_cast (major * 2 ^ 20) (by omega), bits32_cast (minor * 2 ^ 10) (by omega), o1]
    exact wrap_cast ty _ (by omega) (fun h => by have := hty h; omega)
  have hor2 : ty.or ((major * 2 ^ 20 + minor * 2 ^ 10 : Nat) : Int) (patch : Int)
      = ((major * 1048576 + minor * 1024 + patch : Nat) : Int) := by
    unfold OperandType.or
    rw [bits32_cast (major * 2 ^ 20 + minor * 2 ^ 10) (by omega),
      bits32_cast patch (by omega), o2]
    exact wrap_cast ty _ (by omega) (fun h => by have := hty h; omega)
  unfold ISAR_MAKE_PACKED_VERSION
  rw [hA, hB, hor1, hor2]

/-- C6 as stated fails on the `int` operands `version.h` itself uses: for major 2048 the
packed `int` is `-2^31` and `ISAR_GET_VERSION_MAJOR` returns -2048; for 4095.1023.1023 it
returns -1. -/
theorem version_pack_roundtrip_counterexample :
    (2048 : Int) < 4096 ∧
    ISAR_MAKE_PACKED_VERSION OperandType.int 2048 0 0 = -2147483648 ∧
    ISAR_GET_VERSION_MAJOR (ISAR_MAKE_PACKED_VERSION OperandType.int 2048 0 0) = -2048 ∧
    ISAR_GET_VERSION_MAJOR (ISAR_MAKE_PACKED_VERSION OperandType.int 2048 0 0) ≠ 2048 ∧
    ISAR_GET_VERSION_MAJOR (ISAR_MAKE_PACKED_VERSION OperandType.int 4095 1023 1023) = -1 := by
  decide

/-- C6 amended: on operands of type `unsigned int` (`IsarVersion`), for every
`major < 4096`, `minor < 1024` and `patch < 1024`, and on operands of type `int` for every
`major < 2048`, the three `ISAR_GET_VERSION_*` macros recover the components of
`ISAR_MAKE_PACKED_VERSION`, the packed word is non-negative and fits in 32 bits, and
`ISAR_LATEST_VERSION` decodes to `(2025, 0, 0)`. -/
theorem version_pack_roundtrip (ty : OperandType) (major minor patch : Nat)
    (hM : major < 4096) (hty : ty = OperandType.int → major < 2048)
    (hm : minor < 1024) (hp : patch < 1024) :
    ISAR_GET_VERSION_MAJOR (ISAR_MAKE_PACKED_VERSION ty major minor patch) = major ∧
    ISAR_GET_VERSION_MINOR (ISAR_MAKE_PACKED_VERSION ty major minor patch) = minor ∧
    ISAR_GET_VERSION_PATCH (ISAR_MAKE_PACKED_VERSION ty major minor patch) = patch ∧
    0 ≤ ISAR_MAKE_PACKED_VERSION ty major minor patch ∧
    ISAR_MAKE_PACKED_VERSION ty major minor patch < 2 ^ 32 ∧
    ISAR_GET_VERSION_MAJOR ISAR_LATEST_VERSION = 2025 ∧
    ISAR_GET_VERSION_MINOR ISAR_LATEST_VERSION = 0 ∧
    ISAR_GET_VERSION_PATCH ISAR_LATEST_VERSION = 0 := by
  have hsum := packed_eq_sum ty major minor patch hM hty hm hp
  have hmask : (0x3ff : Nat) = 2 ^ 10 - 1 := by norm_num
  refine ⟨?_, ?_, ?_, ?_, ?_, by decide, by decide, by decide⟩
  · rw [hsum]
    show (((major * 1048576 + minor * 1024 + patch) >>> 20 : Nat) : Int) = _
    rw [Nat.shiftRight_eq_div_pow]
    congr 1
    omega
  · rw [hsum]
    show andMask ((((major * 1048576 + minor * 1024 + patch) >>> 10 : Nat)) : Int) 0x3ff = _
    unfold andMask
    rw [bits32_cast _ (by rw [Nat.shiftRight_eq_div_pow]; omega), hmask,
      Nat.and_pow_two_sub_one_eq_mod, Nat.shiftRight_eq_div_pow]
    congr 1
    omega
  · rw [hsum]
    unfold ISAR_GET_VERSION_PATCH andMask
    rw [bits32_cast _ (by omega), hmask, Nat.and_pow_two_sub_one_eq_mod]
    congr 1
    omega
  · rw [hsum]
    exact Int.natCast_nonneg _
  · rw [hsum]
    omega

/-- C6 amended, at the largest version of each operand type: `4095.1023.1023` on
`unsigned int` and `2047.1023.1023` on `int`. -/
theorem version_pack_roundtrip_witness :
    ISAR_GET_VERSION_MAJOR
      (ISAR_MAKE_PACKED_VERSION OperandType.unsignedInt (4095 : Nat) (1023 : Nat) (1023 : Nat))
        = (4095 : Nat) ∧
    ISAR_GET_VERSION_MAJOR
      (ISAR_MAKE_PACKED_VERSION OperandType.int (2047 : Nat) (1023 : Nat) (1023 : Nat))
        = (2047 : Nat) ∧
    ISAR_MAKE_PACKED_VERSION OperandType.unsignedInt 4095 1023 1023 = 4294967295 ∧
    ISAR_MAKE_PACKED_VERSION OperandType.int 2047 1023 1023 = 2147483647 :=
  ⟨(version_pack_roundtrip OperandType.unsignedInt 4095 1023 1023 (by decide)
      (fun h => absurd h (by decide)) (by decide) (by decide)).1,
   (version_pack_roundtrip OperandType.int 2047 1023 1023 (by decide) (fun _ => by decide)
      (by decide) (by decide)).1,
   by decide, by decide⟩

/-- C5: `enum IsarDeviceType` holds both `IsarDeviceType_UNDEFINED = -1` and
`IsarClientType_INTERNAL_FORCE_INT32_SIZE = 0xFFFFFFFF`, so its enumerators fit neither
the range of `int32_t` nor that of `uint32_t`; each of the other twenty enums of
`types.h`, `input_types.h` and `graphics_api_config.h` fits one 32-bit integer type. -/
theorem IsarDeviceType_not_representable32 :
    IsarDeviceType_decl ∈ abiEnums ∧
    ("IsarDeviceType_UNDEFINED", (-1 : Int)) ∈ enumValues IsarDeviceType_decl ∧
    ("IsarClientType_INTERNAL_FORCE_INT32_SIZE", (4294967295 : Int)) ∈
      enumValues IsarDeviceType_decl ∧
    fitsInt32 IsarDeviceType_decl = false ∧
    fitsUInt32 IsarDeviceType_decl = false ∧
    representable32 IsarDeviceType_decl = false ∧
    ∀ d ∈ abiEnums, d.tag ≠ "IsarDeviceType" → representable32 d = true := by
  decide

/-- C7 as stated fails: the first member of `IsarDataChannelApi` is the function pointer
`create` and the first member of `IsarSignalingApi` is `registerProvider`; neither is an
`IsarVersion`. -/
theorem api_tables_first_field_counterexample :
    ¬ (firstFieldType IsarClientApi_fields = some "IsarVersion" ∧
       firstFieldType IsarServerApi_fields = some "IsarVersion" ∧
       firstFieldType IsarDataChannelApi_fields = some "IsarVersion" ∧
       firstFieldType IsarSignalingApi_fields = some "IsarVersion") := by
  decide

/-- C7 amended: `IsarClientApi` and `IsarServerApi` have an `IsarVersion` as their first
member; `IsarDataChannelApi` and `IsarSignalingApi` have no `IsarVersion` member at all,
their first members being `IsarDataChannelCreate create` and
`IsarRegisterProvider registerProvider`. -/
theorem api_tables_first_field :
    firstFieldType IsarClientApi_fields = some "IsarVersion" ∧
    firstFieldType IsarServerApi_fields = some "IsarVersion" ∧
    IsarDataChannelApi_fields.head? = some ⟨"IsarDataChannelCreate", "create"⟩ ∧
    IsarSignalingApi_fields.head? = some ⟨"IsarRegisterProvider", "registerProvider"⟩ ∧
    hasVersionField IsarDataChannelApi_fields = false ∧
    hasVersionField IsarSignalingApi_fields = false := by
  decide

/-- C8: the `IsarError` enumerators have pairwise distinct values; `eNone` is the only
one equal to `0`, hence the only one `ISAR_RETURN_ON_ERROR` lets pass; `eNoFrame` and
`eNoInput` differ from `eNone` and from each other. -/
theorem IsarError_values_distinct :
    ((enumValues IsarError_decl).map Prod.snd).Nodup ∧
    (∀ p ∈ enumValues IsarError_decl, p.2 = 0 ↔ p.1 = "eNone") ∧
    (∀ p ∈ enumValues IsarError_decl, ISAR_RETURN_ON_ERROR p.2 = none ↔ p.1 = "eNone") ∧
    eNone = 0 ∧ eNoFrame ≠ eNone ∧ eNoInput ≠ eNone ∧ eNoFrame ≠ eNoInput := by
  decide

/-! ## Pose pull to frame push -/

theorem eNone_eq : eNone = 0 := by decide

/-- The connection information after `getConnectionInfo`: what the library wrote, or the
previous content. -/
theorem getConnectionInfo_fst (api : ServerApi) (s : FStreamHMD) :
    (s.getConnectionInfo api).1 =
      { s with m_connectionInfo := (api.getConnectionInfo).getD s.m_connectionInfo } := by
  unfold FStreamHMD.getConnectionInfo
  cases api.getConnectionInfo <;> rfl

/-- Timestamps stored by a successful pull on the render thread. -/
theorem UpdateDeviceLocations_timestamps (api : ServerApi) (s s1 : FStreamHMD)
    (tr : List ApiCall) (P : IsarXrPose)
    (hconn : s.m_connected = true) (hpull : api.pullViewPose = (eNone, P))
    (hviews : s.m_pipelinedFrameStateRendering.views ≠ [])
    (h : s.UpdateDeviceLocations api .rendering = some (s1, tr)) :
    s1.m_pipelinedFrameStateRendering.frameTimestamp = P.frameTimestamp ∧
    s1.m_pipelinedFrameStateRendering.poseTimestamp = P.poseTimestamp ∧
    s1.m_renderBridge = s.m_renderBridge ∧ s1.m_streamSwapchain = s.m_streamSwapchain ∧
    s1.m_needsReallocation = s.m_needsReallocation ∧ s1.m_connected = s.m_connected ∧
    s1.m_streamConnection = s.m_streamConnection := by
  have hne : s.m_pipelinedFrameStateRendering.views.isEmpty = false := by
    cases hv : s.m_pipelinedFrameStateRendering.views with
    | nil => exact absurd hv hviews
    | cons a l => rfl
  unfold FStreamHMD.UpdateDeviceLocations at h
  simp only [hconn, FStreamHMD.GetPipelinedFrameStateForThread, hpull, hne,
    getConnectionInfo_fst, Bool.not_true, Bool.not_false, Bool.and_true, beq_self_eq_true,
    if_true, Bool.false_eq_true, if_false] at h
  split at h
  · split at h
    · simp at h
    · simp only [Option.some.injEq, Prod.mk.injEq] at h
      obtain ⟨h1, -⟩ := h
      subst h1
      simp [FStreamHMD.setPipelinedFrameStateForThread, hconn]
  · split at h
    · simp at h
    · split at h
      · simp at h
      · simp only [Option.some.injEq, Prod.mk.injEq] at h
        obtain ⟨h1, -⟩ := h
        subst h1
        simp [FStreamHMD.setPipelinedFrameStateForThread, hconn]

theorem pushedFrames_append_pushFrame (tr : List ApiCall) (c : Nat)
    (frame : IsarGraphicsApiFrame) (e : IsarError) :
    pushedFrames (tr ++ [ApiCall.pushFrame c frame e]) = pushedFrames tr ++ [frame] := by
  induction tr with
  | nil => rfl
  | cons a l ih => cases a <;> simp [pushedFrames, ih]

theorem pushedFrames_getConnectionInfo (api : ServerApi) (s : FStreamHMD) :
    pushedFrames (s.getConnectionInfo api).2 = [] := by
  unfold FStreamHMD.getConnectionInfo
  rfl

/-- Every frame `OnFinishRendering_RHIThread` pushes carries the two timestamps of
`m_pipelinedFrameStateRHI`. -/
theorem OnFinishRendering_timestamps (api : ServerApi) (eng : Engine) (stack : Indeterminate)
    (s s2 : FStreamHMD) (tr : List ApiCall)
    (h : s.OnFinishRendering_RHIThread api eng stack = some (s2, tr)) :
    ∀ frame ∈ pushedFrames tr,
      frame.info.pose.frameTimestamp = s.m_pipelinedFrameStateRHI.frameTimestamp ∧
      frame.info.pose.poseTimestamp = s.m_pipelinedFrameStateRHI.poseTimestamp := by
  unfold FStreamHMD.OnFinishRendering_RHIThread at h
  split at h
  · simp only [Option.some.injEq, Prod.mk.injEq] at h
    obtain ⟨-, h2⟩ := h
    subst h2
    simp [pushedFrames]
  · split at h
    · simp only at h
      split at h
      · simp at h
      · split at h
        · simp only [Option.some.injEq, Prod.mk.injEq] at h
          obtain ⟨-, h2⟩ := h
          subst h2
          intro frame hf
          rw [pushedFrames_append_pushFrame, pushedFrames_getConnectionInfo] at hf
          simp only [List.nil_append, List.mem_singleton] at hf
          subst hf
          split <;> simp
        · simp only [Option.some.injEq, Prod.mk.injEq] at h
          obtain ⟨-, h2⟩ := h
          subst h2
          simp [pushedFrames_getConnectionInfo]
    · simp only [Option.some.injEq, Prod.mk.injEq] at h
      obtain ⟨-, h2⟩ := h
      subst h2
      simp [pushedFrames]

/-- With a render bridge, a swapchain, no pending reallocation, a connected non-null
connection and at least two views, `OnFinishRendering_RHIThread` pushes exactly one frame;
its pose is read from views 0 and 1, except that with `numViews == 1` the right eye keeps
the indeterminate content of `frameInfo`. -/
theorem OnFinishRendering_pushes (api : ServerApi) (eng : Engine) (stack : Indeterminate)
    (s : FStreamHMD) (v0 v1 : XrView) (rest : List XrView)
    (hb : s.m_renderBridge = true) (hsw : s.m_streamSwapchain = true)
    (hre : s.m_needsReallocation = false) (hc : s.m_connected = true)
    (hh : s.m_streamConnection ≠ 0)
    (hv : s.m_pipelinedFrameStateRHI.views = v0 :: v1 :: rest) :
    ∃ s2 tr frame, s.OnFinishRendering_RHIThread api eng stack = some (s2, tr) ∧
      pushedFrames tr = [frame] ∧
      frame.info.pose.frameTimestamp = s.m_pipelinedFrameStateRHI.frameTimestamp ∧
      frame.info.pose.poseTimestamp = s.m_pipelinedFrameStateRHI.poseTimestamp ∧
      frame.info.pose.poseLeft = readViewPose v0 ∧
      frame.info.pose.fovLeft = readViewFov v0 ∧
      ((api.getConnectionInfo.getD s.m_connectionInfo).renderConfig.numViews ≠ 1 →
        frame.info.pose.poseRight = readViewPose v1 ∧
        frame.info.pose.fovRight = readViewFov v1) ∧
      ((api.getConnectionInfo.getD s.m_connectionInfo).renderConfig.numViews = 1 →
        frame.info.pose.poseRight = stack.frameInfo.pose.poseRight ∧
        frame.info.pose.fovRight = stack.frameInfo.pose.fovRight) := by
  have hh' : (s.m_streamConnection != 0) = true := by simpa using hh
  unfold FStreamHMD.OnFinishRendering_RHIThread
  by_cases hn : (api.getConnectionInfo.getD s.m_connectionInfo).renderConfig.numViews = 1
  · simp [hb, hsw, hre, hc, hh', hv, getConnectionInfo_fst, hn]
    refine ⟨_, _, ⟨rfl, rfl⟩, ?_⟩
    rw [pushedFrames_append_pushFrame, pushedFrames_getConnectionInfo]
    by_cases hd : eng.isRHID3D11 = true <;> simp [hd]
  · simp [hb, hsw, hre, hc, hh', hv, getConnectionInfo_fst, hn]
    refine ⟨_, _, ⟨rfl, rfl⟩, ?_⟩
    rw [pushedFrames_append_pushFrame, pushedFrames_getConnectionInfo]
    by_cases hd : eng.isRHID3D11 = true <;> simp [hd]

/-- Result of a successful pull on the render thread into a frame state with at least two
views. -/
theorem UpdateDeviceLocations_two_views (api : ServerApi) (s : FStreamHMD) (P : IsarXrPose)
    (v0 v1 : XrView) (rest : List XrView)
    (hconn : s.m_connected = true) (hpull : api.pullViewPose = (eNone, P))
    (hv : s.m_pipelinedFrameStateRendering.views = v0 :: v1 :: rest) :
    ∃ s1 tr, s.UpdateDeviceLocations api .rendering = some (s1, tr) ∧
      s1.m_pipelinedFrameStateRendering.frameTimestamp = P.frameTimestamp ∧
      s1.m_pipelinedFrameStateRendering.poseTimestamp = P.poseTimestamp ∧
      s1.m_pipelinedFrameStateRendering.views =
        (if (api.getConnectionInfo.getD s.m_connectionInfo).renderConfig.numViews = 1
         then writeView P.poseLeft P.fovLeft v0 :: v1 :: rest
         else writeView P.poseLeft P.fovLeft v0 :: writeView P.poseRight P.fovRight v1 :: rest) ∧
      s1.m_connectionInfo = api.getConnectionInfo.getD s.m_connectionInfo ∧
      s1.m_renderBridge = s.m_renderBridge ∧ s1.m_streamSwapchain = s.m_streamSwapchain ∧
      s1.m_needsReallocation = s.m_needsReallocation ∧ s1.m_connected = s.m_connected ∧
      s1.m_streamConnection = s.m_streamConnection := by
  unfold FStreamHMD.UpdateDeviceLocations
  by_cases hn : (api.getConnectionInfo.getD s.m_connectionInfo).renderConfig.numViews = 1
  · simp [hconn, FStreamHMD.GetPipelinedFrameStateForThread, hpull, hv, getConnectionInfo_fst,
      hn, modifyView, FStreamHMD.setPipelinedFrameStateForThread]
  · simp [hconn, FStreamHMD.GetPipelinedFrameStateForThread, hpull, hv, getConnectionInfo_fst,
      hn, modifyView, FStreamHMD.setPipelinedFrameStateForThread]

/-- C1: when `UpdateDeviceLocations` pulls pose `P` successfully on the render thread
(connected, `pullViewPose` returns `eNone`, views non-empty), every frame that
`OnFinishRendering_RHIThread` hands to `pushFrame` after the frame state was copied carries
`P.frameTimestamp` and `P.poseTimestamp`; and with at least two views, a swapchain, no
pending reallocation and a non-null connection exactly one such frame is pushed. -/
theorem frame_timestamps_threaded (api1 api2 : ServerApi) (eng : Engine)
    (stack : Indeterminate) (s : FStreamHMD) (P : IsarXrPose)
    (hconn : s.m_connected = true) (hbridge : s.m_renderBridge = true)
    (hpull : api1.pullViewPose = (eNone, P))
    (hviews : s.m_pipelinedFrameStateRendering.views ≠ []) :
    (∀ frames, renderOneFrame api1 api2 eng stack s = some frames →
      ∀ frame ∈ frames, frame.info.pose.frameTimestamp = P.frameTimestamp ∧
        frame.info.pose.poseTimestamp = P.poseTimestamp) ∧
    (2 ≤ s.m_pipelinedFrameStateRendering.views.length → s.m_streamSwapchain = true →
      s.m_needsReallocation = false → s.m_streamConnection ≠ 0 →
      ∃ frame, renderOneFrame api1 api2 eng stack s = some [frame] ∧
        frame.info.pose.frameTimestamp = P.frameTimestamp ∧
        frame.info.pose.poseTimestamp = P.poseTimestamp) := by
  constructor
  · intro frames hrun frame hf
    unfold renderOneFrame FStreamHMD.OnBeginRendering_RenderThread at hrun
    simp only [hbridge, hconn, Bool.not_true, Bool.false_eq_true, if_false, if_true] at hrun
    cases hu : s.UpdateDeviceLocations api1 .rendering with
    | none => simp [hu] at hrun
    | some r =>
      obtain ⟨s1, tr1⟩ := r
      simp only [hu] at hrun
      obtain ⟨hft, hpt, -⟩ := UpdateDeviceLocations_timestamps api1 s s1 tr1 P hconn hpull hviews hu
      cases hfin : (s1.OnBeginRendering_RHIThread
          s1.m_pipelinedFrameStateRendering).OnFinishRendering_RHIThread api2 eng stack with
      | none => simp [hfin] at hrun
      | some r2 =>
        obtain ⟨s2, tr2⟩ := r2
        simp only [hfin, Option.some.injEq] at hrun
        subst hrun
        have := OnFinishRendering_timestamps api2 eng stack _ s2 tr2 hfin frame hf
        simpa [FStreamHMD.OnBeginRendering_RHIThread, hft, hpt] using this
  · intro h2 hsw hre hh
    obtain ⟨v0, v1, rest, hv⟩ : ∃ v0 v1 rest,
        s.m_pipelinedFrameStateRendering.views = v0 :: v1 :: rest := by
      cases hvs : s.m_pipelinedFrameStateRendering.views with
      | nil => simp [hvs] at h2
      | cons a l =>
        cases l with
        | nil => simp [hvs] at h2
        | cons b l2 => exact ⟨a, b, l2, rfl⟩
    obtain ⟨s1, tr1, hu, hft, hpt, hvs1, -, hb1, hsw1, hre1, hc1, hh1⟩ :=
      UpdateDeviceLocations_two_views api1 s P v0 v1 rest hconn hpull hv
    have hv2 : ∃ w0 w1, (s1.OnBeginRendering_RHIThread
        s1.m_pipelinedFrameStateRendering).m_pipelinedFrameStateRHI.views = w0 :: w1 :: rest := by
      simp only [FStreamHMD.OnBeginRendering_RHIThread, hvs1]
      split <;> exact ⟨_, _, rfl⟩
    obtain ⟨w0, w1, hw⟩ := hv2
    obtain ⟨s2, tr2, frame, hfin, hpf, h1, h2', -⟩ :=
      OnFinishRendering_pushes api2 eng stack
        (s1.OnBeginRendering_RHIThread s1.m_pipelinedFrameStateRendering) w0 w1 rest
        (by simp [FStreamHMD.OnBeginRendering_RHIThread, hb1, hbridge])
        (by simp [FStreamHMD.OnBeginRendering_RHIThread, hsw1, hsw])
        (by simp [FStreamHMD.OnBeginRendering_RHIThread, hre1, hre])
        (by simp [FStreamHMD.OnBeginRendering_RHIThread, hc1, hconn])
        (by simp [FStreamHMD.OnBeginRendering_RHIThread, hh1, hh]) hw
    refine ⟨frame, ?_, ?_, ?_⟩
    · unfold renderOneFrame FStreamHMD.OnBeginRendering_RenderThread
      simp [hbridge, hconn, hu, hfin, hpf]
    · simpa [FStreamHMD.OnBeginRendering_RHIThread, hft] using h1
    · simpa [FStreamHMD.OnBeginRendering_RHIThread, hpt] using h2'

/-- C1 on `connectedHMD` with the stereo library. -/
theorem frame_timestamps_threaded_witness :
    connectedHMD.m_connected = true ∧ connectedHMD.m_renderBridge = true ∧
    (sampleApi 2 0).pullViewPose = (eNone, samplePose) ∧
    connectedHMD.m_pipelinedFrameStateRendering.views ≠ [] ∧
    ((∀ frames, renderOneFrame (sampleApi 2 0) (sampleApi 2 0) sampleEngine zeroStack
        connectedHMD = some frames →
      ∀ frame ∈ frames, frame.info.pose.frameTimestamp = samplePose.frameTimestamp ∧
        frame.info.pose.poseTimestamp = samplePose.poseTimestamp) ∧
    (2 ≤ connectedHMD.m_pipelinedFrameStateRendering.views.length →
      connectedHMD.m_streamSwapchain = true →
      connectedHMD.m_needsReallocation = false → connectedHMD.m_streamConnection ≠ 0 →
      ∃ frame, renderOneFrame (sampleApi 2 0) (sampleApi 2 0) sampleEngine zeroStack
          connectedHMD = some [frame] ∧
        frame.info.pose.frameTimestamp = samplePose.frameTimestamp ∧
        frame.info.pose.poseTimestamp = samplePose.poseTimestamp)) :=
  ⟨by decide, by decide, by decide, by decide,
   frame_timestamps_threaded (sampleApi 2 0) (sampleApi 2 0) sampleEngine zeroStack
     connectedHMD samplePose (by decide) (by decide) (by decide) (by decide)⟩

theorem EnumerateViews_handlers (api : ServerApi) (eng : Engine) (p : FPipelinedFrameState)
    (s : FStreamHMD) :
    (s.EnumerateViews api eng p).2.1.m_connectionStateHandlers = s.m_connectionStateHandlers := by
  unfold FStreamHMD.EnumerateViews
  split <;> simp [getConnectionInfo_fst]

theorem StartAudio_handlers (api : ServerApi) (eng : Engine) (s : FStreamHMD) :
    (s.StartAudio api eng).2.1.m_connectionStateHandlers = s.m_connectionStateHandlers := by
  unfold FStreamHMD.StartAudio
  split
  · rfl
  · split
    · rfl
    · simp only
      split <;> rfl

/-- What `OnConnectionStateChanged` hands to the game thread: nothing when the new state
is CONNECTED and the negotiated configuration has depth enabled, otherwise the new state
with the registered handlers. -/
theorem OnConnectionStateChanged_dispatch (api : ServerApi) (eng : Engine) (newState : Int)
    (s : FStreamHMD) :
    (s.OnConnectionStateChanged api eng newState).2.2 =
      if newState = IsarConnectionState_CONNECTED ∧
          (api.getConnectionInfo.getD s.m_connectionInfo).renderConfig.depthEnabled ≠ 0
      then none
      else some ⟨newState, s.m_connectionStateHandlers⟩ := by
  unfold FStreamHMD.OnConnectionStateChanged
  by_cases hc : newState = IsarConnectionState_CONNECTED
  · by_cases hd : (api.getConnectionInfo.getD s.m_connectionInfo).renderConfig.depthEnabled = 0
    · simp only [hc, beq_self_eq_true, if_true, getConnectionInfo_fst, hd, bne_self_eq_false,
        Bool.false_eq_true, if_false, ne_eq, not_true_eq_false, and_false]
      split <;> split <;>
        simp [EnumerateViews_handlers, StartAudio_handlers]
    · simp [hc, getConnectionInfo_fst, hd]
  · simp [hc]

theorem registered_handlers (s : FStreamHMD) (A B : Handler) (hAB : A ≠ B) :
    (((s.RegisterConnectionStateHandler A).RegisterConnectionStateHandler
        B).UnregisterConnectionStateHandler A).m_connectionStateHandlers =
      s.m_connectionStateHandlers.filter (fun x => x != A) ++ [B] := by
  have hBA : (B != A) = true := by
    simp only [bne_iff_ne, ne_eq]
    exact fun h => hAB h.symm
  simp [FStreamHMD.RegisterConnectionStateHandler, FStreamHMD.UnregisterConnectionStateHandler,
    List.filter_append, hBA]

/-- C10 as stated fails: after registering handlers 1 and 2 and unregistering 1, a change
to CONNECTED with depth enabled in the negotiated configuration notifies nobody, handler 2
included; when handler 2 had been registered once before, a change to CONNECTING notifies
it twice; and the state `0xFFFFFFFF` reaches handler 2 as 255. -/
theorem handler_notification_counterexample :
    ((notifications
        ((((initialHMD.RegisterConnectionStateHandler 1).RegisterConnectionStateHandler
            2).UnregisterConnectionStateHandler 1).OnConnectionStateChanged
          (sampleApi 2 1) sampleEngine IsarConnectionState_CONNECTED).2.2).map
      Prod.fst).count 2 = 0 ∧
    ((notifications
        (((((initialHMD.RegisterConnectionStateHandler
            2).RegisterConnectionStateHandler 1).RegisterConnectionStateHandler
            2).UnregisterConnectionStateHandler 1).OnConnectionStateChanged
          (sampleApi 2 0) sampleEngine IsarConnectionState_CONNECTING).2.2).map
      Prod.fst).count 2 = 2 ∧
    notifications
        ((((initialHMD.RegisterConnectionStateHandler 1).RegisterConnectionStateHandler
            2).UnregisterConnectionStateHandler 1).OnConnectionStateChanged
          (sampleApi 2 0) sampleEngine 0xFFFFFFFF).2.2
      = [(2, 255)] := by
  decide

/-- C10 amended: after `RegisterConnectionStateHandler(A)`,
`RegisterConnectionStateHandler(B)` with `A` different from `B` and
`UnregisterConnectionStateHandler(A)`, every state change processed by
`OnConnectionStateChanged` other than CONNECTED with `renderConfig.depthEnabled` non-zero
notifies `B` once for each registration of `B` (exactly once when `B` was not registered
before), each time with the new state cast to `EStreamConnectionState` (`uint8`; the
state itself when it lies in 0..255), and does not notify `A`; a change to CONNECTED with
`depthEnabled` non-zero notifies no handler. -/
theorem handler_notification (api : ServerApi) (eng : Engine) (newState : Int)
    (s : FStreamHMD) (A B : Handler) (hAB : A ≠ B) :
    (¬ (newState = IsarConnectionState_CONNECTED ∧
        (api.getConnectionInfo.getD s.m_connectionInfo).renderConfig.depthEnabled ≠ 0) →
      ((notifications
          ((((s.RegisterConnectionStateHandler A).RegisterConnectionStateHandler
              B).UnregisterConnectionStateHandler A).OnConnectionStateChanged
            api eng newState).2.2).map Prod.fst).count B = s.m_connectionStateHandlers.count B + 1 ∧
      (B ∉ s.m_connectionStateHandlers →
        ((notifications
          ((((s.RegisterConnectionStateHandler A).RegisterConnectionStateHandler
              B).UnregisterConnectionStateHandler A).OnConnectionStateChanged
            api eng newState).2.2).map Prod.fst).count B = 1) ∧
      A ∉ (notifications
          ((((s.RegisterConnectionStateHandler A).RegisterConnectionStateHandler
              B).UnregisterConnectionStateHandler A).OnConnectionStateChanged
            api eng newState).2.2).map Prod.fst ∧
      (∀ n ∈ notifications
          ((((s.RegisterConnectionStateHandler A).RegisterConnectionStateHandler
              B).UnregisterConnectionStateHandler A).OnConnectionStateChanged
            api eng newState).2.2, n.2 = toU8 newState) ∧
      (0 ≤ newState → newState < 256 →
        ∀ n ∈ notifications
          ((((s.RegisterConnectionStateHandler A).RegisterConnectionStateHandler
              B).UnregisterConnectionStateHandler A).OnConnectionStateChanged
            api eng newState).2.2, (n.2 : Int) = newState)) ∧
    ((newState = IsarConnectionState_CONNECTED ∧
        (api.getConnectionInfo.getD s.m_connectionInfo).renderConfig.depthEnabled ≠ 0) →
      notifications
          ((((s.RegisterConnectionStateHandler A).RegisterConnectionStateHandler
              B).UnregisterConnectionStateHandler A).OnConnectionStateChanged
            api eng newState).2.2 = []) := by
  have hinfo : (((s.RegisterConnectionStateHandler A).RegisterConnectionStateHandler
      B).UnregisterConnectionStateHandler A).m_connectionInfo = s.m_connectionInfo := rfl
  rw [OnConnectionStateChanged_dispatch, hinfo, registered_handlers s A B hAB]
  constructor
  · intro hne
    rw [if_neg hne]
    have hBA : (B != A) = true := by
      simp only [bne_iff_ne, ne_eq]
      exact fun h => hAB h.symm
    have hcount : List.count B (List.filter (fun x => x != A) s.m_connectionStateHandlers)
        = List.count B s.m_connectionStateHandlers :=
      List.count_filter hBA
    have hmap : (List.map Prod.fst
        (notifications (some ⟨newState,
          List.filter (fun x => x != A) s.m_connectionStateHandlers ++ [B]⟩))) =
        List.filter (fun x => x != A) s.m_connectionStateHandlers ++ [B] := by
      simp [notifications, StateDispatch.run, Function.comp_def]
    have hstate : ∀ n ∈ notifications (some ⟨newState,
        List.filter (fun x => x != A) s.m_connectionStateHandlers ++ [B]⟩),
        n.2 = toU8 newState := by
      intro n hn
      simp only [notifications, StateDispatch.run, List.mem_map] at hn
      obtain ⟨h, -, rfl⟩ := hn
      rfl
    refine ⟨?_, ?_, ?_, hstate, ?_⟩
    · rw [hmap, List.count_append, hcount]
      simp
    · intro hB
      rw [hmap, List.count_append, hcount, List.count_eq_zero_of_not_mem hB]
      simp
    · rw [hmap]
      simp only [List.mem_append, List.mem_filter, List.mem_singleton, not_or]
      refine ⟨fun h => ?_, hAB⟩
      simp at h
    · intro h0 h256 n hn
      rw [hstate n hn]
      unfold toU8
      rw [Int.emod_eq_of_lt h0 h256, Int.toNat_of_nonneg h0]
  · intro hc
    rw [if_pos hc]
    rfl

/-- C10 amended, on a fresh `FStreamHMD` with handlers 1 and 2 and a change to CONNECTING. -/
theorem handler_notification_witness :
    (1 : Handler) ≠ 2 ∧ (2 : Handler) ∉ initialHMD.m_connectionStateHandlers ∧
    notifications
        ((((initialHMD.RegisterConnectionStateHandler 1).RegisterConnectionStateHandler
            2).UnregisterConnectionStateHandler 1).OnConnectionStateChanged
          (sampleApi 2 0) sampleEngine IsarConnectionState_CONNECTING).2.2
      = [(2, 1)] ∧
    ((notifications
        ((((initialHMD.RegisterConnectionStateHandler 1).RegisterConnectionStateHandler
            2).UnregisterConnectionStateHandler 1).OnConnectionStateChanged
          (sampleApi 2 0) sampleEngine IsarConnectionState_CONNECTING).2.2).map
      Prod.fst).count 2 = 1 :=
  ⟨by decide, by decide, by decide,
   ((handler_notification (sampleApi 2 0) sampleEngine IsarConnectionState_CONNECTING
      initialHMD 1 2 (by decide)).1 (by decide)).2.1 (by decide)⟩

/-! ## Connection set-up -/

/-- C9: `EnableStereo(true)` with `createConnection` succeeding and `initVideoTrack`
failing, then `EnableStereo(false)`, then `EnableStereo(true)`: the last call issues
`openConnection` on the connection although no `initVideoTrack` on it ever returned
`eNone`, and returns `true`. -/
theorem EnableStereo_opens_after_failed_init :
    (enableStereoCalls sampleEngine initVideoFailsThenRetry initialHMD).2 =
      [ ApiCall.createConnection ⟨50100, 50200⟩ eNone 7,
        ApiCall.registerConnectionStateHandler 7,
        ApiCall.registerConnectionStateHandler 7,
        ApiCall.initVideoTrack 7 eVideoTrack,
        ApiCall.closeConnection 7 eNone,
        ApiCall.openConnection 7 eNone ] ∧
    eVideoTrack ≠ eNone ∧
    openAfterInit [] [] (enableStereoCalls sampleEngine initVideoFailsThenRetry initialHMD).2
      = false ∧
    (((initialHMD.EnableStereo { sampleApi 2 0 with initVideoTrack := eVideoTrack } sampleEngine
        (some sampleFile) true).2.1.EnableStereo (sampleApi 2 0) sampleEngine
        (some sampleFile) false).2.1.EnableStereo (sampleApi 2 0) sampleEngine
        (some sampleFile) true).1 = true := by
  decide

/-! ## Spatial input -/

/-- C4: a SOURCE_DETECTED event for controller type 18, one past the last entry of
`DEVICE_NAMES`: `HandleInputSourceDetected` copies the arrays and appends the controller,
then `DEVICE_NAMES.at` throws and `Tick` is left before the three `free` calls: none of
the arrays of the element is released. A type from the table is released once each. -/
theorem Tick_unknown_controller_not_freed :
    DEVICE_NAMES_at 18 = none ∧
    (connectedInput.Tick (inputApi [sampleInput IsarInputType_SOURCE_DETECTED 18]) sampleOps
        sampleHeap).2.threw = true ∧
    (connectedInput.Tick (inputApi [sampleInput IsarInputType_SOURCE_DETECTED 18]) sampleOps
        sampleHeap).2.mem =
      [MemEvent.read 100 1, MemEvent.read 200 0, MemEvent.read 300 0] ∧
    freed (connectedInput.Tick (inputApi [sampleInput IsarInputType_SOURCE_DETECTED 18])
        sampleOps sampleHeap).2.mem = [] ∧
    (connectedInput.Tick (inputApi [sampleInput IsarInputType_SOURCE_DETECTED 17]) sampleOps
        sampleHeap).2.mem =
      [MemEvent.read 100 1, MemEvent.read 200 0, MemEvent.read 300 0,
       MemEvent.free 100, MemEvent.free 200, MemEvent.free 300] := by
  decide

theorem freed_append (a b : List MemEvent) : freed (a ++ b) = freed a ++ freed b := by
  induction a with
  | nil => rfl
  | cons e l ih => cases e <;> simp [freed, ih]

theorem freed_CreateUpdateData (ops : FloatOps) (heap : Heap)
    (sourceState : IsarInteractionSourceState) :
    freed (CreateUpdateData ops heap sourceState).2 = [] := rfl

theorem freed_freeArrays (input : IsarSpatialInput) :
    freed (freeArrays input.data) = arrayPointers input := rfl

theorem freed_HandleInputSourceDetected (ops : FloatOps) (heap : Heap)
    (sourceState : IsarInteractionSourceState) (s : FStreamInput) :
    freed (s.HandleInputSourceDetected ops heap sourceState).mem = [] := by
  unfold FStreamInput.HandleInputSourceDetected
  dsimp only
  split
  · rfl
  · split <;> rfl

theorem freed_dispatchInput (ops : FloatOps) (heap : Heap) (input : IsarSpatialInput)
    (s : FStreamInput) : freed (s.dispatchInput ops heap input).mem = [] := by
  unfold FStreamInput.dispatchInput
  dsimp only
  split
  · split <;> rfl
  · split
    · exact freed_HandleInputSourceDetected ops heap input.data s
    · split
      · split
        · rfl
        · split <;> rfl
      · rfl

/-- A turn of the loop that is not left by an exception frees the three arrays of its
element, once each and after every read. -/
theorem processInput_mem (ops : FloatOps) (heap : Heap) (input : IsarSpatialInput)
    (s : FStreamInput) (h : (s.processInput ops heap input).threw = false) :
    (s.processInput ops heap input).mem =
      (s.dispatchInput ops heap input).mem ++ freeArrays input.data ∧
    freed (s.processInput ops heap input).mem = arrayPointers input := by
  unfold FStreamInput.processInput at h ⊢
  by_cases ht : (s.dispatchInput ops heap input).threw = true
  · simp [ht] at h
  · simp only [ht, Bool.false_eq_true, if_false, true_and]
    rw [freed_append, freed_dispatchInput, freed_freeArrays]
    rfl

/-- A run of the loop that is not left by an exception frees the arrays of every element
of the buffer, element after element. -/
theorem freed_processAll (ops : FloatOps) (heap : Heap) (l : List IsarSpatialInput) :
    ∀ s : FStreamInput, (FStreamInput.processAll ops heap l s).threw = false →
      freed (FStreamInput.processAll ops heap l s).mem = l.flatMap arrayPointers := by
  induction l with
  | nil => intro s _; rfl
  | cons input rest ih =>
    intro s h
    unfold FStreamInput.processAll at h ⊢
    by_cases ht : (s.processInput ops heap input).threw = true
    · simp [ht] at h
    · simp only [ht, Bool.false_eq_true, if_false] at h ⊢
      have ht' : (s.processInput ops heap input).threw = false := by simpa using ht
      rw [freed_append, (processInput_mem ops heap input s ht').2, ih _ h]
      rfl

theorem fillBuffer_length (count : Nat) (written : List IsarSpatialInput) :
    (fillBuffer count written).length = count := by
  unfold fillBuffer
  simp

theorem mem_updateFirst {α : Type} (p : α → Bool) (f : α → α) (l : List α) (x : α)
    (h : x ∈ updateFirst p f l) : x ∈ l ∨ ∃ y ∈ l, x = f y := by
  induction l with
  | nil => simp [updateFirst] at h
  | cons a l ih =>
    unfold updateFirst at h
    split at h
    · rcases List.mem_cons.mp h with h1 | h1
      · exact Or.inr ⟨a, List.mem_cons_self _ _, h1⟩
      · exact Or.inl (List.mem_cons_of_mem _ h1)
    · rcases List.mem_cons.mp h with h1 | h1
      · exact Or.inl (h1 ▸ List.mem_cons_self _ _)
      · rcases ih h1 with h2 | ⟨y, hy, hxy⟩
        · exact Or.inl (List.mem_cons_of_mem _ h2)
        · exact Or.inr ⟨y, List.mem_cons_of_mem _ hy, hxy⟩

/-- With every stored controller and the event of a type `DEVICE_NAMES` knows, the switch
does not throw and every stored controller still has a known type. -/
theorem dispatchInput_known (ops : FloatOps) (heap : Heap) (input : IsarSpatialInput)
    (s : FStreamInput)
    (hs : ∀ c ∈ s.m_xrControllers, knownType c.controllerType = true)
    (hi : knownType input.data.controllerData.controllerIdentifier = true) :
    (s.dispatchInput ops heap input).threw = false ∧
    ∀ c ∈ (s.dispatchInput ops heap input).state.m_xrControllers,
      knownType c.controllerType = true := by
  unfold FStreamInput.dispatchInput
  dsimp only
  split
  · split
    · exact ⟨rfl, hs⟩
    · refine ⟨rfl, fun c hc => ?_⟩
      rcases mem_updateFirst _ _ _ c hc with h1 | ⟨y, hy, rfl⟩
      · exact hs c h1
      · exact hs y hy
  · split
    · unfold FStreamInput.HandleInputSourceDetected
      dsimp only
      split
      · refine ⟨rfl, fun c hc => ?_⟩
        rcases mem_updateFirst _ _ _ c hc with h1 | ⟨y, hy, rfl⟩
        · exact hs c h1
        · exact hs y hy
      · split
        · rename_i hnone
          simp [knownType, hnone] at hi
        · refine ⟨rfl, fun c hc => ?_⟩
          rcases List.mem_append.mp hc with h1 | h1
          · exact hs c h1
          · simp only [List.mem_singleton] at h1
            subst h1
            exact hi
    · split
      · split
        · exact ⟨rfl, hs⟩
        · rename_i controller hfind
          have hmem : controller ∈ s.m_xrControllers := List.mem_of_find?_eq_some hfind
          split
          · rename_i hnone
            have := hs controller hmem
            simp [knownType, hnone] at this
          · refine ⟨rfl, fun c hc => ?_⟩
            exact hs c (List.mem_of_mem_eraseP hc)
      · exact ⟨rfl, hs⟩

/-- With every stored controller and every element of the buffer of a type `DEVICE_NAMES`
knows, the loop runs to its end. -/
theorem processAll_known (ops : FloatOps) (heap : Heap) (l : List IsarSpatialInput) :
    ∀ s : FStreamInput, (∀ c ∈ s.m_xrControllers, knownType c.controllerType = true) →
      (∀ input ∈ l, knownType input.data.controllerData.controllerIdentifier = true) →
      (FStreamInput.processAll ops heap l s).threw = false := by
  induction l with
  | nil => intro s _ _; rfl
  | cons input rest ih =>
    intro s hs hl
    obtain ⟨h1, h2⟩ := dispatchInput_known ops heap input s hs
      (hl input (List.mem_cons_self _ _))
    have hp : (s.processInput ops heap input).threw = false := by
      unfold FStreamInput.processInput
      simp [h1]
    have hst : (s.processInput ops heap input).state = (s.dispatchInput ops heap input).state := by
      unfold FStreamInput.processInput
      simp [h1]
    unfold FStreamInput.processAll
    simp only [hp, Bool.false_eq_true, if_false]
    apply ih
    · rw [hst]; exact h2
    · exact fun i hi => hl i (List.mem_cons_of_mem _ hi)

/-- C3 as stated fails: when the counting call reports one input and the populating call
returns an error, `Tick` makes both calls and then processes nothing: no controller is
registered and nothing is freed, whereas processing the one element of the buffer would do
both. -/
theorem Tick_two_phase_counterexample :
    fillFailsApi.pullSpatialInputCount = (eNone, 1) ∧
    (connectedInput.Tick fillFailsApi sampleOps sampleHeap).1 =
      [ ApiCall.pullSpatialInput 7 none 0 true eNone,
        ApiCall.pullSpatialInput 7 (some 1) 1 false eInvalidHandle ] ∧
    (connectedInput.Tick fillFailsApi sampleOps sampleHeap).2.state = connectedInput ∧
    (connectedInput.Tick fillFailsApi sampleOps sampleHeap).2.mem = [] ∧
    (connectedInput.processAll sampleOps sampleHeap
        (fillBuffer 1 fillFailsApi.pullSpatialInputFill.2)).state.m_xrControllers.length = 1 ∧
    freed (connectedInput.processAll sampleOps sampleHeap
        (fillBuffer 1 fillFailsApi.pullSpatialInputFill.2)).mem = [100, 200, 300] := by
  decide

/-- C3 amended: when connected, `Tick` first calls `pullSpatialInput` with a null buffer,
`inputCount` 0 and a non-null `outputCount`; if that call returns an error or the count is
0 it makes no second call and changes nothing; otherwise it calls `pullSpatialInput`
exactly once more, with a buffer of exactly `count` elements, `inputCount = count` and a
null `outputCount`; if this second call returns an error nothing is processed and nothing
changes; otherwise the `count` elements of the buffer are processed in order, and when
every controller type involved is in `DEVICE_NAMES` the loop reaches its end and has freed
the arrays of each element once, element after element. -/
theorem Tick_two_phase (api : ServerApi) (ops : FloatOps) (heap : Heap) (s : FStreamInput)
    (hconn : s.m_connected = true) :
    (s.Tick api ops heap).1.head? =
      some (ApiCall.pullSpatialInput s.m_streamConnection none 0 true
        api.pullSpatialInputCount.1) ∧
    ((api.pullSpatialInputCount.1 ≠ eNone ∨ api.pullSpatialInputCount.2 = 0) →
      (s.Tick api ops heap).1 =
        [ApiCall.pullSpatialInput s.m_streamConnection none 0 true
          api.pullSpatialInputCount.1] ∧
      (s.Tick api ops heap).2 = { state := s, mem := [], dispatched := [], threw := false }) ∧
    ((api.pullSpatialInputCount.1 = eNone ∧ api.pullSpatialInputCount.2 ≠ 0) →
      (s.Tick api ops heap).1 =
        [ ApiCall.pullSpatialInput s.m_streamConnection none 0 true eNone,
          ApiCall.pullSpatialInput s.m_streamConnection (some api.pullSpatialInputCount.2)
            api.pullSpatialInputCount.2 false api.pullSpatialInputFill.1 ] ∧
      (api.pullSpatialInputFill.1 ≠ eNone →
        (s.Tick api ops heap).2 = { state := s, mem := [], dispatched := [], threw := false }) ∧
      (api.pullSpatialInputFill.1 = eNone →
        (fillBuffer api.pullSpatialInputCount.2 api.pullSpatialInputFill.2).length =
          api.pullSpatialInputCount.2 ∧
        (s.Tick api ops heap).2 =
          s.processAll ops heap
            (fillBuffer api.pullSpatialInputCount.2 api.pullSpatialInputFill.2) ∧
        ((s.Tick api ops heap).2.threw = false →
          freed (s.Tick api ops heap).2.mem =
            (fillBuffer api.pullSpatialInputCount.2 api.pullSpatialInputFill.2).flatMap
              arrayPointers) ∧
        ((∀ c ∈ s.m_xrControllers, knownType c.controllerType = true) →
          (∀ input ∈ fillBuffer api.pullSpatialInputCount.2 api.pullSpatialInputFill.2,
            knownType input.data.controllerData.controllerIdentifier = true) →
          (s.Tick api ops heap).2.threw = false))) := by
  have e0 : eNone = 0 := eNone_eq
  refine ⟨?_, ?_, ?_⟩
  · unfold FStreamInput.Tick
    simp only [hconn, Bool.not_true, Bool.false_eq_true, if_false]
    split
    · rfl
    · split <;> rfl
  · intro h
    have hc : (api.pullSpatialInputCount.1 != 0 || api.pullSpatialInputCount.2 == 0) = true := by
      rcases h with h | h
      · simp [← e0, h]
      · simp [h]
    unfold FStreamInput.Tick
    simp only [hconn, Bool.not_true, Bool.false_eq_true, if_false, hc, if_true, and_self]
  · rintro ⟨h1, h2⟩
    have hc : (api.pullSpatialInputCount.1 != 0 || api.pullSpatialInputCount.2 == 0) = false := by
      simp [← e0, h1, h2]
    have hT : s.Tick api ops heap =
        (if (api.pullSpatialInputFill.1 != 0) = true then
          ([ ApiCall.pullSpatialInput s.m_streamConnection none 0 true eNone,
             ApiCall.pullSpatialInput s.m_streamConnection (some api.pullSpatialInputCount.2)
               api.pullSpatialInputCount.2 false api.pullSpatialInputFill.1 ],
           { state := s, mem := [], dispatched := [], threw := false })
         else
          ([ ApiCall.pullSpatialInput s.m_streamConnection none 0 true eNone,
             ApiCall.pullSpatialInput s.m_streamConnection (some api.pullSpatialInputCount.2)
               api.pullSpatialInputCount.2 false api.pullSpatialInputFill.1 ],
           s.processAll ops heap
             (fillBuffer api.pullSpatialInputCount.2 api.pullSpatialInputFill.2))) := by
      unfold FStreamInput.Tick
      simp only [hconn, Bool.not_true, Bool.false_eq_true, if_false, hc]
      rw [h1]
    refine ⟨?_, ?_, ?_⟩
    · rw [hT]; split <;> rfl
    · intro herr
      have : (api.pullSpatialInputFill.1 != 0) = true := by simpa [← e0] using herr
      rw [hT, if_pos this]
    · intro herr
      have : ¬ (api.pullSpatialInputFill.1 != 0) = true := by simp [← e0, herr]
      rw [hT, if_neg this]
      exact ⟨fillBuffer_length _ _, rfl, freed_processAll ops heap _ s,
        fun hs hl => processAll_known ops heap _ s hs hl⟩

/-- C3 amended, on a connected `FStreamInput` and a queue holding a SOURCE_DETECTED, a
SOURCE_UPDATED and a SOURCE_LOST event for the same Quest hand. -/
theorem Tick_two_phase_witness :
    connectedInput.m_connected = true ∧
    (connectedInput.Tick (inputApi [sampleInput IsarInputType_SOURCE_DETECTED 1,
        sampleInput IsarInputType_SOURCE_UPDATED 1, sampleInput IsarInputType_SOURCE_LOST 1])
      sampleOps sampleHeap).1 =
      [ ApiCall.pullSpatialInput 7 none 0 true eNone,
        ApiCall.pullSpatialInput 7 (some 3) 3 false eNone ] ∧
    freed (connectedInput.Tick (inputApi [sampleInput IsarInputType_SOURCE_DETECTED 1,
        sampleInput IsarInputType_SOURCE_UPDATED 1, sampleInput IsarInputType_SOURCE_LOST 1])
      sampleOps sampleHeap).2.mem = [100, 200, 300, 100, 200, 300, 100, 200, 300] ∧
    (connectedInput.Tick (inputApi [sampleInput IsarInputType_SOURCE_DETECTED 1,
        sampleInput IsarInputType_SOURCE_UPDATED 1, sampleInput IsarInputType_SOURCE_LOST 1])
      sampleOps sampleHeap).1.head? =
      some (ApiCall.pullSpatialInput connectedInput.m_streamConnection none 0 true
        (inputApi [sampleInput IsarInputType_SOURCE_DETECTED 1,
          sampleInput IsarInputType_SOURCE_UPDATED 1,
          sampleInput IsarInputType_SOURCE_LOST 1]).pullSpatialInputCount.1) :=
  ⟨by decide, by decide, by decide,
   (Tick_two_phase (inputApi [sampleInput IsarInputType_SOURCE_DETECTED 1,
        sampleInput IsarInputType_SOURCE_UPDATED 1, sampleInput IsarInputType_SOURCE_LOST 1])
      sampleOps sampleHeap connectedInput (by decide)).1⟩

/-! ## Restart, push guard and the connected flag -/

/-- C17: `RestartConnection` calls `closeConnection` and then `openConnection`, once each
and in that order, whatever `closeConnection` returned, and returns `true` exactly when
both returned `eNone` and the connection handle is non-null. -/
theorem RestartConnection_close_then_open (api : ServerApi) (s : FStreamHMD) :
    (s.RestartConnection api).2 =
      [ ApiCall.closeConnection s.m_streamConnection api.closeConnection,
        ApiCall.openConnection s.m_streamConnection api.openConnection ] ∧
    ((s.RestartConnection api).1 = true ↔
      (api.closeConnection = eNone ∧ api.openConnection = eNone ∧ s.m_streamConnection ≠ 0)) := by
  refine ⟨rfl, ?_⟩
  unfold FStreamHMD.RestartConnection
  by_cases h1 : api.closeConnection = eNone <;> by_cases h2 : api.openConnection = eNone <;>
    by_cases h3 : s.m_streamConnection = 0 <;> simp [h1, h2, h3]

/-- C16: whenever `OnFinishRendering_RHIThread` runs to its end, it has called `pushFrame`
once if a render bridge and a swapchain exist, `m_needsReallocation` is false,
`m_connected` is true and the connection handle is non-null, and not at all otherwise; and
it does run to its end unless `m_pipelinedFrameStateRHI` holds exactly one view while
`numViews` is not 1 (indexing `views[1]` out of range). -/
theorem OnFinishRendering_push_guard (api : ServerApi) (eng : Engine) (stack : Indeterminate)
    (s : FStreamHMD) :
    (∀ s2 tr, s.OnFinishRendering_RHIThread api eng stack = some (s2, tr) →
      ((s.m_renderBridge = true ∧ s.m_streamSwapchain = true ∧ s.m_needsReallocation = false ∧
          s.m_connected = true ∧ s.m_streamConnection ≠ 0) →
        (pushedFrames tr).length = 1) ∧
      (¬ (s.m_renderBridge = true ∧ s.m_streamSwapchain = true ∧
          s.m_needsReallocation = false ∧ s.m_connected = true ∧ s.m_streamConnection ≠ 0) →
        (pushedFrames tr).length = 0)) ∧
    ((s.m_pipelinedFrameStateRHI.views.length ≠ 1 ∨
        (api.getConnectionInfo.getD s.m_connectionInfo).renderConfig.numViews = 1) →
      ∃ s2 tr, s.OnFinishRendering_RHIThread api eng stack = some (s2, tr)) := by
  constructor
  · intro s2 tr h
    unfold FStreamHMD.OnFinishRendering_RHIThread at h
    split at h
    · rename_i hg
      simp only [Option.some.injEq, Prod.mk.injEq] at h
      obtain ⟨-, rfl⟩ := h
      refine ⟨fun hall => ?_, fun _ => rfl⟩
      obtain ⟨h1, h2, h3, -, -⟩ := hall
      simp [h1, h2, h3] at hg
    · rename_i hg
      have hg' : s.m_renderBridge = true ∧ s.m_streamSwapchain = true ∧
          s.m_needsReallocation = false := by
        revert hg
        cases s.m_renderBridge <;> cases s.m_streamSwapchain <;>
          cases s.m_needsReallocation <;> simp
      split at h
      · rename_i hc
        have hc' : s.m_connected = true ∧ s.m_streamConnection ≠ 0 := by
          simpa using hc
        simp only at h
        split at h
        · simp at h
        · split at h
          · simp only [Option.some.injEq, Prod.mk.injEq] at h
            obtain ⟨-, rfl⟩ := h
            refine ⟨fun _ => ?_, fun hn => absurd ⟨hg'.1, hg'.2.1, hg'.2.2, hc'.1, hc'.2⟩ hn⟩
            rw [pushedFrames_append_pushFrame, pushedFrames_getConnectionInfo]
            rfl
          · rename_i hc2
            simp [getConnectionInfo_fst, hc'.1, hc'.2] at hc2
      · rename_i hc
        simp only [Option.some.injEq, Prod.mk.injEq] at h
        obtain ⟨-, rfl⟩ := h
        refine ⟨fun hall => ?_, fun _ => rfl⟩
        obtain ⟨-, -, -, h4, h5⟩ := hall
        simp [h4, h5] at hc
  · intro hv
    unfold FStreamHMD.OnFinishRendering_RHIThread
    split
    · exact ⟨_, _, rfl⟩
    · split
      · simp only [getConnectionInfo_fst]
        cases hvs : s.m_pipelinedFrameStateRHI.views with
        | nil =>
          simp only [List.isEmpty_nil, Bool.not_true, Bool.and_false, Bool.false_eq_true,
            if_false]
          split <;> exact ⟨_, _, rfl⟩
        | cons v0 l =>
          cases l with
          | nil =>
            have hn : (api.getConnectionInfo.getD s.m_connectionInfo).renderConfig.numViews
                = 1 := by
              rcases hv with hv | hv
              · simp [hvs] at hv
              · exact hv
            simp only [hn, beq_self_eq_true, List.isEmpty_cons, Bool.not_false, Bool.and_self,
              if_true, List.get?_cons_zero]
            split <;> exact ⟨_, _, rfl⟩
          | cons v1 l2 =>
            by_cases hn : (api.getConnectionInfo.getD s.m_connectionInfo).renderConfig.numViews
                = 1
            · simp only [hn, beq_self_eq_true, List.isEmpty_cons, Bool.not_false,
                Bool.and_self, if_true, List.get?_cons_zero]
              split <;> exact ⟨_, _, rfl⟩
            · have hn' : ((api.getConnectionInfo.getD s.m_connectionInfo).renderConfig.numViews
                  == 1) = false := by simpa using hn
              simp only [hn', List.isEmpty_cons, Bool.not_false, Bool.and_true,
                Bool.false_eq_true, if_false, if_true, List.get?_cons_zero,
                List.get?_cons_succ]
              split <;> exact ⟨_, _, rfl⟩
      · exact ⟨_, _, rfl⟩

theorem EnumerateViews_connected (api : ServerApi) (eng : Engine) (p : FPipelinedFrameState)
    (s : FStreamHMD) : (s.EnumerateViews api eng p).2.1.m_connected = s.m_connected := by
  unfold FStreamHMD.EnumerateViews
  split <;> simp [getConnectionInfo_fst]

theorem StartAudio_connected (api : ServerApi) (eng : Engine) (s : FStreamHMD) :
    (s.StartAudio api eng).2.1.m_connected = s.m_connected := by
  unfold FStreamHMD.StartAudio
  split
  · rfl
  · split
    · rfl
    · simp only
      split <;> rfl

/-- The connected flag after `OnConnectionStateChanged`. -/
theorem OnConnectionStateChanged_connected (api : ServerApi) (eng : Engine) (newState : Int)
    (s : FStreamHMD) :
    (s.OnConnectionStateChanged api eng newState).1.m_connected =
      if newState = IsarConnectionState_CONNECTED then
        (if (api.getConnectionInfo.getD s.m_connectionInfo).renderConfig.depthEnabled = 0
         then true else s.m_connected)
      else false := by
  unfold FStreamHMD.OnConnectionStateChanged
  by_cases hc : newState = IsarConnectionState_CONNECTED
  · by_cases hd : (api.getConnectionInfo.getD s.m_connectionInfo).renderConfig.depthEnabled = 0
    · simp only [hc, beq_self_eq_true, if_true, getConnectionInfo_fst, hd, bne_self_eq_false,
        Bool.false_eq_true, if_false]
      split <;> split <;>
        simp [EnumerateViews_connected, StartAudio_connected]
    · simp [hc, getConnectionInfo_fst, hd]
  · simp [hc]

theorem OnStereoStartup_connected (api : ServerApi) (eng : Engine) (s : FStreamHMD) :
    (s.OnStereoStartup api eng).2.1.m_connected = s.m_connected := by
  unfold FStreamHMD.OnStereoStartup
  simp only
  split <;> simp [EnumerateViews_connected]

theorem ite_triple_state {α β : Type} (c : Prop) [Decidable c] (b1 b2 : Bool) (s : α) (t : β) :
    (if c then (b1, s, t) else (b2, s, t)).2.1 = s := by
  split <;> rfl

theorem EnableStereo_connected (api : ServerApi) (eng : Engine)
    (file : Option RemotingConfigFile) (iStereo : Bool) (s : FStreamHMD) :
    (s.EnableStereo api eng file iStereo).2.1.m_connected = s.m_connected := by
  unfold FStreamHMD.EnableStereo
  split
  · rfl
  · simp only []
    split
    · split <;> rfl
    · split
      · cases file with
        | none => simp [FStreamHMD.InitConnectionConfig]
        | some f =>
          simp only [FStreamHMD.InitConnectionConfig, FStreamHMD.CreateConnection,
            Bool.not_true, Bool.false_eq_true, if_false]
          split
          · rfl
          · split
            · rfl
            · rw [ite_triple_state]
              split
              · exact OnStereoStartup_connected api eng _
              · rfl
      · rw [ite_triple_state]

theorem UpdateDeviceLocations_connected (api : ServerApi) (t : Thread) (s s1 : FStreamHMD)
    (tr : List ApiCall) (h : s.UpdateDeviceLocations api t = some (s1, tr)) :
    s1.m_connected = s.m_connected := by
  unfold FStreamHMD.UpdateDeviceLocations at h
  split at h
  · simp only [Option.some.injEq, Prod.mk.injEq] at h
    rw [← h.1]
  · split at h
    · simp at h
    · simp only [getConnectionInfo_fst] at h
      split at h
      · split at h
        · split at h
          · simp at h
          · simp only [Option.some.injEq, Prod.mk.injEq] at h
            rw [← h.1]
            cases t <;> rfl
        · split at h
          · simp at h
          · split at h
            · simp at h
            · simp only [Option.some.injEq, Prod.mk.injEq] at h
              rw [← h.1]
              cases t <;> rfl
      · simp only [Option.some.injEq, Prod.mk.injEq] at h
        rw [← h.1]

theorem OnFinishRendering_connected (api : ServerApi) (eng : Engine) (stack : Indeterminate)
    (s s1 : FStreamHMD) (tr : List ApiCall)
    (h : s.OnFinishRendering_RHIThread api eng stack = some (s1, tr)) :
    s1.m_connected = s.m_connected := by
  unfold FStreamHMD.OnFinishRendering_RHIThread at h
  split at h
  · simp only [Option.some.injEq, Prod.mk.injEq] at h
    rw [← h.1]
  · split at h
    · simp only at h
      split at h
      · simp at h
      · split at h <;>
        · simp only [Option.some.injEq, Prod.mk.injEq] at h
          rw [← h.1, getConnectionInfo_fst]
    · simp only [Option.some.injEq, Prod.mk.injEq] at h
      rw [← h.1]

theorem OnBeginRendering_RenderThread_connected (api : ServerApi) (s s1 : FStreamHMD)
    (tr : List ApiCall) (o : Option FPipelinedFrameState)
    (h : s.OnBeginRendering_RenderThread api = some (s1, tr, o)) :
    s1.m_connected = s.m_connected := by
  unfold FStreamHMD.OnBeginRendering_RenderThread at h
  split at h
  · simp only [Option.some.injEq, Prod.mk.injEq] at h
    rw [← h.1]
  · split at h
    · simp at h
    · rename_i s2 tr2 hu
      simp only [Option.some.injEq, Prod.mk.injEq] at h
      rw [← h.1]
      split at hu
      · exact UpdateDeviceLocations_connected api _ s s2 tr2 hu
      · simp only [Option.some.injEq, Prod.mk.injEq] at hu
        rw [← hu.1]

/-- Only a connection-state notification can change `m_connected`. -/
theorem apply_connected_of_not_notified (e : HMDEvent) (s : FStreamHMD)
    (h : e.notified = none) : (e.apply s).m_connected = s.m_connected := by
  cases e with
  | connectionState api eng newState => simp [HMDEvent.notified] at h
  | enableStereo api eng file iStereo => exact EnableStereo_connected api eng file iStereo s
  | registerHandler h => rfl
  | unregisterHandler h => rfl
  | beginRendering api =>
    simp only [HMDEvent.apply]
    cases hb : s.OnBeginRendering_RenderThread api with
    | none => rfl
    | some r =>
      obtain ⟨s1, tr, o⟩ := r
      have hc := OnBeginRendering_RenderThread_connected api s s1 tr o hb
      cases o with
      | none => exact hc
      | some inFrameState => exact hc
  | finishRendering api eng stack =>
    simp only [HMDEvent.apply]
    cases hf : s.OnFinishRendering_RHIThread api eng stack with
    | none => rfl
    | some r =>
      obtain ⟨s1, tr⟩ := r
      exact OnFinishRendering_connected api eng stack s s1 tr hf

theorem runHMD_append (es : List HMDEvent) (e : HMDEvent) (s : FStreamHMD) :
    runHMD (es ++ [e]) s = e.apply (runHMD es s) := by
  simp [runHMD, List.foldl_append]

theorem lastNotification_append (es : List HMDEvent) (e : HMDEvent) :
    lastNotification (es ++ [e]) =
      match e.notified with
      | some n => some n
      | none => lastNotification es := by
  unfold lastNotification
  rw [List.filterMap_append]
  cases hn : e.notified with
  | none => simp [List.filterMap, hn]
  | some n => simp [List.filterMap, hn]

/-- In every state reached from a disconnected one, `m_connected` implies that the most
recent notification was CONNECTED. -/
theorem connected_only_after_CONNECTED (events : List HMDEvent) (s0 : FStreamHMD)
    (h0 : s0.m_connected = false) :
    (runHMD events s0).m_connected = true →
      lastNotification events = some IsarConnectionState_CONNECTED := by
  induction events using List.reverseRecOn with
  | nil => intro h; simp [runHMD, h0] at h
  | append_singleton es e ih =>
    intro h
    rw [runHMD_append] at h
    rw [lastNotification_append]
    cases hn : e.notified with
    | none =>
      rw [apply_connected_of_not_notified e _ hn] at h
      exact ih h
    | some n =>
      cases e with
      | connectionState api eng newState =>
        simp only [HMDEvent.notified, Option.some.injEq] at hn
        subst hn
        simp only [HMDEvent.apply, OnConnectionStateChanged_connected] at h
        by_cases hc : newState = IsarConnectionState_CONNECTED
        · simp [hc]
        · simp [hc] at h
      | enableStereo api eng file iStereo => simp [HMDEvent.notified] at hn
      | registerHandler h => simp [HMDEvent.notified] at hn
      | unregisterHandler h => simp [HMDEvent.notified] at hn
      | beginRendering api => simp [HMDEvent.notified] at hn
      | finishRendering api eng stack => simp [HMDEvent.notified] at hn

/-- C15: in every state of `FStreamHMD` reached from a disconnected one by notifications,
`EnableStereo` calls, handler registrations and rendered frames, `m_connected` is true
only if the most recent connection-state notification was CONNECTED;
`OnConnectionStateChanged` sets `m_connected` to false for every state other than
CONNECTED, to true for CONNECTED when `renderConfig.depthEnabled` is 0, and for CONNECTED
with `depthEnabled` non-zero leaves it unchanged and calls `RestartConnection`. -/
theorem connected_flag_follows_notifications (events : List HMDEvent) (s0 : FStreamHMD)
    (h0 : s0.m_connected = false) :
    ((runHMD events s0).m_connected = true →
      lastNotification events = some IsarConnectionState_CONNECTED) ∧
    (∀ (api : ServerApi) (eng : Engine) (newState : Int) (s : FStreamHMD),
      (newState ≠ IsarConnectionState_CONNECTED →
        (s.OnConnectionStateChanged api eng newState).1.m_connected = false) ∧
      (newState = IsarConnectionState_CONNECTED →
        (api.getConnectionInfo.getD s.m_connectionInfo).renderConfig.depthEnabled = 0 →
        (s.OnConnectionStateChanged api eng newState).1.m_connected = true) ∧
      (newState = IsarConnectionState_CONNECTED →
        (api.getConnectionInfo.getD s.m_connectionInfo).renderConfig.depthEnabled ≠ 0 →
        (s.OnConnectionStateChanged api eng newState).1.m_connected = s.m_connected ∧
        (s.OnConnectionStateChanged api eng newState).2.1 =
          (s.getConnectionInfo api).2 ++
            ((s.getConnectionInfo api).1.RestartConnection api).2)) := by
  refine ⟨connected_only_after_CONNECTED events s0 h0, fun api eng newState s => ⟨?_, ?_, ?_⟩⟩
  · intro hc
    rw [OnConnectionStateChanged_connected, if_neg hc]
  · intro hc hd
    rw [OnConnectionStateChanged_connected, if_pos hc, if_pos hd]
  · intro hc hd
    refine ⟨?_, ?_⟩
    · rw [OnConnectionStateChanged_connected, if_pos hc, if_neg hd]
    · unfold FStreamHMD.OnConnectionStateChanged
      simp [hc, getConnectionInfo_fst, hd]

/-- C15 on a fresh object: CONNECTED with depth disabled, a rendered frame, then CLOSING. -/
theorem connected_flag_follows_notifications_witness :
    initialHMD.m_connected = false ∧
    (runHMD [ HMDEvent.connectionState (sampleApi 2 0) sampleEngine
                IsarConnectionState_CONNECTED,
              HMDEvent.beginRendering (sampleApi 2 0) ] initialHMD).m_connected = true ∧
    (runHMD [ HMDEvent.connectionState (sampleApi 2 0) sampleEngine
                IsarConnectionState_CONNECTED,
              HMDEvent.beginRendering (sampleApi 2 0),
              HMDEvent.connectionState (sampleApi 2 0) sampleEngine
                IsarConnectionState_CLOSING ] initialHMD).m_connected = false ∧
    ((runHMD [ HMDEvent.connectionState (sampleApi 2 0) sampleEngine
                 IsarConnectionState_CONNECTED,
               HMDEvent.beginRendering (sampleApi 2 0) ] initialHMD).m_connected = true →
      lastNotification [ HMDEvent.connectionState (sampleApi 2 0) sampleEngine
                 IsarConnectionState_CONNECTED,
               HMDEvent.beginRendering (sampleApi 2 0) ]
        = some IsarConnectionState_CONNECTED) :=
  ⟨by decide, by decide, by decide,
   (connected_flag_follows_notifications
      [ HMDEvent.connectionState (sampleApi 2 0) sampleEngine IsarConnectionState_CONNECTED,
        HMDEvent.beginRendering (sampleApi 2 0) ] initialHMD (by decide)).1⟩


/-! ## Connection info, port range and device ids -/

theorem sampleInfo_remoteVersion (numViews depthEnabled : Nat) :
    ((sampleInfo numViews depthEnabled).remoteVersion : Int) = ISAR_LATEST_VERSION := by
  show ((2025 * 2 ^ 20 : Nat) : Int) = ISAR_LATEST_VERSION
  decide

/-- C12 as stated fails: on a connected object whose native `getConnectionInfo` fails and
writes nothing, `GetConnectionInfo` still returns true, and `RemoteName` and the other
fields are those of the record stored before the call, not of a native result. -/
theorem GetConnectionInfo_contract_counterexample :
    staleInfoHMD.m_connected = true ∧
    noInfoApi.getConnectionInfo = none ∧
    (staleInfoHMD.GetConnectionInfo noInfoApi
      ⟨"", "", ⟨0, 0, 0, 0, 0, false, false⟩, 255, 0⟩).1 = true ∧
    (staleInfoHMD.GetConnectionInfo noInfoApi
      ⟨"", "", ⟨0, 0, 0, 0, 0, false, false⟩, 255, 0⟩).2.1.RemoteName = "previous client" ∧
    (staleInfoHMD.GetConnectionInfo noInfoApi
      ⟨"", "", ⟨0, 0, 0, 0, 0, false, false⟩, 255, 0⟩).2.1.RenderConfig
      = ⟨2064, 2208, 2, 20000, 90, false, false⟩ := by
  decide

/-- C12 amended: `FStreamHMD::GetConnectionInfo` returns false, makes no library call and
leaves its output argument and the object unchanged whenever `m_connected` is false;
otherwise it calls the native `getConnectionInfo` once, ignores the error it returns, and
returns true with `RemoteName`, `RemoteVersion` (major.minor.patch of `remoteVersion`,
printed with `%d.%d.%d`), `RenderConfig`, `RemoteDeviceType` and `CodecInUse` taken from
`m_connectionInfo` as the call leaves it: the record the native call wrote, or the record
stored before when the call wrote nothing. -/
theorem GetConnectionInfo_contract (api : ServerApi) (ConnectionInfo : FStreamConnectionInfo)
    (s : FStreamHMD) :
    (s.m_connected = false →
      s.GetConnectionInfo api ConnectionInfo = (false, ConnectionInfo, s, [])) ∧
    (s.m_connected = true →
      (s.GetConnectionInfo api ConnectionInfo).1 = true ∧
      (s.GetConnectionInfo api ConnectionInfo).2.2.2 =
        [ApiCall.getConnectionInfo s.m_streamConnection] ∧
      (s.GetConnectionInfo api ConnectionInfo).2.2.1.m_connectionInfo =
        api.getConnectionInfo.getD s.m_connectionInfo ∧
      (s.GetConnectionInfo api ConnectionInfo).2.1 =
        { RemoteName := (api.getConnectionInfo.getD s.m_connectionInfo).remoteName,
          RemoteVersion :=
            printfVersion
              (ISAR_GET_VERSION_MAJOR
                (api.getConnectionInfo.getD s.m_connectionInfo).remoteVersion)
              (ISAR_GET_VERSION_MINOR
                (api.getConnectionInfo.getD s.m_connectionInfo).remoteVersion)
              (ISAR_GET_VERSION_PATCH
                (api.getConnectionInfo.getD s.m_connectionInfo).remoteVersion),
          RenderConfig :=
            { Width := toI32 (api.getConnectionInfo.getD s.m_connectionInfo).renderConfig.width,
              Height := toI32 (api.getConnectionInfo.getD s.m_connectionInfo).renderConfig.height,
              NumViews :=
                toI32 (api.getConnectionInfo.getD s.m_connectionInfo).renderConfig.numViews,
              EncoderBitrateKbps :=
                (api.getConnectionInfo.getD s.m_connectionInfo).renderConfig.encoderBitrateKbps,
              Framerate :=
                toI32 (api.getConnectionInfo.getD s.m_connectionInfo).renderConfig.framerate,
              bDepthEnabled :=
                (api.getConnectionInfo.getD s.m_connectionInfo).renderConfig.depthEnabled == 1,
              bPosePredictionEnabled :=
                (api.getConnectionInfo.getD
                  s.m_connectionInfo).renderConfig.posePredictionEnabled == 1 },
          RemoteDeviceType := toU8 (api.getConnectionInfo.getD s.m_connectionInfo).remoteDeviceType,
          CodecInUse := toU8 (api.getConnectionInfo.getD s.m_connectionInfo).codecInUse }) := by
  refine ⟨?_, ?_⟩
  · intro h
    simp [FStreamHMD.GetConnectionInfo, h]
  · intro h
    unfold FStreamHMD.GetConnectionInfo FStreamHMD.getConnectionInfo
    rw [if_neg (by simp [h])]
    cases api.getConnectionInfo with
    | none => exact ⟨rfl, rfl, rfl, rfl⟩
    | some info => exact ⟨rfl, rfl, rfl, rfl⟩

/-- C12 amended, on a fresh object, on a connected one whose native call writes a record,
and on a connected one whose native call writes nothing. -/
theorem GetConnectionInfo_contract_witness :
    initialHMD.m_connected = false ∧
    connectedHMD.m_connected = true ∧
    initialHMD.GetConnectionInfo (sampleApi 2 0) ⟨"", "", ⟨0, 0, 0, 0, 0, false, false⟩, 255, 0⟩
      = (false, ⟨"", "", ⟨0, 0, 0, 0, 0, false, false⟩, 255, 0⟩, initialHMD, []) ∧
    (connectedHMD.GetConnectionInfo (sampleApi 2 0)
      ⟨"", "", ⟨0, 0, 0, 0, 0, false, false⟩, 255, 0⟩).1 = true ∧
    (connectedHMD.GetConnectionInfo (sampleApi 2 0)
      ⟨"", "", ⟨0, 0, 0, 0, 0, false, false⟩, 255, 0⟩).2.1
      = ⟨"client", "2025.0.0", ⟨2064, 2208, 2, 20000, 90, false, false⟩, 1, 1⟩ ∧
    (staleInfoHMD.GetConnectionInfo noInfoApi
      ⟨"", "", ⟨0, 0, 0, 0, 0, false, false⟩, 255, 0⟩).2.2.1.m_connectionInfo
      = staleInfoHMD.m_connectionInfo :=
  ⟨by decide, by decide,
   (GetConnectionInfo_contract (sampleApi 2 0) ⟨"", "", ⟨0, 0, 0, 0, 0, false, false⟩, 255, 0⟩
      initialHMD).1 (by decide),
   ((GetConnectionInfo_contract (sampleApi 2 0) ⟨"", "", ⟨0, 0, 0, 0, 0, false, false⟩, 255, 0⟩
      connectedHMD).2 (by decide)).1,
   by decide,
   ((GetConnectionInfo_contract noInfoApi ⟨"", "", ⟨0, 0, 0, 0, 0, false, false⟩, 255, 0⟩
      staleInfoHMD).2 (by decide)).2.2.1⟩

theorem portRangeValid_of_violates (f : RemotingConfigFile)
    (hmin : -(2 : Int) ^ 31 ≤ f.minPort ∧ f.minPort < 2 ^ 31)
    (hmax : -(2 : Int) ^ 31 ≤ f.maxPort ∧ f.maxPort < 2 ^ 31)
    (hv : violatesPortRange f) : portRangeValid (portRangeOfFile f) = false := by
  unfold violatesPortRange at hv
  unfold portRangeValid portRangeOfFile toU32
  simp only [Bool.and_eq_false_imp, Bool.and_eq_true, decide_eq_true_eq, decide_eq_false_iff_not,
    not_le]
  intro h
  obtain ⟨⟨⟨h1, h2⟩, h3⟩, h4⟩ := h
  omega

/-- C11: the native port-range check rejects 1023 as a lower and 65536 as an upper bound
and accepts [1024, 65535]; a `createConnection` that applies it answers a violating
range with an error, and `EnableStereo`, started without a created connection on a
`remoting-config.cfg` whose `int32` port range has `min > max` or a bound outside
[1024, 65535], passes that range on unchanged, leaves `m_connectionCreated` false and
returns false when it turns stereo on. -/
theorem EnableStereo_rejects_bad_port_range (api : ServerApi) (eng : Engine)
    (f : RemotingConfigFile) (iStereo : Bool) (s : FStreamHMD)
    (rejectError : IsarError) (accepted : IsarError × Option Nat)
    (hreject : rejectError ≠ eNone)
    (hapi : api.createConnection = createConnectionChecked rejectError accepted (portRangeOfFile f))
    (hmin : -(2 : Int) ^ 31 ≤ f.minPort ∧ f.minPort < 2 ^ 31)
    (hmax : -(2 : Int) ^ 31 ≤ f.maxPort ∧ f.maxPort < 2 ^ 31)
    (hv : violatesPortRange f)
    (hs : s.m_connectionCreated = false) :
    portRangeValid ⟨1023, 65535⟩ = false ∧ portRangeValid ⟨1024, 65536⟩ = false ∧
    portRangeValid ⟨1024, 65535⟩ = true ∧ portRangeValid ⟨1024, 1024⟩ = true ∧
    portRangeValid ⟨65535, 65535⟩ = true ∧ portRangeValid ⟨65535, 1024⟩ = false ∧
    (FStreamHMD.CreateConnection api (portRangeOfFile f) s.m_streamConnection)
      = (rejectError, s.m_streamConnection,
          [ApiCall.createConnection (portRangeOfFile f) rejectError s.m_streamConnection]) ∧
    (s.EnableStereo api eng (some f) iStereo).2.1.m_connectionCreated = false ∧
    (iStereo = true → s.m_stereoEnabled = false →
      (s.EnableStereo api eng (some f) iStereo).1 = false ∧
      (s.EnableStereo api eng (some f) iStereo).2.2 =
        [ApiCall.createConnection (portRangeOfFile f) rejectError s.m_streamConnection]) := by
  have hbad := portRangeValid_of_violates f hmin hmax hv
  have hc : api.createConnection = (rejectError, none) := by
    rw [hapi, createConnectionChecked, hbad]; rfl
  refine ⟨by decide, by decide, by decide, by decide, by decide, by decide, ?_, ?_, ?_⟩
  · simp [FStreamHMD.CreateConnection, hc]
  · unfold FStreamHMD.EnableStereo
    split
    · exact hs
    · simp only [hs, Bool.false_eq_true, if_false, Bool.not_false, if_true]
      split
      · rfl
      · simp only [FStreamHMD.InitConnectionConfig, FStreamHMD.CreateConnection,
          Bool.not_true, Bool.false_eq_true, if_false, hc]
        simp [hreject]
  · intro hi hst
    subst hi
    have hc2 : api.createConnection = (rejectError, none) := hc
    unfold FStreamHMD.EnableStereo
    simp only [hst, hs]
    simp [FStreamHMD.InitConnectionConfig, FStreamHMD.CreateConnection, hc2, hreject,
      portRangeOfFile]


/-- C11 on a fresh object and a file with `min-port` 1023: the connection is not created,
while the same library creates it for the shipped range. -/
theorem EnableStereo_rejects_bad_port_range_witness :
    violatesPortRange lowPortFile ∧
    (initialHMD.EnableStereo (checkingApi lowPortFile) sampleEngine (some lowPortFile)
      true).2.1.m_connectionCreated = false ∧
    (initialHMD.EnableStereo (checkingApi sampleFile) sampleEngine (some sampleFile)
      true).2.1.m_connectionCreated = true :=
  ⟨by decide,
   (EnableStereo_rejects_bad_port_range (checkingApi lowPortFile) sampleEngine lowPortFile true
      initialHMD eInvalidArgument (eNone, some 7) (by decide) rfl (by decide) (by decide)
      (by decide) rfl).2.2.2.2.2.2.2.1,
   by decide⟩


/-- C13: under natural alignment eight of the eleven sizes documented in `input_types.h`
are the sizes of the declared fields, and three are not: `IsarXrPose_Deprecated` is
documented with 256 bytes and has 264, `IsarHandPose` with 1040 and has 936 (26 joints
of 36 bytes), `IsarInteractionSourceState` with 1216 and has 1112. -/
theorem documented_sizes_mismatch :
    sizeMismatches =
      [ ("IsarXrPose_Deprecated", 256, 264), ("IsarHandPose", 1040, 936),
        ("IsarInteractionSourceState", 1216, 1112) ] ∧
    IsarJointPose_layout.size * 26 = IsarHandPose_layout.size ∧
    IsarControllerData_layout = ⟨1112, 8⟩ := by
  decide


/-! ## The client's frame slot -/

theorem runClient_append (es : List ClientEvent) (e : ClientEvent) (c : ClientConnection) :
    runClient (es ++ [e]) c = e.apply (runClient es c) := by
  simp [runClient, List.foldl_append]

theorem lastArrival_append (es : List ClientEvent) (e : ClientEvent) :
    lastArrival (es ++ [e]) =
      match e.arrived with
      | some n => some n
      | none => lastArrival es := by
  unfold lastArrival
  rw [List.filterMap_append]
  cases hn : e.arrived with
  | none => simp [List.filterMap, hn]
  | some n => simp [List.filterMap, hn]

theorem pullFrame_slot (c : ClientConnection) : c.pullFrame.2.2.latest = none := by
  unfold ClientConnection.pullFrame
  cases h : c.latest with
  | none => simpa using h
  | some f => rfl

theorem pullFrame_of_empty (c : ClientConnection) (h : c.latest = none) :
    c.pullFrame = (eNoFrame, none, c) := by
  unfold ClientConnection.pullFrame
  rw [h]

theorem latest_is_lastArrival (events : List ClientEvent) (f : Nat) :
    (runClient events newClientConnection).latest = some f → lastArrival events = some f := by
  induction events using List.reverseRecOn with
  | nil => intro h; simp [runClient, newClientConnection] at h
  | append_singleton es e ih =>
    intro h
    rw [runClient_append] at h
    rw [lastArrival_append]
    cases e with
    | arrive frame =>
      simp only [ClientEvent.apply, ClientConnection.frameArrived, Option.some.injEq] at h
      simp [ClientEvent.arrived, h]
    | pull =>
      simp only [ClientEvent.apply, pullFrame_slot] at h
      simp at h

/-- C14: on the single-slot client connection `pullFrame` is latest-only. After any
history of arrivals and pulls on a new connection, a pull that directly follows another
pull returns `eNoFrame` and no frame, and a pull that returns a frame returns `eNone`
and the most recently arrived frame of the history. -/
theorem pullFrame_latest_only (events : List ClientEvent) :
    ((runClient (events ++ [ClientEvent.pull]) newClientConnection).pullFrame.1 = eNoFrame ∧
     (runClient (events ++ [ClientEvent.pull]) newClientConnection).pullFrame.2.1 = none) ∧
    (∀ frame : Nat,
      (runClient events newClientConnection).pullFrame.2.1 = some frame →
        (runClient events newClientConnection).pullFrame.1 = eNone ∧
        lastArrival events = some frame) ∧
    (∀ frame : Nat,
      (runClient (events ++ [ClientEvent.arrive frame]) newClientConnection).pullFrame
        = (eNone, some frame, newClientConnection)) := by
  refine ⟨?_, ?_, ?_⟩
  · rw [runClient_append]
    simp only [ClientEvent.apply]
    rw [pullFrame_of_empty _ (pullFrame_slot (runClient events newClientConnection))]
    exact ⟨rfl, rfl⟩
  · intro frame h
    have hl := latest_is_lastArrival events frame
    unfold ClientConnection.pullFrame at h ⊢
    cases hc : (runClient events newClientConnection).latest with
    | none => rw [hc] at h; simp at h
    | some f =>
      rw [hc] at h
      simp only [Option.some.injEq] at h
      subst h
      exact ⟨rfl, hl hc⟩
  · intro frame
    rw [runClient_append]
    rfl


/-! ## Registered controllers -/

theorem map_updateFirst {α β : Type} (p : α → Bool) (f : α → α) (g : α → β)
    (hg : ∀ a, g (f a) = g a) (l : List α) : (updateFirst p f l).map g = l.map g := by
  induction l with
  | nil => rfl
  | cons a l ih =>
    unfold updateFirst
    split
    · simp [hg]
    · simp [ih]

theorem forall₂_updateFirst (deviceId : Nat) (data : StreamControllerUpdateData)
    (f : StreamController → StreamController)
    (hf : ∀ c, f c = { c with updateData := data }) (l : List StreamController)
    (hn : (l.map (fun c => c.deviceId)).Nodup) :
    List.Forall₂ (onlyUpdateDataReplaced deviceId data) l
      (updateFirst (fun e => e.deviceId == deviceId) f l) := by
  induction l with
  | nil => exact List.Forall₂.nil
  | cons a l ih =>
    rw [List.map_cons, List.nodup_cons] at hn
    unfold updateFirst
    split
    · rename_i ha
      have ha2 : a.deviceId = deviceId := by simpa using ha
      refine List.Forall₂.cons (Or.inr ⟨ha2, hf a⟩) ?_
      have hall : ∀ c ∈ l, c.deviceId ≠ deviceId := by
        intro c hc hcd
        exact hn.1 (List.mem_map.mpr ⟨c, hc, by rw [hcd, ha2]⟩)
      clear ih hn
      induction l with
      | nil => exact List.Forall₂.nil
      | cons b l ih2 =>
        exact List.Forall₂.cons (Or.inl ⟨hall b (List.mem_cons_self _ _), rfl⟩)
          (ih2 (fun c hc => hall c (List.mem_cons_of_mem _ hc)))
    · rename_i ha
      have ha2 : a.deviceId ≠ deviceId := by simpa using ha
      exact List.Forall₂.cons (Or.inl ⟨ha2, rfl⟩) (ih hn.2)

theorem not_mem_map_eraseP (deviceId : Nat) (l : List StreamController)
    (hn : (l.map (fun c => c.deviceId)).Nodup) :
    deviceId ∉ (l.eraseP (fun e => e.deviceId == deviceId)).map (fun c => c.deviceId) := by
  induction l with
  | nil => simp
  | cons a l ih =>
    rw [List.map_cons, List.nodup_cons] at hn
    by_cases ha : a.deviceId = deviceId
    · rw [List.eraseP_cons_of_pos (by simpa using ha)]
      rw [← ha]
      exact hn.1
    · rw [List.eraseP_cons_of_neg (by simpa using ha)]
      rw [List.map_cons, List.mem_cons]
      intro h
      rcases h with h | h
      · exact ha h.symm
      · exact ih hn.2 h

theorem nodup_map_eraseP (p : StreamController → Bool) (l : List StreamController)
    (hn : (l.map (fun c => c.deviceId)).Nodup) :
    ((l.eraseP p).map (fun c => c.deviceId)).Nodup :=
  List.Nodup.sublist (List.Sublist.map _ (List.eraseP_sublist l)) hn

theorem find?_none_not_mem (deviceId : Nat) (l : List StreamController)
    (h : l.find? (fun e => e.deviceId == deviceId) = none) :
    deviceId ∉ l.map (fun c => c.deviceId) := by
  intro hm
  obtain ⟨c, hc, hcd⟩ := List.mem_map.mp hm
  have := List.find?_eq_none.mp h c hc
  simp [hcd] at this

theorem find?_none_of_not_mem (deviceId : Nat) (l : List StreamController)
    (h : deviceId ∉ l.map (fun c => c.deviceId)) :
    l.find? (fun e => e.deviceId == deviceId) = none := by
  rw [List.find?_eq_none]
  intro c hc hcd
  exact h (List.mem_map.mpr ⟨c, hc, by simpa using hcd⟩)

theorem nodup_map_append_new (deviceId : Nat) (l : List StreamController)
    (c : StreamController) (hn : (l.map (fun c => c.deviceId)).Nodup)
    (hc : c.deviceId = deviceId) (hnot : deviceId ∉ l.map (fun c => c.deviceId)) :
    ((l ++ [c]).map (fun c => c.deviceId)).Nodup := by
  rw [List.map_append, List.nodup_append]
  refine ⟨hn, by simp, ?_⟩
  intro a ha hb
  simp only [List.map_cons, List.map_nil, List.mem_singleton] at hb
  subst hb
  exact hnot (hc ▸ ha)

theorem HandleInputSourceDetected_nodup (ops : FloatOps) (heap : Heap)
    (sourceState : IsarInteractionSourceState) (s : FStreamInput) (hn : s.deviceIds.Nodup) :
    (s.HandleInputSourceDetected ops heap sourceState).state.deviceIds.Nodup := by
  unfold FStreamInput.deviceIds at hn ⊢
  unfold FStreamInput.HandleInputSourceDetected
  dsimp only
  split
  · dsimp only
    rw [map_updateFirst]
    · exact hn
    · intro _; rfl
  · rename_i hfind
    have hnot := find?_none_not_mem _ _ hfind
    split <;> exact nodup_map_append_new _ _ _ hn rfl hnot

theorem dispatchInput_nodup (ops : FloatOps) (heap : Heap) (input : IsarSpatialInput)
    (s : FStreamInput) (hn : s.deviceIds.Nodup) :
    (s.dispatchInput ops heap input).state.deviceIds.Nodup := by
  unfold FStreamInput.dispatchInput
  dsimp only
  split
  · split
    · exact hn
    · unfold FStreamInput.deviceIds at hn ⊢
      dsimp only
      rw [map_updateFirst]
      · exact hn
      · intro _; rfl
  · split
    · exact HandleInputSourceDetected_nodup ops heap _ s hn
    · split
      · split
        · exact hn
        · split
          · exact hn
          · exact nodup_map_eraseP _ _ hn
      · exact hn


theorem processInput_state (ops : FloatOps) (heap : Heap) (input : IsarSpatialInput)
    (s : FStreamInput) :
    (s.processInput ops heap input).state = (s.dispatchInput ops heap input).state ∧
    (s.processInput ops heap input).threw = (s.dispatchInput ops heap input).threw := by
  unfold FStreamInput.processInput
  dsimp only
  split <;> exact ⟨rfl, rfl⟩

theorem processAll_nodup (ops : FloatOps) (heap : Heap) (l : List IsarSpatialInput) :
    ∀ s : FStreamInput, s.deviceIds.Nodup →
      (FStreamInput.processAll ops heap l s).state.deviceIds.Nodup := by
  induction l with
  | nil => intro s hn; exact hn
  | cons input rest ih =>
    intro s hn
    have h1 : (s.processInput ops heap input).state.deviceIds.Nodup := by
      rw [(processInput_state ops heap input s).1]
      exact dispatchInput_nodup ops heap input s hn
    unfold FStreamInput.processAll
    dsimp only
    split
    · exact h1
    · exact ih _ h1

theorem Tick_nodup (api : ServerApi) (ops : FloatOps) (heap : Heap) (s : FStreamInput)
    (hn : s.deviceIds.Nodup) : (s.Tick api ops heap).2.state.deviceIds.Nodup := by
  unfold FStreamInput.Tick
  dsimp only
  split
  · exact hn
  · split
    · exact hn
    · split
      · exact hn
      · exact processAll_nodup ops heap _ s hn

theorem OnConnectionStateChanged_nodup (newState : Int) (s : FStreamInput)
    (hn : s.deviceIds.Nodup) : (s.OnConnectionStateChanged newState).state.deviceIds.Nodup := by
  unfold FStreamInput.OnConnectionStateChanged
  dsimp only
  split
  · exact hn
  · split
    · exact hn
    · exact List.nodup_nil

theorem step_nodup (e : InputEvent) (s : FStreamInput) (hn : s.deviceIds.Nodup) :
    (e.step s).state.deviceIds.Nodup := by
  cases e with
  | tick api ops heap => exact Tick_nodup api ops heap s hn
  | connectionState newState => exact OnConnectionStateChanged_nodup newState s hn

theorem runInput_append (es : List InputEvent) (e : InputEvent) (s : FStreamInput) :
    runInput (es ++ [e]) s =
      ((e.step (runInput es s).1).state, (runInput es s).2 || (e.step (runInput es s).1).threw) := by
  simp [runInput, List.foldl_append]

theorem runInput_nodup (events : List InputEvent) (s : FStreamInput) (hn : s.deviceIds.Nodup) :
    (runInput events s).1.deviceIds.Nodup := by
  induction events using List.reverseRecOn with
  | nil => exact hn
  | append_singleton es e ih =>
    rw [runInput_append]
    exact step_nodup e _ ih

/-- When the switch does not throw, every stored controller still has a known type. -/
theorem dispatchInput_known_of_not_threw (ops : FloatOps) (heap : Heap)
    (input : IsarSpatialInput) (s : FStreamInput)
    (hs : ∀ c ∈ s.m_xrControllers, knownType c.controllerType = true)
    (ht : (s.dispatchInput ops heap input).threw = false) :
    ∀ c ∈ (s.dispatchInput ops heap input).state.m_xrControllers,
      knownType c.controllerType = true := by
  revert ht
  unfold FStreamInput.dispatchInput
  dsimp only
  split
  · split
    · exact fun _ => hs
    · intro _ c hc
      rcases mem_updateFirst _ _ _ c hc with h1 | ⟨y, hy, rfl⟩
      · exact hs c h1
      · exact hs y hy
  · split
    · unfold FStreamInput.HandleInputSourceDetected
      dsimp only
      split
      · intro _ c hc
        rcases mem_updateFirst _ _ _ c hc with h1 | ⟨y, hy, rfl⟩
        · exact hs c h1
        · exact hs y hy
      · split
        · intro ht
          simp at ht
        · rename_i name hname
          intro _ c hc
          rcases List.mem_append.mp hc with h1 | h1
          · exact hs c h1
          · simp only [List.mem_singleton] at h1
            subst h1
            simp [knownType, hname]
    · split
      · split
        · exact fun _ => hs
        · split
          · exact fun _ => hs
          · intro _ c hc
            exact hs c (List.mem_of_mem_eraseP hc)
      · exact fun _ => hs

theorem processAll_known_of_not_threw (ops : FloatOps) (heap : Heap)
    (l : List IsarSpatialInput) :
    ∀ s : FStreamInput, (∀ c ∈ s.m_xrControllers, knownType c.controllerType = true) →
      (FStreamInput.processAll ops heap l s).threw = false →
      ∀ c ∈ (FStreamInput.processAll ops heap l s).state.m_xrControllers,
        knownType c.controllerType = true := by
  induction l with
  | nil => intro s hs _; exact hs
  | cons input rest ih =>
    intro s hs
    unfold FStreamInput.processAll
    dsimp only
    split
    · rename_i ht
      intro h
      rw [ht] at h
      simp at h
    · rename_i ht
      intro h
      have ht2 : (s.dispatchInput ops heap input).threw = false := by
        rw [← (processInput_state ops heap input s).2]
        simpa using ht
      have hk := dispatchInput_known_of_not_threw ops heap input s hs ht2
      rw [← (processInput_state ops heap input s).1] at hk
      exact ih _ hk h

theorem step_known_of_not_threw (e : InputEvent) (s : FStreamInput)
    (hs : ∀ c ∈ s.m_xrControllers, knownType c.controllerType = true)
    (ht : (e.step s).threw = false) :
    ∀ c ∈ (e.step s).state.m_xrControllers, knownType c.controllerType = true := by
  cases e with
  | tick api ops heap =>
    revert ht
    simp only [InputEvent.step]
    unfold FStreamInput.Tick
    dsimp only
    split
    · exact fun _ => hs
    · split
      · exact fun _ => hs
      · split
        · exact fun _ => hs
        · exact processAll_known_of_not_threw ops heap _ s hs
  | connectionState newState =>
    revert ht
    simp only [InputEvent.step]
    unfold FStreamInput.OnConnectionStateChanged
    dsimp only
    split
    · exact fun _ => hs
    · split
      · exact fun _ => hs
      · intro _ c hc
        simp at hc

theorem runInput_known (events : List InputEvent) (s : FStreamInput)
    (hs : ∀ c ∈ s.m_xrControllers, knownType c.controllerType = true)
    (ht : (runInput events s).2 = false) :
    ∀ c ∈ (runInput events s).1.m_xrControllers, knownType c.controllerType = true := by
  induction events using List.reverseRecOn with
  | nil => exact hs
  | append_singleton es e ih =>
    rw [runInput_append] at ht ⊢
    simp only [Bool.or_eq_false_iff] at ht
    exact step_known_of_not_threw e _ (ih ht.1) ht.2

theorem notifyNotTracked_known (handlers : List Handler) (l : List StreamController)
    (hs : ∀ c ∈ l, knownType c.controllerType = true) :
    (notifyNotTracked handlers l).2 = false := by
  induction l with
  | nil => rfl
  | cons a l ih =>
    unfold notifyNotTracked
    have ha := hs a (List.mem_cons_self _ _)
    cases hd : DEVICE_NAMES_at a.controllerType with
    | none => simp [knownType, hd] at ha
    | some name => exact ih (fun c hc => hs c (List.mem_cons_of_mem _ hc))


theorem inputType_values :
    IsarInputType_SOURCE_DETECTED = 0 ∧ IsarInputType_SOURCE_LOST = 1 ∧
    IsarInputType_SOURCE_PRESSED = 2 ∧ IsarInputType_SOURCE_UPDATED = 3 ∧
    IsarInputType_SOURCE_RELEASED = 4 := by
  decide

theorem find?_some_of_mem (deviceId : Nat) (l : List StreamController)
    (h : deviceId ∈ l.map (fun c => c.deviceId)) :
    ∃ c, l.find? (fun e => e.deviceId == deviceId) = some c := by
  cases hf : l.find? (fun e => e.deviceId == deviceId) with
  | none => exact absurd h (find?_none_not_mem _ _ hf)
  | some c => exact ⟨c, rfl⟩

theorem dispatchInput_detected_present (ops : FloatOps) (heap : Heap)
    (input : IsarSpatialInput) (s : FStreamInput) (hn : s.deviceIds.Nodup)
    (ht : input.type = IsarInputType_SOURCE_DETECTED)
    (hm : MapToDeviceID input.data ∈ s.deviceIds) :
    (s.dispatchInput ops heap input).threw = false ∧
    (s.dispatchInput ops heap input).dispatched = [] ∧
    List.Forall₂
      (onlyUpdateDataReplaced (MapToDeviceID input.data) (CreateUpdateData ops heap input.data).1)
      s.m_xrControllers (s.dispatchInput ops heap input).state.m_xrControllers := by
  obtain ⟨h0, h1, h2, h3, h4⟩ := inputType_values
  obtain ⟨c, hc⟩ := find?_some_of_mem _ _ hm
  unfold FStreamInput.dispatchInput FStreamInput.HandleInputSourceDetected
  simp only [ht, h0, h1, h2, h3, h4, hc]
  refine ⟨rfl, rfl, ?_⟩
  exact forall₂_updateFirst _ _ _ (fun _ => rfl) _ hn

theorem dispatchInput_absent (ops : FloatOps) (heap : Heap)
    (input : IsarSpatialInput) (s : FStreamInput)
    (ht : input.type ≠ IsarInputType_SOURCE_DETECTED)
    (hm : MapToDeviceID input.data ∉ s.deviceIds) :
    (s.dispatchInput ops heap input).state = s ∧
    (s.dispatchInput ops heap input).dispatched = [] := by
  have hf := find?_none_of_not_mem _ _ hm
  unfold FStreamInput.dispatchInput
  dsimp only
  split
  · rw [hf]
    exact ⟨rfl, rfl⟩
  · split
    · rename_i hd
      exact absurd (by simpa using hd) ht
    · split
      · rw [hf]
        exact ⟨rfl, rfl⟩
      · exact ⟨rfl, rfl⟩

theorem dispatchInput_lost_present (ops : FloatOps) (heap : Heap)
    (input : IsarSpatialInput) (s : FStreamInput) (hn : s.deviceIds.Nodup)
    (hk : ∀ c ∈ s.m_xrControllers, knownType c.controllerType = true)
    (ht : input.type = IsarInputType_SOURCE_LOST)
    (hm : MapToDeviceID input.data ∈ s.deviceIds) :
    (s.dispatchInput ops heap input).threw = false ∧
    MapToDeviceID input.data ∉ (s.dispatchInput ops heap input).state.deviceIds ∧
    (s.dispatchInput ops heap input).state.m_xrControllers =
      s.m_xrControllers.eraseP (fun e => e.deviceId == MapToDeviceID input.data) ∧
    (s.dispatchInput ops heap input).state.m_xrControllers.length + 1 =
      s.m_xrControllers.length := by
  obtain ⟨h0, h1, h2, h3, h4⟩ := inputType_values
  obtain ⟨c, hc⟩ := find?_some_of_mem _ _ hm
  have hcm : c ∈ s.m_xrControllers := List.mem_of_find?_eq_some hc
  have hcp : (c.deviceId == MapToDeviceID input.data) = true := by
    have := List.find?_some hc
    simpa using this
  have hck := hk c hcm
  cases hd : DEVICE_NAMES_at c.controllerType with
  | none => simp [knownType, hd] at hck
  | some name =>
    have hlen := List.length_eraseP_of_mem (p := fun e => e.deviceId == MapToDeviceID input.data)
      hcm hcp
    have hpos : 0 < s.m_xrControllers.length := List.length_pos_of_mem hcm
    unfold FStreamInput.dispatchInput
    simp only [ht, h0, h1, h2, h3, h4, hc, hd]
    refine ⟨rfl, ?_, rfl, ?_⟩
    · exact not_mem_map_eraseP _ _ hn
    · show (List.eraseP (fun e => e.deviceId == MapToDeviceID input.data)
        s.m_xrControllers).length + 1 = s.m_xrControllers.length
      omega

theorem OnConnectionStateChanged_empties (newState : Int) (s : FStreamInput)
    (hk : ∀ c ∈ s.m_xrControllers, knownType c.controllerType = true)
    (hs : newState ≠ IsarConnectionState_CONNECTED) :
    (s.OnConnectionStateChanged newState).state.m_xrControllers = [] ∧
    (s.OnConnectionStateChanged newState).state.m_connected = false ∧
    (s.OnConnectionStateChanged newState).threw = false := by
  unfold FStreamInput.OnConnectionStateChanged
  have hb : (newState == IsarConnectionState_CONNECTED) = false := by simpa using hs
  simp only [hb, Bool.false_eq_true, if_false,
    notifyNotTracked_known s.m_controllerStateHandlers s.m_xrControllers hk]
  simp


/-- C18: the device ids of `m_xrControllers` are distinct in every state reached from an
empty controller list, but the entry of a controller whose type is no key of
`DEVICE_NAMES` is never removed again: after SOURCE_DETECTED for controller type 18 in
the left hand (device id 38), a CLOSING notification clears `m_connected` and leaves the
list at [38], and a SOURCE_LOST for the same controller leaves it at [38] as well,
because `DEVICE_NAMES.at` throws before `clear()` and before `erase`. For controller
type 17 the same two histories end with an empty list. -/
theorem controllers_kept_after_unknown_type :
    (∀ (events : List InputEvent) (s : FStreamInput),
      (runInput events { s with m_xrControllers := [] }).1.deviceIds.Nodup) ∧
    connectedInput.m_xrControllers = [] ∧
    DEVICE_NAMES_at 18 = none ∧
    (runInput [InputEvent.tick (inputApi [sampleInput IsarInputType_SOURCE_DETECTED 18]) sampleOps sampleHeap]
      connectedInput).1.deviceIds = [38] ∧
    (runInput [InputEvent.tick (inputApi [sampleInput IsarInputType_SOURCE_DETECTED 18]) sampleOps sampleHeap,
               InputEvent.connectionState IsarConnectionState_CLOSING]
      connectedInput).1.deviceIds = [38] ∧
    (runInput [InputEvent.tick (inputApi [sampleInput IsarInputType_SOURCE_DETECTED 18]) sampleOps sampleHeap,
               InputEvent.connectionState IsarConnectionState_CLOSING]
      connectedInput).1.m_connected = false ∧
    (runInput [InputEvent.tick (inputApi [sampleInput IsarInputType_SOURCE_DETECTED 18]) sampleOps sampleHeap,
               InputEvent.tick (inputApi [sampleInput IsarInputType_SOURCE_LOST 18]) sampleOps sampleHeap]
      connectedInput).1.deviceIds = [38] ∧
    (runInput [InputEvent.tick (inputApi [sampleInput IsarInputType_SOURCE_DETECTED 17]) sampleOps sampleHeap,
               InputEvent.connectionState IsarConnectionState_CLOSING]
      connectedInput).1.deviceIds = [] ∧
    (runInput [InputEvent.tick (inputApi [sampleInput IsarInputType_SOURCE_DETECTED 17]) sampleOps sampleHeap,
               InputEvent.tick (inputApi [sampleInput IsarInputType_SOURCE_LOST 17]) sampleOps sampleHeap]
      connectedInput).1.deviceIds = [] := by
  refine ⟨fun events s => runInput_nodup events _ List.nodup_nil, ?_⟩
  decide


/-! ## Controller events -/

theorem sendControllerEventsLoop_not_tracking (useEnhancedActions : Bool)
    (tablesOf : StreamController → ControllerKeyTables)
    (m_2DAxisMap : List (String × String × String)) (controller : StreamController)
    (rest : List StreamController) (h : controller.state ≠ ControllerTrackingState.Tracking) :
    sendControllerEventsLoop useEnhancedActions tablesOf m_2DAxisMap (controller :: rest)
      = ([], false) := by
  unfold sendControllerEventsLoop
  simp [h]

/-- C20: after controller types 1 and 2 were detected and only the second one sent an
update, `m_xrControllers` holds a `Detected` controller followed by a `Tracking` one;
`SendControllerEvents` then dispatches nothing, whatever the key tables are, although
the same `Tracking` controller on its own has its pressed button A dispatched. A
controller that is `Detected` or `Lost` ends the loop for every controller after it. -/
theorem SendControllerEvents_skips_tracking_controller :
    (runInput oneTrackingHistory connectedInput).1.m_connected = true ∧
    (runInput oneTrackingHistory connectedInput).1.m_xrControllers.map
        (fun c => (c.deviceId, c.state, c.updateData.buttons))
      = [ (4, ControllerTrackingState.Detected, [⟨3, true⟩]),
          (6, ControllerTrackingState.Tracking, [⟨3, true⟩]) ] ∧
    (∀ (tablesOf : StreamController → ControllerKeyTables)
        (m_2DAxisMap : List (String × String × String)),
      (runInput oneTrackingHistory connectedInput).1.SendControllerEvents tablesOf m_2DAxisMap
        = ([], false)) ∧
    FStreamInput.SendControllerEvents sampleTables []
        { (runInput oneTrackingHistory connectedInput).1 with
          m_xrControllers := (runInput oneTrackingHistory connectedInput).1.m_xrControllers.drop 1 }
      = ([ControllerEvent.OnControllerButtonPressed "A_Click"], false) ∧
    (∀ (useEnhancedActions : Bool) (tablesOf : StreamController → ControllerKeyTables)
        (m_2DAxisMap : List (String × String × String)) (controller : StreamController)
        (rest : List StreamController),
      sendControllerEventsLoop useEnhancedActions tablesOf m_2DAxisMap
          ({ controller with state := ControllerTrackingState.Detected } :: rest) = ([], false) ∧
      sendControllerEventsLoop useEnhancedActions tablesOf m_2DAxisMap
          ({ controller with state := ControllerTrackingState.Lost } :: rest) = ([], false)) := by
  refine ⟨by decide, by decide, ?_, by decide, ?_⟩
  · intro tablesOf m_2DAxisMap
    rfl
  · intro useEnhancedActions tablesOf m_2DAxisMap controller rest
    exact ⟨sendControllerEventsLoop_not_tracking _ _ _ _ _ (by simp),
           sendControllerEventsLoop_not_tracking _ _ _ _ _ (by simp)⟩


/-- C14 on a connection that received frames 1 and 2: the pull returns frame 2, the next
pull `eNoFrame`. -/
theorem pullFrame_latest_only_witness :
    (runClient [ClientEvent.arrive 1, ClientEvent.arrive 2] newClientConnection).pullFrame.2.1
      = some 2 ∧
    lastArrival [ClientEvent.arrive 1, ClientEvent.arrive 2] = some 2 ∧
    (runClient ([ClientEvent.arrive 1, ClientEvent.arrive 2] ++ [ClientEvent.pull])
      newClientConnection).pullFrame.1 = eNoFrame :=
  ⟨by decide,
   ((pullFrame_latest_only [ClientEvent.arrive 1, ClientEvent.arrive 2]).2.1 2 (by decide)).2,
   (pullFrame_latest_only [ClientEvent.arrive 1, ClientEvent.arrive 2]).1.1⟩


/-! ## Feature kinds and key tables -/

/-- C22: the four `IsarAxis2DType` identifiers give the feature kinds 47, 48, 49 and 50,
of which only 47 and 48 are AXIS2D feature kinds: `IsarAxis2DKind_PRIMARY_CONTROL_PAD`
gives `IsarXRControllerFeatureKind_DOCKED`. The stylus maps DOCKED to a key that
`m_2DAxisMap` does not hold, so for a tracked left-hand stylus whose update carries a
control-pad axis the legacy path of `SendControllerEvents` fails the assertion of
`m_2DAxisMap[…]`. For every other controller type with a `case`, and both hands, each key
looked up is in the map. -/
theorem SendControllerEvents_control_pad_asserts :
    axis2DIdentifiers.map legacyAxis2DKind = [47, 48, 49, 50] ∧
    axis2DFeatureKinds = [47, 48] ∧
    legacyAxis2DKind (IsarAxis2DType.ofName "IsarAxis2DKind_PRIMARY_CONTROL_PAD")
      = IsarXRControllerFeatureKind.ofName "IsarXRControllerFeatureKind_DOCKED" ∧
    axis2DLookups stylusType IsarSpatialInteractionSourceHandedness_LEFT
      = ["LogitechMXInk_Left_Docked_Click"] ∧
    m_2DAxisMap_initial.lookup "LogitechMXInk_Left_Docked_Click" = none ∧
    (runInput stylusHistory connectedInput).1.m_xrControllers.map
        (fun c => (c.controllerType, c.state, c.updateData.axis2D))
      = [(stylusType, ControllerTrackingState.Tracking, [⟨2, ⟨0, 0⟩⟩])] ∧
    (runInput stylusHistory connectedInput).1.SendControllerEvents legacyTablesOf
        m_2DAxisMap_initial = ([], true) ∧
    (supportedControllerTypes.filter (fun t => t != stylusType)).all (fun t =>
      [IsarSpatialInteractionSourceHandedness_LEFT,
       IsarSpatialInteractionSourceHandedness_RIGHT].all (fun h =>
        (axis2DLookups t h).all (fun key => (m_2DAxisMap_initial.lookup key).isSome))) = true := by
  refine ⟨by decide, by decide, by decide, by decide, by decide, by decide, by decide, by decide⟩


/-- C21: the enumerators of `IsarButtonType` below `IsarButtonKind_COUNT` are the
identifiers 0 to 14; the feature kind computed for each is the feature of the same
control (26 to 38 for HOME to SECONDARY_THUMB_REST, DOCKED for the two docked buttons);
for the four `IsarAxis1DType` identifiers the two sums are the press button and the axis
of the same control; and for every identifier the enhanced-actions path and the legacy
path compute the same feature kinds. -/
theorem feature_kinds_same_named :
    buttonFeatureNames.map (fun p => IsarButtonType.ofName p.1)
      = List.range (IsarButtonType.ofName "IsarButtonKind_COUNT") ∧
    buttonFeatureNames.map (fun p => enhancedButtonFeatureKind (IsarButtonType.ofName p.1))
      = buttonFeatureNames.map (fun p => IsarXRControllerFeatureKind.ofName p.2) ∧
    (List.range 13).map enhancedButtonFeatureKind
      = [26, 27, 28, 29, 30, 31, 32, 33, 34, 35, 36, 37, 38] ∧
    [13, 14].map enhancedButtonFeatureKind
      = [IsarXRControllerFeatureKind.ofName "IsarXRControllerFeatureKind_DOCKED",
         IsarXRControllerFeatureKind.ofName "IsarXRControllerFeatureKind_DOCKED"] ∧
    axis1DFeatureNames.map (fun p => IsarAxis1DType.ofName p.1)
      = List.range (IsarAxis1DType.ofName "IsarAxis1DKind_COUNT") ∧
    axis1DFeatureNames.map (fun p =>
        (enhancedAxis1DPressKind (IsarAxis1DType.ofName p.1),
         enhancedAxis1DKind (IsarAxis1DType.ofName p.1)))
      = axis1DFeatureNames.map (fun p =>
        (IsarXRControllerFeatureKind.ofName p.2.1, IsarXRControllerFeatureKind.ofName p.2.2)) ∧
    (∀ identifier : Nat,
      legacyButtonFeatureKind identifier = enhancedButtonFeatureKind identifier ∧
      legacyAxis1DPressKind identifier = enhancedAxis1DPressKind identifier ∧
      legacyAxis1DKind identifier = enhancedAxis1DKind identifier ∧
      legacyAxis2DKind identifier = enhancedAxis2DKind identifier) := by
  refine ⟨by decide, by decide, by decide, by decide, by decide, by decide, ?_⟩
  intro identifier
  exact ⟨rfl, rfl, rfl, rfl⟩


/-! ## Coordinate conversions -/

/-- C24: in exact arithmetic (any field, the rationals among them) the conversions of
`StreamCore.h` are mutually inverse: `ToXrVector (ToFVector v s) s = v` for every vector
`v` and every non-zero scale `s`, `ToXrQuat (ToFQuat q) = q` for every quaternion `q`,
and `ToFQuat` preserves `x^2 + y^2 + z^2 + w^2`. -/
theorem conversions_inverse {α : Type} [Field α] [DecidableEq α] (v : Vector3 α)
    (q : Quaternion α) (s : α) (hs : s ≠ 0) :
    ToXrVector (ToFVector v s) s = v ∧ ToXrQuat (ToFQuat q) = q ∧
    (ToFQuat q).normSq = q.normSq := by
  refine ⟨?_, ?_, ?_⟩
  · unfold ToXrVector ToFVector
    obtain ⟨x, y, z⟩ := v
    simp only []
    split
    · rename_i h
      obtain ⟨h1, h2, h3⟩ := h
      have hz : z = 0 := by
        rcases mul_eq_zero.mp h1 with h | h
        · exact neg_eq_zero.mp h
        · exact absurd h hs
      have hx : x = 0 := (mul_eq_zero.mp h2).resolve_right hs
      have hy : y = 0 := (mul_eq_zero.mp h3).resolve_right hs
      rw [hx, hy, hz]
    · congr 1
      · field_simp
      · field_simp
      · field_simp
  · unfold ToXrQuat ToFQuat
    obtain ⟨x, y, z, w⟩ := q
    simp
  · unfold FQuat.normSq Quaternion.normSq ToFQuat
    simp only []
    ring

/-- C24 on the rationals: the vector (1, 2, 3) at scale 100 and the quaternion
(1/2, 1/2, 1/2, 1/2). -/
theorem conversions_inverse_witness :
    ToFVector (⟨1, 2, 3⟩ : Vector3 ℚ) 100 = ⟨-300, 100, 200⟩ ∧
    ToXrVector (ToFVector (⟨1, 2, 3⟩ : Vector3 ℚ) 100) 100 = ⟨1, 2, 3⟩ ∧
    ToXrQuat (ToFQuat (⟨1/2, 1/2, 1/2, 1/2⟩ : Quaternion ℚ)) = ⟨1/2, 1/2, 1/2, 1/2⟩ :=
  ⟨by norm_num [ToFVector],
   (conversions_inverse (⟨1, 2, 3⟩ : Vector3 ℚ) ⟨1/2, 1/2, 1/2, 1/2⟩ 100 (by norm_num)).1,
   (conversions_inverse (⟨1, 2, 3⟩ : Vector3 ℚ) ⟨1/2, 1/2, 1/2, 1/2⟩ 100 (by norm_num)).2.1⟩


/-! ## Hand keypoints -/

theorem readJoints_spec (jointPoses : List IsarJointPose) (indices : List Nat) :
    ∀ joints : List IsarJointPose, readJoints jointPoses indices = some joints →
      joints.length = indices.length ∧
      ∀ k : Nat, k < indices.length →
        ∃ i joint, indices[k]? = some i ∧ jointPoses[i]? = some joint ∧ joints[k]? = some joint := by
  induction indices with
  | nil =>
    intro joints h
    simp only [readJoints, Option.some.injEq] at h
    subst h
    exact ⟨rfl, fun k hk => absurd hk (Nat.not_lt_zero k)⟩
  | cons i rest ih =>
    intro joints h
    unfold readJoints at h
    split at h
    · rename_i joint js hj hjs
      simp only [Option.some.injEq] at h
      subst h
      obtain ⟨hlen, hk⟩ := ih js hjs
      refine ⟨by simp [hlen], fun k hkl => ?_⟩
      cases k with
      | zero => exact ⟨i, joint, by simp, hj, by simp⟩
      | succ k =>
        obtain ⟨i2, joint2, h1, h2, h3⟩ := hk k (by simpa using hkl)
        exact ⟨i2, joint2, by simpa using h1, h2, by simpa using h3⟩
    · simp at h

theorem readJoints_isSome (jointPoses : List IsarJointPose) (indices : List Nat)
    (h : ∀ i ∈ indices, i < jointPoses.length) :
    ∃ joints, readJoints jointPoses indices = some joints := by
  induction indices with
  | nil => exact ⟨[], rfl⟩
  | cons i rest ih =>
    obtain ⟨js, hjs⟩ := ih (fun j hj => h j (List.mem_cons_of_mem _ hj))
    have hi : i < jointPoses.length := h i (List.mem_cons_self _ _)
    refine ⟨jointPoses[i] :: js, ?_⟩
    unfold readJoints
    rw [hjs, List.getElem?_eq_getElem hi]

theorem HAND_LITTLE_TIP_eq : IsarXRControllerFeatureKind_HAND_LITTLE_TIP = 25 := by decide

/-- C23: whenever `GetAllKeypointStates` returns true, each of the three output arrays has
exactly 26 entries and entry `i` is derived from `jointPoses[i]` of the hand found, for
`i` from 0 to 25; whenever it returns false the three arrays are as they were passed in;
and with 26 joints in every stored hand pose, as the type `IsarHandPose` has them, the
function returns and reads no index outside the array. -/
theorem GetAllKeypointStates_outputs (mul : F32 → F32 → F32) (hand : Int)
    (outPositions : List (FVector F32)) (outRotations : List (FQuat F32)) (outRadii : List F32)
    (s : FStreamInput) :
    (∀ positions rotations radii,
      s.GetAllKeypointStates mul hand outPositions outRotations outRadii
          = some (true, positions, rotations, radii) →
        positions.length = 26 ∧ rotations.length = 26 ∧ radii.length = 26 ∧
        ∃ it, s.findHand hand = some it ∧
          ∀ i : Nat, i < 26 → ∃ joint,
            it.updateData.handData.jointPoses[i]? = some joint ∧
            positions[i]? = some (ToFVector_f32 mul joint.position f1_0) ∧
            rotations[i]? = some (ToFQuat_f32 joint.orientation) ∧
            radii[i]? = some joint.radius) ∧
    (∀ positions rotations radii,
      s.GetAllKeypointStates mul hand outPositions outRotations outRadii
          = some (false, positions, rotations, radii) →
        positions = outPositions ∧ rotations = outRotations ∧ radii = outRadii) ∧
    ((∀ c ∈ s.m_xrControllers, c.updateData.handData.jointPoses.length = 26) →
      ∃ r, s.GetAllKeypointStates mul hand outPositions outRotations outRadii = some r) := by
  refine ⟨?_, ?_, ?_⟩
  · intro positions rotations radii h
    unfold FStreamInput.GetAllKeypointStates at h
    split at h
    · simp at h
    · split at h
      · simp at h
      · rename_i it hit
        split at h
        · simp at h
        · split at h
          · simp at h
          · rename_i joints hj
            simp only [Option.some.injEq, Prod.mk.injEq, true_and] at h
            obtain ⟨hp, hr, hrad⟩ := h
            subst hp hr hrad
            obtain ⟨hlen, hk⟩ := readJoints_spec _ _ joints hj
            rw [HAND_LITTLE_TIP_eq] at hlen hk
            simp only [List.length_range] at hlen hk
            refine ⟨by simp [hlen], by simp [hlen], by simp [hlen], it, hit, fun i hi => ?_⟩
            obtain ⟨i2, joint, h1, h2, h3⟩ := hk i hi
            have hi2 : i2 = i := by
              rw [List.getElem?_range hi] at h1
              exact (Option.some.inj h1).symm
            subst hi2
            exact ⟨joint, h2, by simp [h3], by simp [h3], by simp [h3]⟩
  · intro positions rotations radii h
    unfold FStreamInput.GetAllKeypointStates at h
    split at h
    · simp only [Option.some.injEq, Prod.mk.injEq, true_and] at h
      exact ⟨h.1.symm, h.2.1.symm, h.2.2.symm⟩
    · split at h
      · simp only [Option.some.injEq, Prod.mk.injEq, true_and] at h
        exact ⟨h.1.symm, h.2.1.symm, h.2.2.symm⟩
      · split at h
        · simp only [Option.some.injEq, Prod.mk.injEq, true_and] at h
          exact ⟨h.1.symm, h.2.1.symm, h.2.2.symm⟩
        · split at h
          · simp at h
          · simp at h
  · intro hall
    unfold FStreamInput.GetAllKeypointStates
    split
    · exact ⟨_, rfl⟩
    · split
      · exact ⟨_, rfl⟩
      · rename_i it hit
        have hmem : it ∈ s.m_xrControllers := by
          unfold FStreamInput.findHand at hit
          split at hit
          · exact List.mem_of_find?_eq_some hit
          · split at hit
            · exact List.mem_of_find?_eq_some hit
            · simp at hit
        split
        · exact ⟨_, rfl⟩
        · obtain ⟨joints, hj⟩ := readJoints_isSome it.updateData.handData.jointPoses
            (List.range (IsarXRControllerFeatureKind_HAND_LITTLE_TIP + 1))
            (by
              intro i hi
              rw [HAND_LITTLE_TIP_eq] at hi
              rw [hall it hmem]
              simpa using hi)
          rw [hj]
          exact ⟨_, rfl⟩


/-- C23 on a tracked left hand whose joints are all zero: the call returns true with 26
entries in each array, and false with the arrays untouched for the right hand. -/
theorem GetAllKeypointStates_outputs_witness :
    (runInput trackedHandHistory connectedInput).1.GetAllKeypointStates sampleMul
        EControllerHand_Left [] [] []
      = some (true, List.replicate 26 (ToFVector_f32 sampleMul ⟨0, 0, 0⟩ f1_0),
              List.replicate 26 (ToFQuat_f32 ⟨0, 0, 0, 0⟩), List.replicate 26 0) ∧
    (List.replicate 26 (ToFVector_f32 sampleMul ⟨0, 0, 0⟩ f1_0)).length = 26 ∧
    (runInput trackedHandHistory connectedInput).1.GetAllKeypointStates sampleMul
        EControllerHand_Right [⟨1, 2, 3⟩] [] [7]
      = some (false, [⟨1, 2, 3⟩], [], [7]) :=
  ⟨by decide,
   ((GetAllKeypointStates_outputs sampleMul EControllerHand_Left [] [] []
      (runInput trackedHandHistory connectedInput).1).1
      (List.replicate 26 (ToFVector_f32 sampleMul ⟨0, 0, 0⟩ f1_0))
      (List.replicate 26 (ToFQuat_f32 ⟨0, 0, 0, 0⟩)) (List.replicate 26 0) (by decide)).1,
   by decide⟩


/-! ## Microphone track -/

/-- C25: `OpenTrack` on a disconnected object only defers the start and returns true;
`CloseTrack` and `StopStream` then return true without a library call and without
clearing the deferred start, whatever the library would answer; the next CONNECTED
notification calls `setMicrophoneCaptureEnabled(true)` and marks the track open. -/
theorem deferred_start_survives_close :
    (∀ e1 e2 : IsarError,
      ((FStreamMicrophoneCaptureStream.initial.SetStreamApi 7).OpenTrack e1).1 = true ∧
      (((FStreamMicrophoneCaptureStream.initial.SetStreamApi 7).OpenTrack e1).2.1.CloseTrack
        e2).1 = true ∧
      (((FStreamMicrophoneCaptureStream.initial.SetStreamApi 7).OpenTrack e1).2.1.StopStream
        e2).1 = true) ∧
    (∀ e1 e2 : IsarError,
      runMic [MicEvent.openTrack e1, MicEvent.closeTrack e2,
              MicEvent.connectionState eNone IsarConnectionState_CONNECTED]
          (FStreamMicrophoneCaptureStream.initial.SetStreamApi 7)
        = ({ FStreamMicrophoneCaptureStream.initial with
             m_streamConnection := 7, m_connected := true, m_isTrackOpen := true,
             m_startMicrophoneOnConnection := true }, [⟨7, true, eNone⟩])) ∧
    (∀ e1 e2 : IsarError,
      runMic [MicEvent.openTrack e1, MicEvent.stopStream e2,
              MicEvent.connectionState eNone IsarConnectionState_CONNECTED]
          (FStreamMicrophoneCaptureStream.initial.SetStreamApi 7)
        = ({ FStreamMicrophoneCaptureStream.initial with
             m_streamConnection := 7, m_connected := true, m_isTrackOpen := true,
             m_startMicrophoneOnConnection := true }, [⟨7, true, eNone⟩])) ∧
    runMic [MicEvent.connectionState eNone IsarConnectionState_CONNECTED,
            MicEvent.openTrack eNone, MicEvent.closeTrack eNone,
            MicEvent.connectionState eNone IsarConnectionState_CLOSING,
            MicEvent.connectionState eNone IsarConnectionState_CONNECTED]
        (FStreamMicrophoneCaptureStream.initial.SetStreamApi 7)
      = ({ FStreamMicrophoneCaptureStream.initial with
           m_streamConnection := 7, m_connected := true },
         [⟨7, true, eNone⟩, ⟨7, false, eNone⟩]) := by
  refine ⟨fun e1 e2 => ⟨rfl, rfl, rfl⟩, fun e1 e2 => rfl, fun e1 e2 => rfl, by decide⟩

/-- C26 as stated fails: on an object constructed without an XR system, after a deferred
`OpenTrack`, a CONNECTED notification that opens the track and a FAILED notification, the
track is marked open while the connection is not marked connected; likewise on an object
constructed while the headset is connected, after `OpenTrack` and a FAILED notification. -/
theorem track_open_invariant_counterexample :
    (runMic [MicEvent.openTrack eNone,
             MicEvent.connectionState eNone IsarConnectionState_CONNECTED,
             MicEvent.connectionState eNone IsarConnectionState_FAILED]
        (FStreamMicrophoneCaptureStream.construct none)).1.m_isTrackOpen = true ∧
    (runMic [MicEvent.openTrack eNone,
             MicEvent.connectionState eNone IsarConnectionState_CONNECTED,
             MicEvent.connectionState eNone IsarConnectionState_FAILED]
        (FStreamMicrophoneCaptureStream.construct none)).1.m_connected = false ∧
    (runMic [MicEvent.openTrack eNone,
             MicEvent.connectionState eNone IsarConnectionState_FAILED]
        (FStreamMicrophoneCaptureStream.construct (some connectedHMD))).1.m_isTrackOpen
      = true ∧
    (runMic [MicEvent.openTrack eNone,
             MicEvent.connectionState eNone IsarConnectionState_FAILED]
        (FStreamMicrophoneCaptureStream.construct (some connectedHMD))).1.m_connected
      = false := by
  decide


theorem connectionState_values :
    IsarConnectionState_DISCONNECTED = 0 ∧ IsarConnectionState_CONNECTING = 1 ∧
    IsarConnectionState_CONNECTED = 2 ∧ IsarConnectionState_CLOSING = 3 ∧
    IsarConnectionState_FAILED = 4 := by
  decide

theorem runMic_append (es : List MicEvent) (e : MicEvent) (s : FStreamMicrophoneCaptureStream) :
    runMic (es ++ [e]) s =
      ((e.step (runMic es s).1).1, (runMic es s).2 ++ (e.step (runMic es s).1).2) := by
  simp [runMic, List.foldl_append]

theorem lastMicNotification_append (es : List MicEvent) (e : MicEvent) :
    lastMicNotification (es ++ [e]) =
      match e.notified with
      | some n => some n
      | none => lastMicNotification es := by
  unfold lastMicNotification
  rw [List.filterMap_append]
  cases hn : e.notified with
  | none => simp [List.filterMap, hn]
  | some n => simp [List.filterMap, hn]

theorem OpenTrack_invariant (err : IsarError) (s : FStreamMicrophoneCaptureStream)
    (last : Option Int) (h : trackOpenInvariant s last) :
    trackOpenInvariant (s.OpenTrack err).2.1 last := by
  unfold FStreamMicrophoneCaptureStream.OpenTrack
  split
  · exact h
  · split
    · exact h
    · rename_i hc
      have hc2 : s.m_connected = true := by simpa using hc
      split
      · exact h
      · exact fun _ => Or.inl hc2

theorem CloseTrack_invariant (err : IsarError) (s : FStreamMicrophoneCaptureStream)
    (last : Option Int) (h : trackOpenInvariant s last) :
    trackOpenInvariant (s.CloseTrack err).2.1 last := by
  unfold FStreamMicrophoneCaptureStream.CloseTrack
  split
  · exact h
  · split
    · exact h
    · exact fun ho => by simp at ho

theorem OnConnectionStateChanged_invariant (err : IsarError) (newState : Int)
    (s : FStreamMicrophoneCaptureStream) :
    trackOpenInvariant (s.OnConnectionStateChanged err newState).1 (some newState) := by
  unfold FStreamMicrophoneCaptureStream.OnConnectionStateChanged
  split
  · dsimp only
    split
    · split
      · exact fun _ => Or.inl rfl
      · exact fun _ => Or.inl rfl
    · exact fun _ => Or.inl rfl
  · rename_i hc
    have hc2 : newState ≠ IsarConnectionState_CONNECTED := by simpa using hc
    dsimp only
    split
    · exact fun ho => by simp at ho
    · rename_i hd
      simp only [Bool.or_eq_true, beq_iff_eq, not_or] at hd
      exact fun _ => Or.inr ⟨newState, rfl, hc2, hd.1, hd.2⟩

theorem step_invariant (e : MicEvent) (s : FStreamMicrophoneCaptureStream) (last : Option Int)
    (h : trackOpenInvariant s last) :
    trackOpenInvariant (e.step s).1
      (match e.notified with
       | some n => some n
       | none => last) := by
  cases e with
  | openTrack err => exact OpenTrack_invariant err s last h
  | closeTrack err => exact CloseTrack_invariant err s last h
  | startStream err =>
    have h1 := OpenTrack_invariant err s last h
    simp only [MicEvent.step, MicEvent.notified, FStreamMicrophoneCaptureStream.StartStream]
    split
    · exact h1
    · exact h1
  | stopStream err =>
    have h1 := CloseTrack_invariant err s last h
    simp only [MicEvent.step, MicEvent.notified, FStreamMicrophoneCaptureStream.StopStream]
    split
    · exact h1
    · exact h1
  | connectionState err newState => exact OnConnectionStateChanged_invariant err newState s

theorem construct_track_closed (xrSystem : Option FStreamHMD) :
    (FStreamMicrophoneCaptureStream.construct xrSystem).m_isTrackOpen = false := by
  unfold FStreamMicrophoneCaptureStream.construct
  cases xrSystem with
  | none => rfl
  | some streamHMD =>
    dsimp only
    split <;> rfl

theorem runMic_invariant (xrSystem : Option FStreamHMD) (events : List MicEvent) :
    trackOpenInvariant (runMic events (FStreamMicrophoneCaptureStream.construct xrSystem)).1
      (lastMicNotification events) := by
  induction events using List.reverseRecOn with
  | nil =>
    intro h
    have hc := construct_track_closed xrSystem
    simp [runMic, hc] at h
  | append_singleton es e ih =>
    rw [runMic_append, lastMicNotification_append]
    exact step_invariant e _ _ ih

/-- C26 amended: in every state reached from a constructed object, whatever the XR system
it was constructed against, by `OpenTrack`, `CloseTrack`, `StartStream`, `StopStream` and
connection-state notifications, the track is marked open (`m_isTrackOpen`) only while the
connection is marked connected (`m_connected`) or the most recent notification was
neither CONNECTED, DISCONNECTED nor CLOSING. -/
theorem track_open_invariant (xrSystem : Option FStreamHMD) (events : List MicEvent)
    (hopen : (runMic events
      (FStreamMicrophoneCaptureStream.construct xrSystem)).1.m_isTrackOpen = true) :
    (runMic events (FStreamMicrophoneCaptureStream.construct xrSystem)).1.m_connected = true ∨
    ∃ n, lastMicNotification events = some n ∧ n ≠ IsarConnectionState_CONNECTED ∧
      n ≠ IsarConnectionState_DISCONNECTED ∧ n ≠ IsarConnectionState_CLOSING :=
  runMic_invariant xrSystem events hopen

/-- C26 amended, on an object constructed while the headset is connected, after
`OpenTrack` alone. -/
theorem track_open_invariant_witness :
    (FStreamMicrophoneCaptureStream.construct (some connectedHMD)).m_connected = true ∧
    (runMic [MicEvent.openTrack eNone]
        (FStreamMicrophoneCaptureStream.construct (some connectedHMD))).1.m_isTrackOpen
      = true ∧
    ((runMic [MicEvent.openTrack eNone]
        (FStreamMicrophoneCaptureStream.construct (some connectedHMD))).1.m_connected = true ∨
      ∃ n, lastMicNotification [MicEvent.openTrack eNone] = some n ∧
        n ≠ IsarConnectionState_CONNECTED ∧ n ≠ IsarConnectionState_DISCONNECTED ∧
        n ≠ IsarConnectionState_CLOSING) :=
  ⟨by decide, by decide,
   track_open_invariant (some connectedHMD) [MicEvent.openTrack eNone] (by decide)⟩


/-- C27: the sample -32768 is delivered as the `float` nearest to -32768 / 32767, whose
bit pattern `0xBF800100` is -(1 + 2^-15), outside [-1, 1]; 32767, 0 and -32767 are
delivered as 1, 0 and -1. The four values reach the callback in input order, with
`samplesPerChannel` frames and `NUM_CHANNELS` = 1 channel. -/
theorem OnMicrophoneCapture_min_sample_out_of_range :
    toI16 0x8000 = -32768 ∧
    divToF32 (-32768) MAX_int16 = 0xBF800100 ∧
    inUnitRange (divToF32 (-32768) MAX_int16) = false ∧
    capturingMic.OnMicrophoneCapture extremeSamples
      = some ({ capturingMic with m_streamTime := 1 },
              [⟨[0xBF800100, 0x3F800000, 0, 0xBF800000], 4, 1, 48000, 1, false⟩]) ∧
    [divToF32 1 1, divToF32 1 2, divToF32 (-3) 2, divToF32 1 3, divToF32 2 3, divToF32 1 10]
      = [0x3F800000, 0x3F000000, 0xBFC00000, 0x3EAAAAAB, 0x3F2AAAAB, 0x3DCCCCCD] := by
  refine ⟨by decide, by decide, by decide, by decide, by decide⟩


/-! ## Diagnostic options -/

theorem diagnostic_values :
    IsarDiagnosticOptions_DISABLED = 0 ∧ IsarDiagnosticOptions_ENABLE_TRACING = 2 ^ 0 ∧
    IsarDiagnosticOptions_ENABLE_EVENT_LOG = 2 ^ 1 ∧
    IsarDiagnosticOptions_ENABLE_STATS_COLLECTOR = 2 ^ 2 := by
  decide

theorem diagnosticStep_testBit (m : Nat) (s : String)
    (i : Nat) :
    (diagnosticStep m s).testBit i =
      (m.testBit i || (decide (0 = i) && FString_eq s "tracing") ||
        (decide (1 = i) && FString_eq s "event-log") ||
        (decide (2 = i) && FString_eq s "stats-collector")) := by
  obtain ⟨_, h1, h2, h3⟩ := diagnostic_values
  unfold diagnosticStep
  rw [h1, h2, h3]
  have t0 : Nat.testBit 1 i = decide (0 = i) := Nat.testBit_two_pow (n := 0)
  have t1 : Nat.testBit 2 i = decide (1 = i) := Nat.testBit_two_pow (n := 1)
  have t2 : Nat.testBit 4 i = decide (2 = i) := Nat.testBit_two_pow (n := 2)
  cases FString_eq s "tracing" <;> cases FString_eq s "event-log" <;>
    cases FString_eq s "stats-collector" <;>
    simp [Nat.testBit_or, t0, t1, t2]

theorem foldl_diagnosticStep_testBit (arr : List String) :
    ∀ (m i : Nat), (arr.foldl (diagnosticStep) m).testBit i =
      (m.testBit i || (decide (0 = i) && arr.any (fun s => FString_eq s "tracing")) ||
        (decide (1 = i) && arr.any (fun s => FString_eq s "event-log")) ||
        (decide (2 = i) && arr.any (fun s => FString_eq s "stats-collector"))) := by
  induction arr with
  | nil => intro m i; simp
  | cons s rest ih =>
    intro m i
    rw [List.foldl_cons, ih, diagnosticStep_testBit]
    simp only [List.any_cons]
    cases m.testBit i <;> cases decide (0 = i) <;> cases decide (1 = i) <;>
      cases decide (2 = i) <;> cases FString_eq s "tracing" <;>
      cases FString_eq s "event-log" <;> cases FString_eq s "stats-collector" <;> simp

theorem diagnosticOptionsOf_testBit (diagnosticsArray : Option (List String)) (previous i : Nat) :
    (diagnosticOptionsOf diagnosticsArray previous).testBit i =
      ((decide (0 = i) && (diagnosticsArray.getD []).any (fun s => FString_eq s "tracing")) ||
        (decide (1 = i) && (diagnosticsArray.getD []).any (fun s => FString_eq s "event-log")) ||
        (decide (2 = i) &&
          (diagnosticsArray.getD []).any (fun s => FString_eq s "stats-collector"))) := by
  obtain ⟨h0, _, _, _⟩ := diagnostic_values
  unfold diagnosticOptionsOf
  rw [h0]
  cases diagnosticsArray with
  | none => simp
  | some arr =>
    simp only [Option.getD_some]
    split
    · rw [foldl_diagnosticStep_testBit]
      simp
    · rename_i hl
      have : arr = [] := by
        cases arr with
        | nil => rfl
        | cons a l => simp at hl
      subst this
      simp


theorem any_congr_of_mem_iff (p : String → Bool) (arr arr2 : List String)
    (h : ∀ s, s ∈ arr ↔ s ∈ arr2) : arr.any p = arr2.any p := by
  rw [Bool.eq_iff_iff]
  simp only [List.any_eq_true]
  constructor
  · rintro ⟨s, hs, hp⟩
    exact ⟨s, (h s).mp hs, hp⟩
  · rintro ⟨s, hs, hp⟩
    exact ⟨s, (h s).mpr hs, hp⟩

theorem FString_eq_self (s : String) : FString_eq s s = true := by
  simp [FString_eq]

/-- C28 as stated fails: the array holding only "TRACING" has ENABLE_TRACING set in the
computed mask although the string "tracing" does not occur in it, and likewise
"Event-Log" and "STATS-collector" set the other two bits. -/
theorem diagnostic_mask_counterexample :
    "tracing" ∉ ["TRACING"] ∧
    (diagnosticOptionsOf (some ["TRACING"]) 0).testBit 0 = true ∧
    diagnosticOptionsOf (some ["TRACING"]) 0 = IsarDiagnosticOptions_ENABLE_TRACING ∧
    "event-log" ∉ ["Event-Log", "STATS-collector"] ∧
    "stats-collector" ∉ ["Event-Log", "STATS-collector"] ∧
    diagnosticOptionsOf (some ["Event-Log", "STATS-collector"]) 0 = 6 := by
  decide

/-- C28 amended: for every `diagnostic-options` array, the mask computed by
`InitConnectionConfig` has bit 0 (ENABLE_TRACING) set iff an entry equals "tracing" up to
letter case (the comparison of `FString::operator==`), bit 1 (ENABLE_EVENT_LOG) iff an
entry equals "event-log" up to letter case, bit 2 (ENABLE_STATS_COLLECTOR) iff an entry
equals "stats-collector" up to letter case, and no other bit set; in particular each bit
is set when its name occurs; the mask does not depend on the previous value of the member
nor on the order or repetition of the entries, and is `IsarDiagnosticOptions_DISABLED`
when the array is empty or absent. -/
theorem diagnostic_mask (diagnosticsArray : Option (List String)) (previous : Nat) :
    IsarDiagnosticOptions_ENABLE_TRACING = 2 ^ 0 ∧
    IsarDiagnosticOptions_ENABLE_EVENT_LOG = 2 ^ 1 ∧
    IsarDiagnosticOptions_ENABLE_STATS_COLLECTOR = 2 ^ 2 ∧
    ((diagnosticOptionsOf diagnosticsArray previous).testBit 0 = true ↔
      ∃ s ∈ diagnosticsArray.getD [],
        s.data.map toLowerCode = "tracing".data.map Char.toNat) ∧
    ((diagnosticOptionsOf diagnosticsArray previous).testBit 1 = true ↔
      ∃ s ∈ diagnosticsArray.getD [],
        s.data.map toLowerCode = "event-log".data.map Char.toNat) ∧
    ((diagnosticOptionsOf diagnosticsArray previous).testBit 2 = true ↔
      ∃ s ∈ diagnosticsArray.getD [],
        s.data.map toLowerCode = "stats-collector".data.map Char.toNat) ∧
    ("tracing" ∈ diagnosticsArray.getD [] →
      (diagnosticOptionsOf diagnosticsArray previous).testBit 0 = true) ∧
    ("event-log" ∈ diagnosticsArray.getD [] →
      (diagnosticOptionsOf diagnosticsArray previous).testBit 1 = true) ∧
    ("stats-collector" ∈ diagnosticsArray.getD [] →
      (diagnosticOptionsOf diagnosticsArray previous).testBit 2 = true) ∧
    (∀ i : Nat, 3 ≤ i →
      (diagnosticOptionsOf diagnosticsArray previous).testBit i = false) ∧
    (∀ previous2 : Nat,
      diagnosticOptionsOf diagnosticsArray previous2
        = diagnosticOptionsOf diagnosticsArray previous) ∧
    (∀ arr arr2 : List String, (∀ s, s ∈ arr ↔ s ∈ arr2) →
      diagnosticOptionsOf (some arr) previous
        = diagnosticOptionsOf (some arr2) previous) ∧
    diagnosticOptionsOf none previous = IsarDiagnosticOptions_DISABLED ∧
    diagnosticOptionsOf (some []) previous = IsarDiagnosticOptions_DISABLED := by
  obtain ⟨h0, h1, h2, h3⟩ := diagnostic_values
  have c0 : "tracing".data.map toLowerCode = "tracing".data.map Char.toNat := by decide
  have c1 : "event-log".data.map toLowerCode = "event-log".data.map Char.toNat := by decide
  have c2 : "stats-collector".data.map toLowerCode = "stats-collector".data.map Char.toNat := by
    decide
  refine ⟨h1, h2, h3, ?_, ?_, ?_, ?_, ?_, ?_, ?_, ?_, ?_, rfl, rfl⟩
  · rw [diagnosticOptionsOf_testBit, ← c0]
    simp [FString_eq]
  · rw [diagnosticOptionsOf_testBit, ← c1]
    simp [FString_eq]
  · rw [diagnosticOptionsOf_testBit, ← c2]
    simp [FString_eq]
  · intro h
    rw [diagnosticOptionsOf_testBit]
    simp only [decide_True, Bool.true_and, Bool.or_eq_true, List.any_eq_true]
    exact Or.inl (Or.inl ⟨_, h, FString_eq_self _⟩)
  · intro h
    rw [diagnosticOptionsOf_testBit]
    simp only [decide_True, Bool.true_and, Bool.or_eq_true, List.any_eq_true]
    exact Or.inl (Or.inr ⟨_, h, FString_eq_self _⟩)
  · intro h
    rw [diagnosticOptionsOf_testBit]
    simp only [decide_True, Bool.true_and, Bool.or_eq_true, List.any_eq_true]
    exact Or.inr ⟨_, h, FString_eq_self _⟩
  · intro i hi
    rw [diagnosticOptionsOf_testBit]
    have e0 : decide (0 = i) = false := by simp; omega
    have e1 : decide (1 = i) = false := by simp; omega
    have e2 : decide (2 = i) = false := by simp; omega
    simp [e0, e1, e2]
  · intro previous2
    rfl
  · intro arr arr2 h
    apply Nat.eq_of_testBit_eq
    intro i
    rw [diagnosticOptionsOf_testBit, diagnosticOptionsOf_testBit]
    simp only [Option.getD_some]
    rw [any_congr_of_mem_iff _ arr arr2 h, any_congr_of_mem_iff _ arr arr2 h,
      any_congr_of_mem_iff _ arr arr2 h]

/-- C28 amended, on arrays: "stats-collector", "Tracing", "tracing" gives the mask 5 from
any previous value in either order, "verbose" alone gives 0, and bit 0 is set because
"tracing" occurs. -/
theorem diagnostic_mask_witness :
    "tracing" ∈ (some ["stats-collector", "Tracing", "tracing"]).getD [] ∧
    (diagnosticOptionsOf (some ["stats-collector", "Tracing", "tracing"]) 7).testBit 0
      = true ∧
    (∀ s, s ∈ ["stats-collector", "Tracing", "tracing"] ↔
      s ∈ ["tracing", "Tracing", "stats-collector"]) ∧
    diagnosticOptionsOf (some ["stats-collector", "Tracing", "tracing"]) 7
      = diagnosticOptionsOf (some ["tracing", "Tracing", "stats-collector"]) 7 ∧
    diagnosticOptionsOf (some ["stats-collector", "Tracing", "tracing"]) 7 = 5 ∧
    diagnosticOptionsOf (some ["verbose"]) 7 = 0 :=
  ⟨by decide,
   (diagnostic_mask (some ["stats-collector", "Tracing", "tracing"]) 7).2.2.2.2.2.2.1
     (by decide),
   by intro s; simp only [List.mem_cons, List.mem_singleton, List.not_mem_nil]; tauto,
   (diagnostic_mask (some ["stats-collector", "Tracing", "tracing"]) 7).2.2.2.2.2.2.2.2.2.2.2.1
     ["stats-collector", "Tracing", "tracing"] ["tracing", "Tracing", "stats-collector"]
     (by intro s; simp only [List.mem_cons, List.mem_singleton, List.not_mem_nil]; tauto),
   by decide, by decide⟩

/-! ## Settings -/

/-- C29: after `SaveSettingsToConfig`, `MinPort <= MaxPort` (both are the prior `MaxPort`
when `MinPort` was greater, both unchanged otherwise), `EncoderBandwidth` is not 0 (-1 when
it was 0, unchanged otherwise), `Port` is unchanged, and the JSON fields
`port-range.min-port`, `port-range.max-port`, `encoder-bandwidth-kbps` and
`signaling.port` hold the values of the object after the call. -/
theorem SaveSettingsToConfig_normalises (s : UStreamHMDSettings) :
    s.SaveSettingsToConfig.1.MinPort ≤ s.SaveSettingsToConfig.1.MaxPort ∧
    s.SaveSettingsToConfig.1.MaxPort = s.MaxPort ∧
    s.SaveSettingsToConfig.1.MinPort = (if s.MinPort > s.MaxPort then s.MaxPort else s.MinPort) ∧
    s.SaveSettingsToConfig.1.EncoderBandwidth ≠ 0 ∧
    s.SaveSettingsToConfig.1.EncoderBandwidth
      = (if s.EncoderBandwidth = 0 then -1 else s.EncoderBandwidth) ∧
    s.SaveSettingsToConfig.1.Port = s.Port ∧
    (s.SaveSettingsToConfig.2.1.field "port-range").bind (FJsonValue.field "min-port")
      = some (.number s.SaveSettingsToConfig.1.MinPort) ∧
    (s.SaveSettingsToConfig.2.1.field "port-range").bind (FJsonValue.field "max-port")
      = some (.number s.SaveSettingsToConfig.1.MaxPort) ∧
    s.SaveSettingsToConfig.2.1.field "encoder-bandwidth-kbps"
      = some (.number s.SaveSettingsToConfig.1.EncoderBandwidth) ∧
    (s.SaveSettingsToConfig.2.1.field "signaling").bind (FJsonValue.field "port")
      = some (.number s.SaveSettingsToConfig.1.Port) := by
  obtain ⟨port, minPort, maxPort, bandwidth, stats⟩ := s
  unfold UStreamHMDSettings.SaveSettingsToConfig
  simp only []
  by_cases hb : bandwidth = 0 <;> by_cases hp : minPort > maxPort <;>
    simp [hb, hp, FJsonValue.field, List.lookup] <;> omega

/-- C30: when the file cannot be read, `LoadSettingsFromConfig` returns false and the
constructor assigns the defaults 9999, 50100, 50100, -1 and false; when the file is read
but its content does not deserialise to a JSON object, `LoadSettingsFromConfig` returns
true without touching a property, and the constructor keeps what `Super` initialised and
assigns no default. -/
theorem construct_keeps_unparsed (fstringEq : String → String → Bool)
    (super : UStreamHMDSettings) :
    super.LoadSettingsFromConfig fstringEq none = (false, super) ∧
    UStreamHMDSettings.construct fstringEq none super = UStreamHMDSettings.defaults ∧
    UStreamHMDSettings.defaults = ⟨9999, 50100, 50100, -1, false⟩ ∧
    super.LoadSettingsFromConfig fstringEq (some none) = (true, super) ∧
    UStreamHMDSettings.construct fstringEq (some none) super = super ∧
    UStreamHMDSettings.construct fstringEq (some none) ⟨0, 0, 0, 0, false⟩
      ≠ UStreamHMDSettings.defaults := by
  refine ⟨rfl, rfl, rfl, rfl, rfl, fun h => ?_⟩
  exact absurd (show (⟨0, 0, 0, 0, false⟩ : UStreamHMDSettings) = UStreamHMDSettings.defaults
    from h) (by decide)

end Isar
